import Mathlib

/-!
# Output-script classification (`src/script/standard.cpp`)

A shallow embedding of `Solver`, `ScriptSigArgsExpected`, `IsStandard`,
`ExtractDestination`, `ExtractDestinations`, `GetScriptForDestination` and
`GetScriptForMultisig`, followed by theorems about them.

Conventions.
* A byte is a `Nat`; a `CScript` and a `valtype` are lists of bytes.
* A `CScript::const_iterator` is modelled by the bytes that remain after it, so
  `pc == script.end()` reads `pc = []`.
* Out-parameters are returned next to the C++ return value.
* Reading a vector out of range, or converting a vector of the wrong size to a
  `uint160`, is a `Fault`; so is running out of loop fuel.
-/

namespace Standard

/-! ## Basic types -/

abbrev valtype := List Nat

abbrev CScript := List Nat

/-- The enumeration `txnouttype`. -/
inductive txnouttype
  | TX_NONSTANDARD
  | TX_PUBKEY
  | TX_PUBKEYHASH
  | TX_PUBKEYHASH_NONCED
  | TX_SCRIPTHASH
  | TX_MULTISIG
  | TX_NULL_DATA
  | TX_DELAYEDPUBKEY
  | TX_DELAYEDPUBKEYHASH
  | TX_DELAYEDSCRIPTHASH
  | TX_DELAYEDMULTISIG
  | TX_ESCROW
  | TX_ESCROW_SENDER
  | TX_ESCROW_FEE
  deriving DecidableEq, Repr

open txnouttype

/-- The variant `CTxDestination`: no destination, a key hash or a script hash. -/
inductive CTxDestination
  | CNoDestination
  | CKeyID (h : valtype)
  | CScriptID (h : valtype)
  deriving DecidableEq, Repr

/-- What the C++ leaves undefined or aborts on, plus exhaustion of the fuel that
bounds the loops of the embedding. -/
inductive Fault
  | outOfBounds
  | badUint160
  | outOfFuel
  deriving DecidableEq, Repr

/-! ## Opcodes

`script/script.h` is not part of the sources at hand. The opcodes of the script
language that the node shares with the network have the numbers of that
encoding; the opcodes this code base adds are fields of `Params`. -/

/-- Modelled from the spec: an opcode of the script language of the absent `script/script.h`,
with its number in the script encoding of section 6. -/
def OP_0 : Nat := 0x00

/-- Modelled from the spec: an opcode of the script language of the absent `script/script.h`,
with its number in the script encoding of section 6. -/
def OP_PUSHDATA1 : Nat := 0x4c

/-- Modelled from the spec: an opcode of the script language of the absent `script/script.h`,
with its number in the script encoding of section 6. -/
def OP_PUSHDATA2 : Nat := 0x4d

/-- Modelled from the spec: an opcode of the script language of the absent `script/script.h`,
with its number in the script encoding of section 6. -/
def OP_PUSHDATA4 : Nat := 0x4e

/-- Modelled from the spec: an opcode of the script language of the absent `script/script.h`,
with its number in the script encoding of section 6. -/
def OP_1 : Nat := 0x51

/-- Modelled from the spec: an opcode of the script language of the absent `script/script.h`,
with its number in the script encoding of section 6. -/
def OP_16 : Nat := 0x60

/-- Modelled from the spec: an opcode of the script language of the absent `script/script.h`,
with its number in the script encoding of section 6. -/
def OP_IF : Nat := 0x63

/-- Modelled from the spec: an opcode of the script language of the absent `script/script.h`,
with its number in the script encoding of section 6. -/
def OP_ELSE : Nat := 0x67

/-- Modelled from the spec: an opcode of the script language of the absent `script/script.h`,
with its number in the script encoding of section 6. -/
def OP_ENDIF : Nat := 0x68

/-- Modelled from the spec: an opcode of the script language of the absent `script/script.h`,
with its number in the script encoding of section 6. -/
def OP_VERIFY : Nat := 0x69

/-- Modelled from the spec: an opcode of the script language of the absent `script/script.h`,
with its number in the script encoding of section 6. -/
def OP_RETURN : Nat := 0x6a

/-- Modelled from the spec: an opcode of the script language of the absent `script/script.h`,
with its number in the script encoding of section 6. -/
def OP_TOALTSTACK : Nat := 0x6b

/-- Modelled from the spec: an opcode of the script language of the absent `script/script.h`,
with its number in the script encoding of section 6. -/
def OP_DUP : Nat := 0x76

/-- Modelled from the spec: an opcode of the script language of the absent `script/script.h`,
with its number in the script encoding of section 6. -/
def OP_SWAP : Nat := 0x7c

/-- Modelled from the spec: an opcode of the script language of the absent `script/script.h`,
with its number in the script encoding of section 6. -/
def OP_EQUAL : Nat := 0x87

/-- Modelled from the spec: an opcode of the script language of the absent `script/script.h`,
with its number in the script encoding of section 6. -/
def OP_EQUALVERIFY : Nat := 0x88

/-- Modelled from the spec: an opcode of the script language of the absent `script/script.h`,
with its number in the script encoding of section 6. -/
def OP_HASH160 : Nat := 0xa9

/-- Modelled from the spec: an opcode of the script language of the absent `script/script.h`,
with its number in the script encoding of section 6. -/
def OP_CHECKSIG : Nat := 0xac

/-- Modelled from the spec: an opcode of the script language of the absent `script/script.h`,
with its number in the script encoding of section 6. -/
def OP_CHECKMULTISIG : Nat := 0xae

/-- Modelled from the spec: a template-matching opcode of the absent `script/script.h`,
with its number in the script encoding of section 6. -/
def OP_SMALLDATA : Nat := 0xf9

/-- Modelled from the spec: a template-matching opcode of the absent `script/script.h`,
with its number in the script encoding of section 6. -/
def OP_SMALLINTEGER : Nat := 0xfa

/-- Modelled from the spec: a template-matching opcode of the absent `script/script.h`,
with its number in the script encoding of section 6. -/
def OP_PUBKEYS : Nat := 0xfb

/-- Modelled from the spec: a template-matching opcode of the absent `script/script.h`,
with its number in the script encoding of section 6. -/
def OP_PUBKEYHASH : Nat := 0xfd

/-- Modelled from the spec: a template-matching opcode of the absent `script/script.h`,
with its number in the script encoding of section 6. -/
def OP_PUBKEY : Nat := 0xfe

/-- Modelled from the spec: the invalid opcode of the absent `script/script.h`,
with its number in the script encoding of section 6. -/
def OP_INVALIDOPCODE : Nat := 0xff

/-- Everything `standard.cpp` takes from elsewhere and whose definition is not in
the sources at hand: the numbers of the opcodes added by this code base, the
numeric order of the `txnouttype` enumerators (it fixes the iteration order of
the `multimap`), the `-datacarrier` flag read by `GetBoolArg`, the global
`nMaxDatacarrierBytes`, the constant `DELAYED_DELTA`, and `CPubKey::IsValid` and
`CPubKey::GetID` as functions of the serialised key. -/
structure Params where
  OP_CHECKLOCKTIMEVERIFY : Nat
  OP_CHECKDATASIG : Nat
  OP_CHECKTRANSFERNONCE : Nat
  OP_CHECKEXPIRY : Nat
  OP_NONCE : Nat
  OP_NUMERIC : Nat
  OP_SCRIPTNUMBER : Nat
  rank : txnouttype → Nat
  fDataCarrier : Bool
  nMaxDatacarrierBytes : Nat
  DELAYED_DELTA : Int
  pubKeyIsValid : valtype → Bool
  pubKeyGetID : valtype → valtype

/-- An added opcode is a one-byte opcode behind the pushes and the small
integers `OP_1..OP_16`. -/
def isPlainOpcode (op : Nat) : Bool :=
  decide (OP_16 < op) && decide (op ≤ 0xff)

/-- The wildcard opcodes that `Solver` tests for, in the order of its tests. -/
def wildcardOpcodes (P : Params) : List Nat :=
  [OP_PUBKEYS, OP_PUBKEY, OP_PUBKEYHASH, P.OP_NONCE, P.OP_NUMERIC, OP_SMALLINTEGER,
    P.OP_SCRIPTNUMBER, OP_SMALLDATA]

/-- The opcodes added by this code base that the templates use as literals. -/
def ownLiterals (P : Params) : List Nat :=
  [P.OP_CHECKLOCKTIMEVERIFY, P.OP_CHECKDATASIG, P.OP_CHECKTRANSFERNONCE, P.OP_CHECKEXPIRY]

/-- The other opcodes that the templates use as literals. -/
def sharedLiterals : List Nat :=
  [OP_CHECKSIG, OP_HASH160, OP_EQUAL, OP_DUP, OP_EQUALVERIFY, OP_CHECKMULTISIG, OP_IF,
    OP_VERIFY, OP_SWAP, OP_TOALTSTACK, OP_ELSE, OP_ENDIF, OP_RETURN]

/-- The assumptions on the absent header: the added opcodes are one-byte opcodes
behind `OP_16`, the opcodes that occur in the templates are pairwise different,
and `nMaxDatacarrierBytes` fits its type `unsigned`. -/
def Params.wellFormed (P : Params) : Bool :=
  (ownLiterals P).all isPlainOpcode
    && [P.OP_NONCE, P.OP_NUMERIC, P.OP_SCRIPTNUMBER].all isPlainOpcode
    && decide (wildcardOpcodes P ++ ownLiterals P ++ sharedLiterals).Nodup
    && decide (P.nMaxDatacarrierBytes < 2 ^ 32)

/-! ## `CScript` -/

/-- Result of `CScript::GetOp`: the return value, the iterator after the call,
`opcodeRet` and `vchRet`. -/
structure GetOpResult where
  ok : Bool
  pc : CScript
  opcodeRet : Nat
  vchRet : valtype
  deriving DecidableEq, Repr

/-- The tail of `GetOp2` once `nSize` is known: the bounds test, the copy into
`vchRet` and the advance of the iterator. -/
def readPush (opcode nSize : Nat) (pc : CScript) : GetOpResult :=
  if pc.length < nSize then ⟨false, pc, OP_INVALIDOPCODE, []⟩
  else ⟨true, pc.drop nSize, opcode, pc.take nSize⟩

/-- Little-endian value of the first `n` bytes of `pc` (the `memcpy` into `nSize`). -/
def readLE : Nat → CScript → Nat
  | 0, _ => 0
  | _ + 1, [] => 0
  | n + 1, b :: pc => b + 256 * readLE n pc

/-- Modelled from the spec: `CScript::GetOp` of the absent `script/script.h`, the
cursor-based decode operation of section 3 and 6: an opcode up to `OP_PUSHDATA4`
pushes the bytes that follow it (their number is the opcode itself, or is read
from the next 1, 2 or 4 bytes), every other opcode stands alone. On failure
`opcodeRet` is `OP_INVALIDOPCODE`, `vchRet` is empty and the iterator stays where
the failure was met. -/
def GetOp (pc : CScript) : GetOpResult :=
  match pc with
  | [] => ⟨false, [], OP_INVALIDOPCODE, []⟩
  | opcode :: pc =>
    if opcode ≤ OP_PUSHDATA4 then
      if opcode < OP_PUSHDATA1 then readPush opcode opcode pc
      else if opcode = OP_PUSHDATA1 then
        match pc with
        | [] => ⟨false, [], OP_INVALIDOPCODE, []⟩
        | nSize :: pc => readPush opcode nSize pc
      else if opcode = OP_PUSHDATA2 then
        if pc.length < 2 then ⟨false, pc, OP_INVALIDOPCODE, []⟩
        else readPush opcode (readLE 2 pc) (pc.drop 2)
      else
        if pc.length < 4 then ⟨false, pc, OP_INVALIDOPCODE, []⟩
        else readPush opcode (readLE 4 pc) (pc.drop 4)
    else ⟨true, pc, opcode, []⟩

/-- Little-endian bytes of `n`, `k` of them. -/
def writeLE : Nat → Nat → List Nat
  | 0, _ => []
  | k + 1, n => (n % 256) :: writeLE k (n / 256)

/-- Modelled from the spec: `CScript::operator<<(const std::vector<unsigned char>&)`
of the absent `script/script.h`: the shortest push of `b`. -/
def pushData (script : CScript) (b : valtype) : CScript :=
  if b.length < OP_PUSHDATA1 then script ++ [b.length] ++ b
  else if b.length ≤ 0xff then script ++ [OP_PUSHDATA1, b.length] ++ b
  else if b.length ≤ 0xffff then script ++ [OP_PUSHDATA2] ++ writeLE 2 b.length ++ b
  else script ++ [OP_PUSHDATA4] ++ writeLE 4 (b.length % 2 ^ 32) ++ b

/-- Modelled from the spec: `CScript::operator<<(opcodetype)` of the absent
`script/script.h`; it appends the opcode as one byte (and throws for an opcode
above `0xff`, which no opcode used here is). -/
def pushOp (script : CScript) (opcode : Nat) : CScript :=
  script ++ [opcode]

/-- Modelled from the spec: `CScript::EncodeOP_N` of the absent `script/script.h`
(it asserts `0 ≤ n ≤ 16`). -/
def EncodeOP_N (n : Nat) : Nat :=
  if n = 0 then OP_0 else OP_1 + n - 1

/-- Modelled from the spec: `CScript::DecodeOP_N` of the absent `script/script.h`
(it asserts that the opcode is `OP_0` or in `OP_1..OP_16`). -/
def DecodeOP_N (opcode : Nat) : Nat :=
  if opcode = OP_0 then 0 else opcode - (OP_1 - 1)

/-- Modelled from the spec: `CScript::IsPayToScriptHash` of the absent
`script/script.h`: the exact fixed shape `HASH160 <20-byte push> EQUAL`. -/
def IsPayToScriptHash (script : CScript) : Bool :=
  script.length == 23 && script[0]? == some OP_HASH160 && script[1]? == some 0x14
    && script[22]? == some OP_EQUAL

/-! ## Vector access -/

/-- Checked `v[i]`. -/
def vecAt {α : Type} (v : List α) (i : Nat) : Except Fault α :=
  match v[i]? with
  | some x => .ok x
  | none => .error .outOfBounds

/-- Checked `v.front()`. -/
def vecFront {α : Type} (v : List α) : Except Fault α :=
  vecAt v 0

/-- Checked `v.back()`. -/
def vecBack {α : Type} (v : List α) : Except Fault α :=
  match v.getLast? with
  | some x => .ok x
  | none => .error .outOfBounds

/-- The `size_t` difference `size - k` of the size of a vector (it is below
`2 ^ 64`) and a constant: below zero it wraps around. -/
def sizeSub (size k : Nat) : Nat :=
  if size < k then size + 2 ^ 64 - k else size - k

/-- The constructor `uint160(const std::vector<unsigned char>&)`; only a vector
of `sizeof(uint160)` bytes converts. -/
def toUint160 (vch : valtype) : Except Fault valtype :=
  if vch.length = 20 then .ok vch else .error .badUint160

/-! ## The template registry -/

/-- The statement `multimap::insert`: the pair goes behind the entries whose key
is not greater. -/
def multimapInsert (rank : txnouttype → Nat) (kv : txnouttype × CScript) :
    List (txnouttype × CScript) → List (txnouttype × CScript)
  | [] => [kv]
  | x :: xs =>
    if rank kv.1 < rank x.1 then kv :: x :: xs else x :: multimapInsert rank kv xs

/-- The calls `mTemplates.insert(...)` of `Solver`, in source order; a template
`CScript() << a << b << ...` of opcodes is the list of its bytes. -/
def templateInsertions (P : Params) : List (txnouttype × CScript) :=
  [ (TX_PUBKEY, [OP_PUBKEY, OP_CHECKSIG]),
    (TX_SCRIPTHASH, [OP_HASH160, OP_PUBKEYHASH, OP_EQUAL]),
    (TX_DELAYEDSCRIPTHASH,
      [P.OP_SCRIPTNUMBER, P.OP_CHECKLOCKTIMEVERIFY, OP_HASH160, OP_PUBKEYHASH, OP_EQUAL]),
    (TX_PUBKEYHASH, [OP_DUP, OP_HASH160, OP_PUBKEYHASH, OP_EQUALVERIFY, OP_CHECKSIG]),
    (TX_DELAYEDPUBKEYHASH,
      [P.OP_SCRIPTNUMBER, P.OP_CHECKLOCKTIMEVERIFY, OP_DUP, OP_HASH160, OP_PUBKEYHASH,
        OP_EQUALVERIFY, OP_CHECKSIG]),
    (TX_PUBKEY, [OP_PUBKEY, OP_CHECKSIG]),
    (TX_DELAYEDPUBKEY, [P.OP_SCRIPTNUMBER, P.OP_CHECKLOCKTIMEVERIFY, OP_PUBKEY, OP_CHECKSIG]),
    (TX_MULTISIG, [OP_SMALLINTEGER, OP_PUBKEYS, OP_SMALLINTEGER, OP_CHECKMULTISIG]),
    (TX_DELAYEDMULTISIG,
      [P.OP_SCRIPTNUMBER, P.OP_CHECKLOCKTIMEVERIFY, OP_SMALLINTEGER, OP_PUBKEYS,
        OP_SMALLINTEGER, OP_CHECKMULTISIG]),
    (TX_ESCROW,
      [OP_IF, OP_PUBKEYHASH, OP_DUP, OP_PUBKEY, OP_PUBKEY, P.OP_CHECKDATASIG, OP_VERIFY,
        OP_SWAP, OP_HASH160, OP_EQUAL, OP_VERIFY, OP_PUBKEYHASH, OP_TOALTSTACK, OP_DUP,
        OP_HASH160, OP_PUBKEYHASH, OP_EQUALVERIFY, OP_CHECKSIG, OP_ELSE, P.OP_NUMERIC,
        P.OP_CHECKEXPIRY, OP_ENDIF]),
    (TX_ESCROW_SENDER,
      [OP_IF, OP_IF, OP_PUBKEYHASH, OP_DUP, OP_PUBKEY, OP_PUBKEY, P.OP_CHECKDATASIG,
        OP_VERIFY, OP_SWAP, OP_HASH160, OP_EQUAL, OP_VERIFY, P.OP_CHECKTRANSFERNONCE,
        OP_ELSE, OP_PUBKEYHASH, OP_TOALTSTACK, OP_DUP, OP_HASH160, OP_PUBKEYHASH,
        OP_EQUALVERIFY, OP_CHECKSIG, OP_ENDIF, OP_ELSE, P.OP_NUMERIC, P.OP_CHECKEXPIRY,
        OP_ENDIF]),
    (TX_ESCROW_FEE,
      [OP_IF, OP_PUBKEYHASH, OP_TOALTSTACK, OP_DUP, OP_HASH160, OP_PUBKEYHASH,
        OP_EQUALVERIFY, OP_CHECKSIG, OP_ELSE, P.OP_NUMERIC, P.OP_CHECKEXPIRY, OP_ENDIF]),
    (TX_PUBKEYHASH_NONCED,
      [P.OP_NONCE, OP_TOALTSTACK, OP_DUP, OP_HASH160, OP_PUBKEYHASH, OP_EQUALVERIFY,
        OP_CHECKSIG]) ]
  ++ (if P.fDataCarrier then [(TX_NULL_DATA, [OP_RETURN, OP_SMALLDATA])] else [])
  ++ [ (TX_NULL_DATA, [OP_RETURN]) ]

/-- The static `mTemplates` after its initialisation, in iteration order. -/
def mTemplates (P : Params) : List (txnouttype × CScript) :=
  (templateInsertions P).foldl (fun m kv => multimapInsert P.rank kv m) []

/-! ## `Solver` -/

/-- The loop `while (vch1.size() >= 33 && vch1.size() <= 65)` of the `OP_PUBKEYS`
slot; it hands back `pc1`, `opcode1`, `vch1` and the solutions. -/
def pubkeysLoop : Nat → CScript → Nat → valtype → List valtype →
    Except Fault (CScript × Nat × valtype × List valtype)
  | 0, _, _, _, _ => .error .outOfFuel
  | fuel + 1, pc1, opcode1, vch1, vSolutionsRet =>
    if 33 ≤ vch1.length ∧ vch1.length ≤ 65 then
      let r := GetOp pc1
      if r.ok = false then .ok (r.pc, r.opcodeRet, r.vchRet, vSolutionsRet ++ [vch1])
      else pubkeysLoop fuel r.pc r.opcodeRet r.vchRet (vSolutionsRet ++ [vch1])
    else .ok (pc1, opcode1, vch1, vSolutionsRet)

/-- The chain `if (opcode2 == OP_PUBKEY) ... else if (opcode1 != opcode2 || vch1 != vch2)`
of the loop body: `none` is `break`, otherwise the solutions after the slot. -/
def compareOp (P : Params) (opcode1 : Nat) (vch1 : valtype) (opcode2 : Nat) (vch2 : valtype)
    (vSolutionsRet : List valtype) : Option (List valtype) :=
  if opcode2 = OP_PUBKEY then
    if vch1.length < 33 ∨ vch1.length > 65 then none else some (vSolutionsRet ++ [vch1])
  else if opcode2 = OP_PUBKEYHASH then
    if vch1.length ≠ 20 then none else some (vSolutionsRet ++ [vch1])
  else if opcode2 = P.OP_NONCE then
    if vch1.length > 9 then none else some (vSolutionsRet ++ [vch1])
  else if opcode2 = P.OP_NUMERIC then
    if vch1.length > 4 then none else some (vSolutionsRet ++ [vch1])
  else if opcode2 = OP_SMALLINTEGER then
    if opcode1 = OP_0 ∨ (OP_1 ≤ opcode1 ∧ opcode1 ≤ OP_16) then
      some (vSolutionsRet ++ [[DecodeOP_N opcode1]])
    else none
  else if opcode2 = P.OP_SCRIPTNUMBER then
    if opcode1 ≤ 0x05 then some (vSolutionsRet ++ [vch1]) else none
  else if opcode2 = OP_SMALLDATA then
    if vch1.length > P.nMaxDatacarrierBytes then none else some vSolutionsRet
  else if opcode1 ≠ opcode2 ∨ vch1 ≠ vch2 then none
  else some vSolutionsRet

/-- How the scan of one template ends: a `return` inside the loop, with its value
and the solutions at that moment, or a `break`. -/
inductive MatchResult
  | returned (ret : Bool) (vSolutionsRet : List valtype)
  | broke
  deriving DecidableEq, Repr

/-- The block `// Found a match`: the extra test for `TX_MULTISIG`, then
`return true`. -/
def foundMatch (typeRet : txnouttype) (vSolutionsRet : List valtype) :
    Except Fault MatchResult :=
  if typeRet = TX_MULTISIG then
    match vecFront vSolutionsRet with
    | .error f => .error f
    | .ok front =>
      match vecAt front 0 with
      | .error f => .error f
      | .ok m =>
        match vecBack vSolutionsRet with
        | .error f => .error f
        | .ok back =>
          match vecAt back 0 with
          | .error f => .error f
          | .ok n =>
            if m < 1 ∨ n < 1 ∨ m > n ∨ sizeSub vSolutionsRet.length 2 ≠ n then
              .ok (.returned false vSolutionsRet)
            else .ok (.returned true vSolutionsRet)
  else .ok (.returned true vSolutionsRet)

/-- The loop `while (true)` that compares the script with one template. -/
def matchLoop (P : Params) (typeRet : txnouttype) :
    Nat → CScript → CScript → List valtype → Except Fault MatchResult
  | 0, _, _, _ => .error .outOfFuel
  | fuel + 1, pc1, pc2, vSolutionsRet =>
    if pc1 = [] ∧ pc2 = [] then foundMatch typeRet vSolutionsRet
    else
      let r1 := GetOp pc1
      if r1.ok = false then .ok .broke
      else
        let r2 := GetOp pc2
        if r2.ok = false then .ok .broke
        else if r2.opcodeRet = OP_PUBKEYS then
          match pubkeysLoop (r1.pc.length + 1) r1.pc r1.opcodeRet r1.vchRet vSolutionsRet with
          | .error f => .error f
          | .ok (pc1, opcode1, vch1, vSolutionsRet) =>
            let r2 := GetOp r2.pc
            if r2.ok = false then .ok .broke
            else
              match compareOp P opcode1 vch1 r2.opcodeRet r2.vchRet vSolutionsRet with
              | none => .ok .broke
              | some vSolutionsRet => matchLoop P typeRet fuel pc1 r2.pc vSolutionsRet
        else
          match compareOp P r1.opcodeRet r1.vchRet r2.opcodeRet r2.vchRet vSolutionsRet with
          | none => .ok .broke
          | some vSolutionsRet => matchLoop P typeRet fuel r1.pc r2.pc vSolutionsRet

/-- The loop `BOOST_FOREACH(... tplate, mTemplates)` and the statements after it;
the result is the return value, `typeRet` and `vSolutionsRet`. -/
def scanTemplates (P : Params) (script1 : CScript) :
    List (txnouttype × CScript) → Except Fault (Bool × txnouttype × List valtype)
  | [] => .ok (false, TX_NONSTANDARD, [])
  | tplate :: rest =>
    match matchLoop P tplate.1 (script1.length + 1) script1 tplate.2 [] with
    | .error f => .error f
    | .ok (.returned ret vSolutionsRet) => .ok (ret, tplate.1, vSolutionsRet)
    | .ok .broke => scanTemplates P script1 rest

/-- The function `Solver`; `vSolutionsRet` is the caller's vector on entry. The
result is the return value, `typeRet` and `vSolutionsRet`. -/
def Solver (P : Params) (scriptPubKey : CScript) (vSolutionsRet : List valtype) :
    Except Fault (Bool × txnouttype × List valtype) :=
  if IsPayToScriptHash scriptPubKey then
    .ok (true, TX_SCRIPTHASH, vSolutionsRet ++ [(scriptPubKey.drop 2).take 20])
  else scanTemplates P scriptPubKey (mTemplates P)

/-! ## The other functions of `standard.cpp` -/

/-- The function `GetTxnOutputType`; `none` is the `NULL` after the `switch`. -/
def GetTxnOutputType (t : txnouttype) : Option String :=
  match t with
  | TX_NONSTANDARD => some "nonstandard"
  | TX_ESCROW_FEE => some "escrow-fee"
  | TX_ESCROW_SENDER => some "escrow-sender"
  | TX_ESCROW => some "escrow"
  | TX_PUBKEYHASH_NONCED => some "pubkeyhash-nonced"
  | TX_PUBKEY => some "pubkey"
  | TX_PUBKEYHASH => some "pubkeyhash"
  | TX_SCRIPTHASH => some "scripthash"
  | TX_MULTISIG => some "multisig"
  | TX_NULL_DATA => some "nulldata"
  | TX_DELAYEDPUBKEY => some "delayedpubkey"
  | TX_DELAYEDPUBKEYHASH => some "delayedpubkeyhash"
  | TX_DELAYEDSCRIPTHASH => some "delayedscripthash"
  | TX_DELAYEDMULTISIG => some "delayedmultisig"

/-- The guarded read `vSolutions[0][0]` of `ScriptSigArgsExpected`: `none` when
`vSolutions.size() < 1 || vSolutions[0].size() < 1`. -/
def firstByte (vSolutions : List valtype) : Option Nat :=
  match vSolutions with
  | [] => none
  | v :: _ =>
    match v with
    | [] => none
    | b :: _ => some b

/-- The function `ScriptSigArgsExpected`. -/
def ScriptSigArgsExpected (P : Params) (t : txnouttype) (vSolutions : List valtype) : Int :=
  match t with
  | TX_NONSTANDARD => -1
  | TX_NULL_DATA => -1
  | TX_PUBKEY => 1
  | TX_ESCROW_SENDER => 5
  | TX_ESCROW => 4
  | TX_ESCROW_FEE => 3
  | TX_PUBKEYHASH => 2
  | TX_PUBKEYHASH_NONCED => 2
  | TX_MULTISIG =>
    match firstByte vSolutions with
    | none => -1
    | some b => (b : Int) + 1
  | TX_SCRIPTHASH => 1
  | TX_DELAYEDPUBKEY => P.DELAYED_DELTA + 1
  | TX_DELAYEDPUBKEYHASH => P.DELAYED_DELTA + 2
  | TX_DELAYEDSCRIPTHASH => P.DELAYED_DELTA + 1
  | TX_DELAYEDMULTISIG =>
    match firstByte vSolutions with
    | none => -1
    | some b => P.DELAYED_DELTA + 1 + (b : Int) + 1

/-- The function `IsStandard`; the result is the return value and `whichType`. -/
def IsStandard (P : Params) (scriptPubKey : CScript) : Except Fault (Bool × txnouttype) :=
  match Solver P scriptPubKey [] with
  | .error f => .error f
  | .ok (false, whichType, _) => .ok (false, whichType)
  | .ok (true, whichType, vSolutions) =>
    if whichType = TX_MULTISIG then
      match vecFront vSolutions with
      | .error f => .error f
      | .ok front =>
        match vecAt front 0 with
        | .error f => .error f
        | .ok m =>
          match vecBack vSolutions with
          | .error f => .error f
          | .ok back =>
            match vecAt back 0 with
            | .error f => .error f
            | .ok n =>
              if n < 1 ∨ n > 3 then .ok (false, whichType)
              else if m < 1 ∨ m > n then .ok (false, whichType)
              else .ok (decide (whichType ≠ TX_NONSTANDARD), whichType)
    else .ok (decide (whichType ≠ TX_NONSTANDARD), whichType)

/-- The statements `addressRet = CKeyID(uint160(vSolutions[i])); return true;`. -/
def keyIDAt (vSolutions : List valtype) (i : Nat) : Except Fault (Bool × CTxDestination) :=
  match vecAt vSolutions i with
  | .error f => .error f
  | .ok vch =>
    match toUint160 vch with
    | .error f => .error f
    | .ok h => .ok (true, .CKeyID h)

/-- The function `ExtractDestination`; `addressRet` is the caller's value on
entry, the result is the return value and `addressRet`. -/
def ExtractDestination (P : Params) (scriptPubKey : CScript) (addressRet : CTxDestination) :
    Except Fault (Bool × CTxDestination) :=
  match Solver P scriptPubKey [] with
  | .error f => .error f
  | .ok (false, _, _) => .ok (false, addressRet)
  | .ok (true, whichType, vSolutions) =>
    if whichType = TX_PUBKEY ∨ whichType = TX_DELAYEDPUBKEY then
      match vecAt vSolutions (if whichType = TX_PUBKEY then 0 else 1) with
      | .error f => .error f
      | .ok vch =>
        if P.pubKeyIsValid vch = false then .ok (false, addressRet)
        else .ok (true, .CKeyID (P.pubKeyGetID vch))
    else if whichType = TX_PUBKEYHASH ∨ whichType = TX_DELAYEDPUBKEYHASH then
      keyIDAt vSolutions (if whichType = TX_PUBKEYHASH then 0 else 1)
    else if whichType = TX_SCRIPTHASH then
      match vecAt vSolutions 0 with
      | .error f => .error f
      | .ok vch =>
        match toUint160 vch with
        | .error f => .error f
        | .ok h => .ok (true, .CScriptID h)
    else if whichType = TX_ESCROW_FEE then keyIDAt vSolutions 1
    else if whichType = TX_ESCROW_SENDER then keyIDAt vSolutions 4
    else if whichType = TX_ESCROW then keyIDAt vSolutions 4
    else if whichType = TX_PUBKEYHASH_NONCED then keyIDAt vSolutions 1
    else .ok (false, addressRet)

/-- The body of the loop `for (unsigned int i = ...; i < vSolutions.size()-1; i++)`
of `ExtractDestinations`, run over the values that `i` takes. -/
def keysLoop (P : Params) (vSolutions : List valtype) :
    List Nat → List CTxDestination → Except Fault (List CTxDestination)
  | [], addressRet => .ok addressRet
  | i :: is, addressRet =>
    match vecAt vSolutions i with
    | .error f => .error f
    | .ok vch =>
      if P.pubKeyIsValid vch = false then keysLoop P vSolutions is addressRet
      else keysLoop P vSolutions is (addressRet ++ [.CKeyID (P.pubKeyGetID vch)])

/-- The values of `i` in that loop, from its first value up to
`vSolutions.size()-1`, that one left out. -/
def keyIndices (typeRet : txnouttype) (vSolutions : List valtype) : List Nat :=
  let first := if typeRet = TX_MULTISIG then 1 else 2
  List.range' first (sizeSub vSolutions.length 1 - first)

/-- The function `ExtractDestinations`; `nRequiredRet` is the caller's value on
entry, the result is the return value, `typeRet`, `addressRet` and
`nRequiredRet`. -/
def ExtractDestinations (P : Params) (scriptPubKey : CScript) (nRequiredRet : Int) :
    Except Fault (Bool × txnouttype × List CTxDestination × Int) :=
  match Solver P scriptPubKey [] with
  | .error f => .error f
  | .ok (false, typeRet, _) => .ok (false, typeRet, [], nRequiredRet)
  | .ok (true, typeRet, vSolutions) =>
    if typeRet = TX_NULL_DATA then .ok (false, typeRet, [], nRequiredRet)
    else if typeRet = TX_MULTISIG ∨ typeRet = TX_DELAYEDMULTISIG then
      match vecFront vSolutions with
      | .error f => .error f
      | .ok front =>
        match vecAt front (if typeRet = TX_MULTISIG then 0 else 1) with
        | .error f => .error f
        | .ok nRequired =>
          match keysLoop P vSolutions (keyIndices typeRet vSolutions) [] with
          | .error f => .error f
          | .ok addressRet =>
            if addressRet = [] then .ok (false, typeRet, addressRet, (nRequired : Int))
            else .ok (true, typeRet, addressRet, (nRequired : Int))
    else
      match ExtractDestination P scriptPubKey .CNoDestination with
      | .error f => .error f
      | .ok (false, _) => .ok (false, typeRet, [], 1)
      | .ok (true, address) => .ok (true, typeRet, [address], 1)

/-- The function `GetScriptForDestination` with its visitor `CScriptVisitor`;
a `CKeyID` and a `CScriptID` hold 20 bytes. -/
def GetScriptForDestination (dest : CTxDestination) : CScript :=
  match dest with
  | .CNoDestination => []
  | .CKeyID keyID =>
    pushOp (pushOp (pushData (pushOp (pushOp [] OP_DUP) OP_HASH160) keyID) OP_EQUALVERIFY)
      OP_CHECKSIG
  | .CScriptID scriptID => pushOp (pushData (pushOp [] OP_HASH160) scriptID) OP_EQUAL

/-- The function `GetScriptForMultisig`; a key is given by its serialisation
`ToByteVector(key)`. -/
def GetScriptForMultisig (nRequired : Nat) (keys : List valtype) : CScript :=
  pushOp (pushOp (keys.foldl pushData (pushOp [] (EncodeOP_N nRequired)))
    (EncodeOP_N keys.length)) OP_CHECKMULTISIG

/-! ## Auxiliary definitions for the statements -/

/-- The scan of one template with the fuel that `scanTemplates` gives it. -/
def matchFull (P : Params) (typeRet : txnouttype) (pc1 pc2 : CScript)
    (vSolutionsRet : List valtype) : Except Fault MatchResult :=
  matchLoop P typeRet (pc1.length + 1) pc1 pc2 vSolutionsRet

/-- The `OP_PUBKEYS` loop with the fuel that `matchLoop` gives it. -/
def pubkeysFull (pc1 : CScript) (opcode1 : Nat) (vch1 : valtype)
    (vSolutionsRet : List valtype) : Except Fault (CScript × Nat × valtype × List valtype) :=
  pubkeysLoop (pc1.length + 1) pc1 opcode1 vch1 vSolutionsRet

/-- The loop of `matchLoop` told along the template, for a template of plain
opcodes (each is read by one `GetOp`); `matchFull_eq_matchT` shows it is the
same function. -/
def matchT (P : Params) (typeRet : txnouttype) :
    CScript → List Nat → List valtype → Except Fault MatchResult
  | pc1, [], sols => if pc1 = [] then foundMatch typeRet sols else .ok .broke
  | pc1, [op2], sols =>
    if (GetOp pc1).ok = false then .ok .broke
    else if op2 = OP_PUBKEYS then .ok .broke
    else
      match compareOp P (GetOp pc1).opcodeRet (GetOp pc1).vchRet op2 [] sols with
      | none => .ok .broke
      | some sols' => matchT P typeRet (GetOp pc1).pc [] sols'
  | pc1, op2 :: op2' :: pc2, sols =>
    if (GetOp pc1).ok = false then .ok .broke
    else if op2 = OP_PUBKEYS then
      match pubkeysFull (GetOp pc1).pc (GetOp pc1).opcodeRet (GetOp pc1).vchRet sols with
      | .error f => .error f
      | .ok (pc1', opcode1, vch1, sols') =>
        match compareOp P opcode1 vch1 op2' [] sols' with
        | none => .ok .broke
        | some sols'' => matchT P typeRet pc1' pc2 sols''
    else
      match compareOp P (GetOp pc1).opcodeRet (GetOp pc1).vchRet op2 [] sols with
      | none => .ok .broke
      | some sols' => matchT P typeRet (GetOp pc1).pc (op2' :: pc2) sols'

/-- The number of solutions that the slot of a template opcode appends. -/
def slotPushes (P : Params) (op2 : Nat) : Nat :=
  if op2 = OP_PUBKEY ∨ op2 = OP_PUBKEYHASH ∨ op2 = P.OP_NONCE ∨ op2 = P.OP_NUMERIC ∨
    op2 = OP_SMALLINTEGER ∨ op2 = P.OP_SCRIPTNUMBER then 1 else 0

/-- The least number of solutions that a match of a template appends: one for
each slot that appends one; the keys of an `OP_PUBKEYS` slot are not counted. -/
def pushCount (P : Params) : List Nat → Nat
  | [] => 0
  | [op2] => if op2 = OP_PUBKEYS then 0 else slotPushes P op2
  | op2 :: op2' :: pc2 =>
    if op2 = OP_PUBKEYS then slotPushes P op2' + pushCount P pc2
    else slotPushes P op2 + pushCount P (op2' :: pc2)

/-- In a template every `OP_PUBKEYS` is followed by `OP_SMALLINTEGER`. -/
def pubkeysGuarded : List Nat → Bool
  | [] => true
  | op2 :: pc2 =>
    (decide (op2 ≠ OP_PUBKEYS) || pc2.head? == some OP_SMALLINTEGER) && pubkeysGuarded pc2

/-- Decoding `pc` by successive `GetOp` meets a failure before the end of the
script, within `fuel` steps; the length of `pc` is fuel enough. -/
def decodeFails : Nat → CScript → Bool
  | 0, _ => false
  | fuel + 1, pc =>
    if pc = [] then false
    else if (GetOp pc).ok = false then true
    else decodeFails fuel (GetOp pc).pc

/-- Concatenation of the pushes of `keys`, as `operator<<` writes them. -/
def pushAll (keys : List valtype) : CScript :=
  keys.foldl pushData []

/-- The parameters with the flag `-datacarrier` set to `b`. -/
def withDataCarrier (P : Params) (b : Bool) : Params :=
  { P with fDataCarrier := b }

/-- A sample of the parameters for the closed instances: numbers for the added
opcodes that meet `Params.wellFormed`, the enumerators numbered in the order of
section 3 of the specification, the default of `-datacarrier`, and a key taken
for valid when its first byte and its length agree as in a compressed or an
uncompressed encoding. -/
def sampleParams : Params where
  OP_CHECKLOCKTIMEVERIFY := 0xb1
  OP_CHECKDATASIG := 0xba
  OP_CHECKTRANSFERNONCE := 0xbb
  OP_CHECKEXPIRY := 0xbc
  OP_NONCE := 0xf6
  OP_NUMERIC := 0xf7
  OP_SCRIPTNUMBER := 0xf8
  rank := fun t => t.toCtorIdx
  fDataCarrier := true
  nMaxDatacarrierBytes := 40
  DELAYED_DELTA := 1
  pubKeyIsValid := fun v =>
    (v.length == 33 && (v.head? == some 2 || v.head? == some 3)) ||
      (v.length == 65 && (v.head? == some 4 || v.head? == some 6 || v.head? == some 7))
  pubKeyGetID := fun v => v.take 20

/-- A sample compressed key: the byte 2 and 32 bytes `b`. -/
def sampleKey (b : Nat) : valtype :=
  2 :: List.replicate 32 b

/-- A sample hash: 20 bytes `b`. -/
def sampleHash (b : Nat) : valtype :=
  List.replicate 20 b

/-- A name made of lowercase letters and hyphens, with a letter at both ends. -/
def isLowercaseHyphenated (s : String) : Bool :=
  s.data.all (fun c => c.isLower || c == '-') &&
    (s.data.head?.any Char.isLower) && (s.data.getLast?.any Char.isLower)

/-- One pass of the loop `while (vch1.size() >= 33 && vch1.size() <= 65)`: on the
left the state with which the loop is left (the condition is false, or `GetOp`
failed and the loop breaks), on the right the state of the next pass. -/
def pubkeysStep (pc1 : CScript) (opcode1 : Nat) (vch1 : valtype) (vSolutionsRet : List valtype) :
    (CScript × Nat × valtype × List valtype) ⊕ (CScript × Nat × valtype × List valtype) :=
  if 33 ≤ vch1.length ∧ vch1.length ≤ 65 then
    let r := GetOp pc1
    if r.ok = false then .inl (r.pc, r.opcodeRet, r.vchRet, vSolutionsRet ++ [vch1])
    else .inr (r.pc, r.opcodeRet, r.vchRet, vSolutionsRet ++ [vch1])
  else .inl (pc1, opcode1, vch1, vSolutionsRet)

/-- One pass of the loop `while (true)` of the comparison: on the left the way
the loop is left (`return` or `break`), on the right `pc1`, `pc2` and the
solutions of the next pass. -/
def matchStep (P : Params) (typeRet : txnouttype) (pc1 pc2 : CScript)
    (vSolutionsRet : List valtype) :
    Except Fault (MatchResult ⊕ (CScript × CScript × List valtype)) :=
  if pc1 = [] ∧ pc2 = [] then
    match foundMatch typeRet vSolutionsRet with
    | .error f => .error f
    | .ok r => .ok (.inl r)
  else
    let r1 := GetOp pc1
    if r1.ok = false then .ok (.inl .broke)
    else
      let r2 := GetOp pc2
      if r2.ok = false then .ok (.inl .broke)
      else if r2.opcodeRet = OP_PUBKEYS then
        match pubkeysLoop (r1.pc.length + 1) r1.pc r1.opcodeRet r1.vchRet vSolutionsRet with
        | .error f => .error f
        | .ok (pc1, opcode1, vch1, vSolutionsRet) =>
          let r2 := GetOp r2.pc
          if r2.ok = false then .ok (.inl .broke)
          else
            match compareOp P opcode1 vch1 r2.opcodeRet r2.vchRet vSolutionsRet with
            | none => .ok (.inl .broke)
            | some vSolutionsRet => .ok (.inr (pc1, r2.pc, vSolutionsRet))
      else
        match compareOp P r1.opcodeRet r1.vchRet r2.opcodeRet r2.vchRet vSolutionsRet with
        | none => .ok (.inl .broke)
        | some vSolutionsRet => .ok (.inr (r1.pc, r2.pc, vSolutionsRet))

/-- The one registered template that can match a script, told from the first
three opcodes that `GetOp` reads from the script (`candidate_of_match` is the
proof that no other template matches). -/
def candidate (P : Params) (s : CScript) : txnouttype × CScript :=
  let r1 := GetOp s
  let r2 := GetOp r1.pc
  let r3 := GetOp r2.pc
  if r2.opcodeRet = OP_TOALTSTACK ∧ r3.opcodeRet = OP_DUP then
    (TX_PUBKEYHASH_NONCED,
      [P.OP_NONCE, OP_TOALTSTACK, OP_DUP, OP_HASH160, OP_PUBKEYHASH, OP_EQUALVERIFY,
        OP_CHECKSIG])
  else if 33 ≤ r1.vchRet.length ∧ r1.vchRet.length ≤ 65 then
    (TX_PUBKEY, [OP_PUBKEY, OP_CHECKSIG])
  else if r1.opcodeRet = OP_HASH160 then
    (TX_SCRIPTHASH, [OP_HASH160, OP_PUBKEYHASH, OP_EQUAL])
  else if r1.opcodeRet = OP_DUP then
    (TX_PUBKEYHASH, [OP_DUP, OP_HASH160, OP_PUBKEYHASH, OP_EQUALVERIFY, OP_CHECKSIG])
  else if r1.opcodeRet = OP_RETURN then
    if r1.pc = [] then (TX_NULL_DATA, [OP_RETURN])
    else (TX_NULL_DATA, [OP_RETURN, OP_SMALLDATA])
  else if r1.opcodeRet = OP_IF then
    if r2.opcodeRet = OP_IF then
      (TX_ESCROW_SENDER,
        [OP_IF, OP_IF, OP_PUBKEYHASH, OP_DUP, OP_PUBKEY, OP_PUBKEY, P.OP_CHECKDATASIG,
          OP_VERIFY, OP_SWAP, OP_HASH160, OP_EQUAL, OP_VERIFY, P.OP_CHECKTRANSFERNONCE,
          OP_ELSE, OP_PUBKEYHASH, OP_TOALTSTACK, OP_DUP, OP_HASH160, OP_PUBKEYHASH,
          OP_EQUALVERIFY, OP_CHECKSIG, OP_ENDIF, OP_ELSE, P.OP_NUMERIC, P.OP_CHECKEXPIRY,
          OP_ENDIF])
    else if r3.opcodeRet = OP_DUP then
      (TX_ESCROW,
        [OP_IF, OP_PUBKEYHASH, OP_DUP, OP_PUBKEY, OP_PUBKEY, P.OP_CHECKDATASIG, OP_VERIFY,
          OP_SWAP, OP_HASH160, OP_EQUAL, OP_VERIFY, OP_PUBKEYHASH, OP_TOALTSTACK, OP_DUP,
          OP_HASH160, OP_PUBKEYHASH, OP_EQUALVERIFY, OP_CHECKSIG, OP_ELSE, P.OP_NUMERIC,
          P.OP_CHECKEXPIRY, OP_ENDIF])
    else
      (TX_ESCROW_FEE,
        [OP_IF, OP_PUBKEYHASH, OP_TOALTSTACK, OP_DUP, OP_HASH160, OP_PUBKEYHASH,
          OP_EQUALVERIFY, OP_CHECKSIG, OP_ELSE, P.OP_NUMERIC, P.OP_CHECKEXPIRY, OP_ENDIF])
  else if r2.opcodeRet = P.OP_CHECKLOCKTIMEVERIFY then
    if r3.opcodeRet = OP_HASH160 then
      (TX_DELAYEDSCRIPTHASH,
        [P.OP_SCRIPTNUMBER, P.OP_CHECKLOCKTIMEVERIFY, OP_HASH160, OP_PUBKEYHASH, OP_EQUAL])
    else if r3.opcodeRet = OP_DUP then
      (TX_DELAYEDPUBKEYHASH,
        [P.OP_SCRIPTNUMBER, P.OP_CHECKLOCKTIMEVERIFY, OP_DUP, OP_HASH160, OP_PUBKEYHASH,
          OP_EQUALVERIFY, OP_CHECKSIG])
    else if 33 ≤ r3.vchRet.length ∧ r3.vchRet.length ≤ 65 then
      (TX_DELAYEDPUBKEY,
        [P.OP_SCRIPTNUMBER, P.OP_CHECKLOCKTIMEVERIFY, OP_PUBKEY, OP_CHECKSIG])
    else
      (TX_DELAYEDMULTISIG,
        [P.OP_SCRIPTNUMBER, P.OP_CHECKLOCKTIMEVERIFY, OP_SMALLINTEGER, OP_PUBKEYS,
          OP_SMALLINTEGER, OP_CHECKMULTISIG])
  else (TX_MULTISIG, [OP_SMALLINTEGER, OP_PUBKEYS, OP_SMALLINTEGER, OP_CHECKMULTISIG])

/-- The function `Solver` with the registry iterated in the order `tpls`; in
`Solver` itself that order is `mTemplates`, the key order of the multimap. -/
def SolverInOrder (P : Params) (tpls : List (txnouttype × CScript)) (scriptPubKey : CScript)
    (vSolutionsRet : List valtype) : Except Fault (Bool × txnouttype × List valtype) :=
  if IsPayToScriptHash scriptPubKey then
    .ok (true, TX_SCRIPTHASH, vSolutionsRet ++ [(scriptPubKey.drop 2).take 20])
  else scanTemplates P scriptPubKey tpls

/-- The parameters with another order of the enumerators of `txnouttype`, which
is the key order of the multimap. -/
def withRank (P : Params) (rank : txnouttype → Nat) : Params :=
  { P with rank := rank }

/-- The opcodes of a script with their data, as successive calls of `GetOp` read
them, up to the end of the script or to the first call that fails; the length of
`pc` is fuel enough. -/
def decodeOps : Nat → CScript → List (Nat × valtype)
  | 0, _ => []
  | fuel + 1, pc =>
    if (GetOp pc).ok = false then []
    else ((GetOp pc).opcodeRet, (GetOp pc).vchRet) :: decodeOps fuel (GetOp pc).pc

/-! # Theorems -/

/-! ## `GetOp` -/

theorem readPush_length (opcode nSize : Nat) (pc : CScript) :
    (readPush opcode nSize pc).pc.length ≤ pc.length := by
  unfold readPush
  split <;> simp

theorem GetOp_length_le (pc : CScript) : (GetOp pc).pc.length ≤ pc.length := by
  unfold GetOp
  split
  · simp
  · rename_i opcode rest
    split
    · split
      · exact Nat.le_succ_of_le (readPush_length _ _ _)
      · split
        · split
          · simp
          · exact Nat.le_succ_of_le (Nat.le_succ_of_le (readPush_length _ _ _))
        · split
          · split
            · simp
            · refine Nat.le_trans (readPush_length _ _ _) ?_
              simp; omega
          · split
            · simp
            · refine Nat.le_trans (readPush_length _ _ _) ?_
              simp; omega
    · simp

theorem GetOp_ok_ne_nil {pc : CScript} (h : (GetOp pc).ok = true) : pc ≠ [] := by
  intro hpc
  subst hpc
  simp [GetOp] at h

theorem readPush_fail {opcode nSize : Nat} {pc : CScript}
    (h : (readPush opcode nSize pc).ok = false) :
    (readPush opcode nSize pc).opcodeRet = OP_INVALIDOPCODE ∧
      (readPush opcode nSize pc).vchRet = [] := by
  unfold readPush at h ⊢
  split
  · exact ⟨rfl, rfl⟩
  · rename_i h1
    simp [h1] at h

theorem GetOp_ok_length {pc : CScript} (h : (GetOp pc).ok = true) :
    (GetOp pc).pc.length < pc.length := by
  cases pc with
  | nil => simp [GetOp] at h
  | cons opcode rest =>
    simp only [GetOp] at h ⊢
    by_cases h1 : opcode ≤ OP_PUSHDATA4
    · simp only [h1, if_true] at h ⊢
      by_cases h2 : opcode < OP_PUSHDATA1
      · simp only [h2, if_true] at h ⊢
        exact Nat.lt_succ_of_le (readPush_length _ _ _)
      · simp only [h2, if_false] at h ⊢
        by_cases h3 : opcode = OP_PUSHDATA1
        · simp only [h3, if_true] at h ⊢
          cases rest with
          | nil => simp at h
          | cons b rest2 =>
            exact Nat.lt_succ_of_le (Nat.le_succ_of_le (readPush_length _ _ _))
        · simp only [h3, if_false] at h ⊢
          by_cases h4 : opcode = OP_PUSHDATA2
          · simp only [h4, if_true] at h ⊢
            by_cases h5 : rest.length < 2
            · simp [h5] at h
            · simp only [h5, if_false] at h ⊢
              refine Nat.lt_of_le_of_lt (readPush_length _ _ _) ?_
              simp
              omega
          · simp only [h4, if_false] at h ⊢
            by_cases h5 : rest.length < 4
            · simp [h5] at h
            · simp only [h5, if_false] at h ⊢
              refine Nat.lt_of_le_of_lt (readPush_length _ _ _) ?_
              simp
              omega
    · simp [h1]

/-- A failed `GetOp` leaves `OP_INVALIDOPCODE` and an empty vector. -/
theorem GetOp_fail {pc : CScript} (h : (GetOp pc).ok = false) :
    (GetOp pc).opcodeRet = OP_INVALIDOPCODE ∧ (GetOp pc).vchRet = [] := by
  cases pc with
  | nil => simp [GetOp]
  | cons opcode rest =>
    simp only [GetOp] at h ⊢
    by_cases h1 : opcode ≤ OP_PUSHDATA4
    · simp only [h1, if_true] at h ⊢
      by_cases h2 : opcode < OP_PUSHDATA1
      · simp only [h2, if_true] at h ⊢
        exact readPush_fail h
      · simp only [h2, if_false] at h ⊢
        by_cases h3 : opcode = OP_PUSHDATA1
        · simp only [h3, if_true] at h ⊢
          cases rest with
          | nil => exact ⟨rfl, rfl⟩
          | cons b rest2 => exact readPush_fail h
        · simp only [h3, if_false] at h ⊢
          by_cases h4 : opcode = OP_PUSHDATA2
          · simp only [h4, if_true] at h ⊢
            by_cases h5 : rest.length < 2
            · simp [h5]
            · simp only [h5, if_false] at h ⊢
              exact readPush_fail h
          · simp only [h4, if_false] at h ⊢
            by_cases h5 : rest.length < 4
            · simp [h5]
            · simp only [h5, if_false] at h ⊢
              exact readPush_fail h
    · simp [h1] at h

theorem GetOp_nil : GetOp [] = ⟨false, [], OP_INVALIDOPCODE, []⟩ := rfl

/-- An opcode above `OP_PUSHDATA4` is read as itself, with no data. -/
theorem GetOp_plain {op : Nat} (h : OP_PUSHDATA4 < op) (rest : CScript) :
    GetOp (op :: rest) = ⟨true, rest, op, []⟩ := by
  unfold GetOp
  simp [Nat.not_le.mpr h]

/-! ## Fuel -/

theorem pubkeysLoop_fuel : ∀ (fuel1 fuel2 : Nat) (pc1 : CScript) (opcode1 : Nat)
    (vch1 : valtype) (sols : List valtype), pc1.length < fuel1 → pc1.length < fuel2 →
    pubkeysLoop fuel1 pc1 opcode1 vch1 sols = pubkeysLoop fuel2 pc1 opcode1 vch1 sols := by
  intro fuel1
  induction fuel1 with
  | zero => intro fuel2 pc1 _ _ _ h; omega
  | succ f1 ih =>
    intro fuel2 pc1 opcode1 vch1 sols h1 h2
    cases fuel2 with
    | zero => omega
    | succ f2 =>
      simp only [pubkeysLoop]
      split
      · by_cases hok : (GetOp pc1).ok = false
        · simp [hok]
        · simp only [hok, if_false]
          have hlt := GetOp_ok_length (Bool.eq_true_of_not_eq_false hok)
          exact ih f2 _ _ _ _ (by omega) (by omega)
      · rfl

theorem pubkeysLoop_ok : ∀ (fuel : Nat) (pc1 : CScript) (opcode1 : Nat) (vch1 : valtype)
    (sols : List valtype), pc1.length < fuel →
    ∃ r, pubkeysLoop fuel pc1 opcode1 vch1 sols = .ok r ∧ r.1.length ≤ pc1.length := by
  intro fuel
  induction fuel with
  | zero => intro pc1 _ _ _ h; omega
  | succ f ih =>
    intro pc1 opcode1 vch1 sols h
    simp only [pubkeysLoop]
    split
    · by_cases hok : (GetOp pc1).ok = false
      · simp only [hok, if_true]
        exact ⟨_, rfl, GetOp_length_le pc1⟩
      · simp only [hok, if_false]
        have hlt := GetOp_ok_length (Bool.eq_true_of_not_eq_false hok)
        obtain ⟨r, hr, hlen⟩ := ih (GetOp pc1).pc (GetOp pc1).opcodeRet (GetOp pc1).vchRet
          (sols ++ [vch1]) (by omega)
        exact ⟨r, hr, by omega⟩
    · exact ⟨_, rfl, Nat.le_refl _⟩

theorem pubkeysFull_ok (pc1 : CScript) (opcode1 : Nat) (vch1 : valtype) (sols : List valtype) :
    ∃ r, pubkeysFull pc1 opcode1 vch1 sols = .ok r ∧ r.1.length ≤ pc1.length :=
  pubkeysLoop_ok _ _ _ _ _ (Nat.lt_succ_self _)

theorem matchLoop_fuel (P : Params) (typeRet : txnouttype) : ∀ (fuel1 fuel2 : Nat)
    (pc1 pc2 : CScript) (sols : List valtype), pc1.length < fuel1 → pc1.length < fuel2 →
    matchLoop P typeRet fuel1 pc1 pc2 sols = matchLoop P typeRet fuel2 pc1 pc2 sols := by
  intro fuel1
  induction fuel1 with
  | zero => intro fuel2 pc1 _ _ h; omega
  | succ f1 ih =>
    intro fuel2 pc1 pc2 sols h1 h2
    cases fuel2 with
    | zero => omega
    | succ f2 =>
      simp only [matchLoop]
      by_cases hend : pc1 = [] ∧ pc2 = []
      · simp only [if_pos hend]
      · simp only [if_neg hend]
        by_cases hok : (GetOp pc1).ok = false
        · simp only [if_pos hok]
        · simp only [if_neg hok]
          have hlt := GetOp_ok_length (Bool.eq_true_of_not_eq_false hok)
          by_cases hok2 : (GetOp pc2).ok = false
          · simp only [if_pos hok2]
          · simp only [if_neg hok2]
            by_cases hpk : (GetOp pc2).opcodeRet = OP_PUBKEYS
            · simp only [if_pos hpk]
              obtain ⟨r, hr, hlen⟩ := pubkeysLoop_ok ((GetOp pc1).pc.length + 1) (GetOp pc1).pc
                (GetOp pc1).opcodeRet (GetOp pc1).vchRet sols (Nat.lt_succ_self _)
              obtain ⟨pc1', opcode1', vch1', sols'⟩ := r
              simp only [hr]
              simp only at hlen
              by_cases hok3 : (GetOp (GetOp pc2).pc).ok = false
              · simp only [if_pos hok3]
              · simp only [if_neg hok3]
                cases compareOp P opcode1' vch1' (GetOp (GetOp pc2).pc).opcodeRet
                  (GetOp (GetOp pc2).pc).vchRet sols' with
                | none => rfl
                | some sols'' => exact ih f2 _ _ _ (by omega) (by omega)
            · simp only [if_neg hpk]
              cases compareOp P (GetOp pc1).opcodeRet (GetOp pc1).vchRet (GetOp pc2).opcodeRet
                (GetOp pc2).vchRet sols with
              | none => rfl
              | some sols'' => exact ih f2 _ _ _ (by omega) (by omega)

theorem pubkeysFull_eq (pc1 : CScript) (opcode1 : Nat) (vch1 : valtype) (sols : List valtype) :
    pubkeysFull pc1 opcode1 vch1 sols =
      if 33 ≤ vch1.length ∧ vch1.length ≤ 65 then
        if (GetOp pc1).ok = false then
          .ok ((GetOp pc1).pc, (GetOp pc1).opcodeRet, (GetOp pc1).vchRet, sols ++ [vch1])
        else pubkeysFull (GetOp pc1).pc (GetOp pc1).opcodeRet (GetOp pc1).vchRet (sols ++ [vch1])
      else .ok (pc1, opcode1, vch1, sols) := by
  simp only [pubkeysFull, pubkeysLoop]
  by_cases h : 33 ≤ vch1.length ∧ vch1.length ≤ 65
  · simp only [if_pos h]
    by_cases hok : (GetOp pc1).ok = false
    · simp only [if_pos hok]
    · simp only [if_neg hok]
      have hlt := GetOp_ok_length (Bool.eq_true_of_not_eq_false hok)
      exact pubkeysLoop_fuel _ _ _ _ _ _ hlt (Nat.lt_succ_self _)
  · simp only [if_neg h]

theorem matchFull_eq (P : Params) (typeRet : txnouttype) (pc1 pc2 : CScript)
    (sols : List valtype) :
    matchFull P typeRet pc1 pc2 sols =
      if pc1 = [] ∧ pc2 = [] then foundMatch typeRet sols
      else if (GetOp pc1).ok = false then .ok .broke
      else if (GetOp pc2).ok = false then .ok .broke
      else if (GetOp pc2).opcodeRet = OP_PUBKEYS then
        match pubkeysFull (GetOp pc1).pc (GetOp pc1).opcodeRet (GetOp pc1).vchRet sols with
        | .error f => .error f
        | .ok (pc1', opcode1, vch1, sols') =>
          if (GetOp (GetOp pc2).pc).ok = false then .ok .broke
          else
            match compareOp P opcode1 vch1 (GetOp (GetOp pc2).pc).opcodeRet
              (GetOp (GetOp pc2).pc).vchRet sols' with
            | none => .ok .broke
            | some sols'' => matchFull P typeRet pc1' (GetOp (GetOp pc2).pc).pc sols''
      else
        match compareOp P (GetOp pc1).opcodeRet (GetOp pc1).vchRet (GetOp pc2).opcodeRet
          (GetOp pc2).vchRet sols with
        | none => .ok .broke
        | some sols' => matchFull P typeRet (GetOp pc1).pc (GetOp pc2).pc sols' := by
  simp only [matchFull, matchLoop, pubkeysFull]
  by_cases hend : pc1 = [] ∧ pc2 = []
  · simp only [if_pos hend]
  · simp only [if_neg hend]
    by_cases hok : (GetOp pc1).ok = false
    · simp only [if_pos hok]
    · simp only [if_neg hok]
      have hlt := GetOp_ok_length (Bool.eq_true_of_not_eq_false hok)
      by_cases hok2 : (GetOp pc2).ok = false
      · simp only [if_pos hok2]
      · simp only [if_neg hok2]
        by_cases hpk : (GetOp pc2).opcodeRet = OP_PUBKEYS
        · simp only [if_pos hpk]
          obtain ⟨r, hr, hlen⟩ := pubkeysLoop_ok ((GetOp pc1).pc.length + 1) (GetOp pc1).pc
            (GetOp pc1).opcodeRet (GetOp pc1).vchRet sols (Nat.lt_succ_self _)
          obtain ⟨pc1', opcode1', vch1', sols'⟩ := r
          simp only [hr]
          simp only at hlen
          by_cases hok3 : (GetOp (GetOp pc2).pc).ok = false
          · simp only [if_pos hok3]
          · simp only [if_neg hok3]
            cases compareOp P opcode1' vch1' (GetOp (GetOp pc2).pc).opcodeRet
              (GetOp (GetOp pc2).pc).vchRet sols' with
            | none => rfl
            | some sols'' =>
              exact matchLoop_fuel P typeRet _ _ _ _ _ (by omega) (Nat.lt_succ_self _)
        · simp only [if_neg hpk]
          cases compareOp P (GetOp pc1).opcodeRet (GetOp pc1).vchRet (GetOp pc2).opcodeRet
            (GetOp pc2).vchRet sols with
          | none => rfl
          | some sols'' =>
            exact matchLoop_fuel P typeRet _ _ _ _ _ hlt (Nat.lt_succ_self _)

/-- The scan of one template by `scanTemplates` is `matchFull`. -/
theorem matchLoop_eq_matchFull (P : Params) (typeRet : txnouttype) (script1 pc2 : CScript) :
    matchLoop P typeRet (script1.length + 1) script1 pc2 [] = matchFull P typeRet script1 pc2 [] :=
  rfl

theorem matchFull_nil_nil (P : Params) (typeRet : txnouttype) (sols : List valtype) :
    matchFull P typeRet [] [] sols = foundMatch typeRet sols := by
  rw [matchFull_eq]; simp

theorem matchFull_nil_cons (P : Params) (typeRet : txnouttype) (op2 : Nat) (pc2 : CScript)
    (sols : List valtype) : matchFull P typeRet [] (op2 :: pc2) sols = .ok .broke := by
  rw [matchFull_eq]; simp [GetOp]

theorem matchFull_cons_nil (P : Params) (typeRet : txnouttype) (b : Nat) (pc1 : CScript)
    (sols : List valtype) : matchFull P typeRet (b :: pc1) [] sols = .ok .broke := by
  rw [matchFull_eq]
  simp only [List.cons_ne_nil, false_and, if_false]
  by_cases hok : (GetOp (b :: pc1)).ok = false
  · simp only [if_pos hok]
  · simp only [if_neg hok]
    simp [GetOp]

/-- One round of the loop at a template slot that is not `OP_PUBKEYS`. -/
theorem matchFull_step (P : Params) (typeRet : txnouttype) (pc1 : CScript) {op2 : Nat}
    (pc2 : CScript) (sols : List valtype) (h2 : OP_PUSHDATA4 < op2) (hpk : op2 ≠ OP_PUBKEYS)
    (hok : (GetOp pc1).ok = true) :
    matchFull P typeRet pc1 (op2 :: pc2) sols =
      match compareOp P (GetOp pc1).opcodeRet (GetOp pc1).vchRet op2 [] sols with
      | none => .ok .broke
      | some sols' => matchFull P typeRet (GetOp pc1).pc pc2 sols' := by
  rw [matchFull_eq]
  simp [GetOp_plain h2, hok, hpk]

/-- One round of the loop at the slot `OP_PUBKEYS`, which also consumes the
template opcode behind it. -/
theorem matchFull_pubkeys (P : Params) (typeRet : txnouttype) (pc1 : CScript) {op2 : Nat}
    (pc2 : CScript) (sols : List valtype) (h2 : OP_PUSHDATA4 < op2)
    (hok : (GetOp pc1).ok = true) :
    matchFull P typeRet pc1 (OP_PUBKEYS :: op2 :: pc2) sols =
      match pubkeysFull (GetOp pc1).pc (GetOp pc1).opcodeRet (GetOp pc1).vchRet sols with
      | .error f => .error f
      | .ok (pc1', opcode1, vch1, sols') =>
        match compareOp P opcode1 vch1 op2 [] sols' with
        | none => .ok .broke
        | some sols'' => matchFull P typeRet pc1' pc2 sols'' := by
  rw [matchFull_eq]
  have h1 : OP_PUSHDATA4 < OP_PUBKEYS := by decide
  simp [GetOp_plain h2, GetOp_plain h1, hok]

/-- A script whose first `GetOp` fails matches no template that is not empty. -/
theorem matchFull_fail (P : Params) (typeRet : txnouttype) (pc1 : CScript) (op2 : Nat)
    (pc2 : CScript) (sols : List valtype) (hok : (GetOp pc1).ok = false) :
    matchFull P typeRet pc1 (op2 :: pc2) sols = .ok .broke := by
  rw [matchFull_eq]
  simp [hok]

/-! ## The loop told along the template -/

theorem matchFull_eq_matchT (P : Params) (typeRet : txnouttype) :
    ∀ (n : Nat) (pc2 : List Nat) (pc1 : CScript) (sols : List valtype), pc2.length ≤ n →
      (∀ op ∈ pc2, OP_PUSHDATA4 < op) →
      matchFull P typeRet pc1 pc2 sols = matchT P typeRet pc1 pc2 sols := by
  intro n
  induction n with
  | zero =>
    intro pc2 pc1 sols hn _
    have : pc2 = [] := List.length_eq_zero.mp (Nat.le_zero.mp hn)
    subst this
    cases pc1 with
    | nil => rw [matchFull_nil_nil]; simp [matchT]
    | cons b pc1 => rw [matchFull_cons_nil]; simp [matchT]
  | succ n ih =>
    intro pc2 pc1 sols hn hplain
    match pc2, hn, hplain with
    | [], _, _ =>
      cases pc1 with
      | nil => rw [matchFull_nil_nil]; simp [matchT]
      | cons b pc1 => rw [matchFull_cons_nil]; simp [matchT]
    | [op2], _, hplain =>
      have h2 : OP_PUSHDATA4 < op2 := hplain op2 (by simp)
      by_cases hok : (GetOp pc1).ok = false
      · rw [matchFull_fail P typeRet pc1 op2 [] sols hok]; simp [matchT, hok]
      · have hok' := Bool.eq_true_of_not_eq_false hok
        by_cases hpk : op2 = OP_PUBKEYS
        · subst hpk
          rw [matchFull_eq]
          obtain ⟨r, hr, _⟩ := pubkeysFull_ok (GetOp pc1).pc (GetOp pc1).opcodeRet
            (GetOp pc1).vchRet sols
          obtain ⟨pc1', opcode1, vch1, sols'⟩ := r
          simp [GetOp_plain h2, hok', hr, matchT, GetOp_nil]
        · rw [matchFull_step P typeRet pc1 [] sols h2 hpk hok']
          simp only [matchT, if_neg hok, if_neg hpk]
          cases compareOp P (GetOp pc1).opcodeRet (GetOp pc1).vchRet op2 [] sols with
          | none => rfl
          | some sols' => exact ih [] _ _ (by simp) (by simp)
    | op2 :: op2' :: rest, hn, hplain =>
      have h2 : OP_PUSHDATA4 < op2 := hplain op2 (by simp)
      have h2' : OP_PUSHDATA4 < op2' := hplain op2' (by simp)
      have hrest : ∀ op ∈ rest, OP_PUSHDATA4 < op := fun op h => hplain op (by simp [h])
      by_cases hok : (GetOp pc1).ok = false
      · rw [matchFull_fail P typeRet pc1 op2 _ sols hok]; simp [matchT, hok]
      · have hok' := Bool.eq_true_of_not_eq_false hok
        by_cases hpk : op2 = OP_PUBKEYS
        · subst hpk
          rw [matchFull_pubkeys P typeRet pc1 rest sols h2' hok']
          simp only [matchT, if_neg hok, if_true]
          cases pubkeysFull (GetOp pc1).pc (GetOp pc1).opcodeRet (GetOp pc1).vchRet sols with
          | error f => rfl
          | ok r =>
            obtain ⟨pc1', opcode1, vch1, sols'⟩ := r
            simp only
            cases compareOp P opcode1 vch1 op2' [] sols' with
            | none => rfl
            | some sols'' =>
              exact ih rest _ _ (by simp at hn; omega) hrest
        · rw [matchFull_step P typeRet pc1 _ sols h2 hpk hok']
          simp only [matchT, if_neg hok, if_neg hpk]
          cases compareOp P (GetOp pc1).opcodeRet (GetOp pc1).vchRet op2 [] sols with
          | none => rfl
          | some sols' =>
            exact ih (op2' :: rest) _ _ (by simp at hn ⊢; omega)
              (fun op h => hplain op (by simp at h ⊢; tauto))

/-! ## The assumptions on the opcodes -/

theorem wf_nodup {P : Params} (h : P.wellFormed = true) :
    (wildcardOpcodes P ++ ownLiterals P ++ sharedLiterals).Nodup := by
  simp only [Params.wellFormed, Bool.and_eq_true, decide_eq_true_eq] at h
  exact h.1.2

theorem wf_max {P : Params} (h : P.wellFormed = true) : P.nMaxDatacarrierBytes < 2 ^ 32 := by
  simp only [Params.wellFormed, Bool.and_eq_true, decide_eq_true_eq] at h
  exact h.2

theorem nodup_ne {l : List Nat} (hnd : l.Nodup) {i j : Nat} {a b : Nat}
    (hi : l[i]? = some a) (hj : l[j]? = some b) (hij : i ≠ j) : a ≠ b := by
  intro hab
  subst hab
  obtain ⟨hi', hia⟩ := List.getElem?_eq_some_iff.mp hi
  obtain ⟨hj', hja⟩ := List.getElem?_eq_some_iff.mp hj
  exact hij ((List.Nodup.getElem_inj_iff hnd).mp (hia.trans hja.symm))

/-- No literal of a template is one of the wildcard opcodes. -/
theorem wf_literal {P : Params} (h : P.wellFormed = true) {L : Nat}
    (hL : L ∈ ownLiterals P ++ sharedLiterals) :
    L ≠ OP_PUBKEYS ∧ L ≠ OP_PUBKEY ∧ L ≠ OP_PUBKEYHASH ∧ L ≠ P.OP_NONCE ∧ L ≠ P.OP_NUMERIC ∧
      L ≠ OP_SMALLINTEGER ∧ L ≠ P.OP_SCRIPTNUMBER ∧ L ≠ OP_SMALLDATA := by
  have hnd := wf_nodup h
  rw [List.append_assoc] at hnd
  have hdis := (List.nodup_append.mp hnd).2.2
  have hnot : L ∉ wildcardOpcodes P := fun hw => List.disjoint_left.mp hdis hw hL
  simp only [wildcardOpcodes, List.mem_cons, List.mem_singleton, not_or, List.not_mem_nil,
    not_false_eq_true, and_true] at hnot
  exact hnot

/-- The added opcodes are behind `OP_16`. -/
theorem wf_beyond {P : Params} (h : P.wellFormed = true) :
    OP_16 < P.OP_CHECKLOCKTIMEVERIFY ∧ OP_16 < P.OP_CHECKDATASIG ∧
      OP_16 < P.OP_CHECKTRANSFERNONCE ∧ OP_16 < P.OP_CHECKEXPIRY ∧
      OP_16 < P.OP_NONCE ∧ OP_16 < P.OP_NUMERIC ∧ OP_16 < P.OP_SCRIPTNUMBER := by
  simp only [Params.wellFormed, Bool.and_eq_true, decide_eq_true_eq, ownLiterals, List.all_cons,
    List.all_nil, Bool.and_true, isPlainOpcode] at h
  obtain ⟨⟨⟨⟨a1, a2, a3, a4⟩, a5, a6, a7⟩, _⟩, _⟩ := h
  exact ⟨a1.1, a2.1, a3.1, a4.1, a5.1, a6.1, a7.1⟩

/-- Every opcode of a template is above `OP_PUSHDATA4`. -/
theorem wf_plain {P : Params} (h : P.wellFormed = true) {op : Nat}
    (hop : op ∈ wildcardOpcodes P ++ ownLiterals P ++ sharedLiterals) : OP_PUSHDATA4 < op := by
  obtain ⟨a1, a2, a3, a4, a5, a6, a7⟩ := wf_beyond h
  have h16 : OP_PUSHDATA4 < OP_16 := by decide
  simp only [wildcardOpcodes, ownLiterals, sharedLiterals, List.mem_append, List.mem_cons,
    List.mem_singleton, List.not_mem_nil, or_false] at hop
  rcases hop with (hop | hop) | hop
  · rcases hop with hop | hop | hop | hop | hop | hop | hop | hop <;> subst hop <;>
      (first
        | decide
        | exact Nat.lt_trans h16 a5
        | exact Nat.lt_trans h16 a6
        | exact Nat.lt_trans h16 a7)
  · rcases hop with hop | hop | hop | hop <;> subst hop <;>
      (first
        | exact Nat.lt_trans h16 a1
        | exact Nat.lt_trans h16 a2
        | exact Nat.lt_trans h16 a3
        | exact Nat.lt_trans h16 a4)
  · rcases hop with hop | hop | hop | hop | hop | hop | hop | hop | hop | hop | hop | hop | hop <;>
      subst hop <;> decide

theorem wf_wild {P : Params} (h : P.wellFormed = true) : (wildcardOpcodes P).Nodup := by
  have hnd := wf_nodup h
  rw [List.append_assoc] at hnd
  exact (List.nodup_append.mp hnd).1

/-! ## The slots of `compareOp` -/

theorem compareOp_PUBKEY (P : Params) (op1 : Nat) (vch1 vch2 : valtype) (sols : List valtype) :
    compareOp P op1 vch1 OP_PUBKEY vch2 sols =
      if vch1.length < 33 ∨ vch1.length > 65 then none else some (sols ++ [vch1]) := by
  simp [compareOp]

theorem compareOp_PUBKEYHASH (P : Params) (op1 : Nat) (vch1 vch2 : valtype)
    (sols : List valtype) :
    compareOp P op1 vch1 OP_PUBKEYHASH vch2 sols =
      if vch1.length ≠ 20 then none else some (sols ++ [vch1]) := by
  have h1 : OP_PUBKEYHASH ≠ OP_PUBKEY := by decide
  simp [compareOp, h1]

theorem compareOp_NONCE {P : Params} (h : P.wellFormed = true) (op1 : Nat) (vch1 vch2 : valtype)
    (sols : List valtype) :
    compareOp P op1 vch1 P.OP_NONCE vch2 sols =
      if vch1.length > 9 then none else some (sols ++ [vch1]) := by
  have hw := wf_wild h
  have h1 : P.OP_NONCE ≠ OP_PUBKEY := nodup_ne hw (i := 3) (j := 1) rfl rfl (by decide)
  have h2 : P.OP_NONCE ≠ OP_PUBKEYHASH := nodup_ne hw (i := 3) (j := 2) rfl rfl (by decide)
  simp [compareOp, h1, h2]

theorem compareOp_NUMERIC {P : Params} (h : P.wellFormed = true) (op1 : Nat)
    (vch1 vch2 : valtype) (sols : List valtype) :
    compareOp P op1 vch1 P.OP_NUMERIC vch2 sols =
      if vch1.length > 4 then none else some (sols ++ [vch1]) := by
  have hw := wf_wild h
  have h1 : P.OP_NUMERIC ≠ OP_PUBKEY := nodup_ne hw (i := 4) (j := 1) rfl rfl (by decide)
  have h2 : P.OP_NUMERIC ≠ OP_PUBKEYHASH := nodup_ne hw (i := 4) (j := 2) rfl rfl (by decide)
  have h3 : P.OP_NUMERIC ≠ P.OP_NONCE := nodup_ne hw (i := 4) (j := 3) rfl rfl (by decide)
  simp [compareOp, h1, h2, h3]

theorem compareOp_SMALLINTEGER {P : Params} (h : P.wellFormed = true) (op1 : Nat)
    (vch1 vch2 : valtype) (sols : List valtype) :
    compareOp P op1 vch1 OP_SMALLINTEGER vch2 sols =
      if op1 = OP_0 ∨ (OP_1 ≤ op1 ∧ op1 ≤ OP_16) then some (sols ++ [[DecodeOP_N op1]])
      else none := by
  have hw := wf_wild h
  have h1 : OP_SMALLINTEGER ≠ OP_PUBKEY := by decide
  have h2 : OP_SMALLINTEGER ≠ OP_PUBKEYHASH := by decide
  have h3 : OP_SMALLINTEGER ≠ P.OP_NONCE := nodup_ne hw (i := 5) (j := 3) rfl rfl (by decide)
  have h4 : OP_SMALLINTEGER ≠ P.OP_NUMERIC := nodup_ne hw (i := 5) (j := 4) rfl rfl (by decide)
  simp [compareOp, h1, h2, h3, h4]

theorem compareOp_SCRIPTNUMBER {P : Params} (h : P.wellFormed = true) (op1 : Nat)
    (vch1 vch2 : valtype) (sols : List valtype) :
    compareOp P op1 vch1 P.OP_SCRIPTNUMBER vch2 sols =
      if op1 ≤ 0x05 then some (sols ++ [vch1]) else none := by
  have hw := wf_wild h
  have h1 : P.OP_SCRIPTNUMBER ≠ OP_PUBKEY := nodup_ne hw (i := 6) (j := 1) rfl rfl (by decide)
  have h2 : P.OP_SCRIPTNUMBER ≠ OP_PUBKEYHASH :=
    nodup_ne hw (i := 6) (j := 2) rfl rfl (by decide)
  have h3 : P.OP_SCRIPTNUMBER ≠ P.OP_NONCE := nodup_ne hw (i := 6) (j := 3) rfl rfl (by decide)
  have h4 : P.OP_SCRIPTNUMBER ≠ P.OP_NUMERIC := nodup_ne hw (i := 6) (j := 4) rfl rfl (by decide)
  have h5 : P.OP_SCRIPTNUMBER ≠ OP_SMALLINTEGER :=
    nodup_ne hw (i := 6) (j := 5) rfl rfl (by decide)
  simp [compareOp, h1, h2, h3, h4, h5]

theorem compareOp_SMALLDATA {P : Params} (h : P.wellFormed = true) (op1 : Nat)
    (vch1 vch2 : valtype) (sols : List valtype) :
    compareOp P op1 vch1 OP_SMALLDATA vch2 sols =
      if vch1.length > P.nMaxDatacarrierBytes then none else some sols := by
  have hw := wf_wild h
  have h1 : OP_SMALLDATA ≠ OP_PUBKEY := by decide
  have h2 : OP_SMALLDATA ≠ OP_PUBKEYHASH := by decide
  have h3 : OP_SMALLDATA ≠ P.OP_NONCE := nodup_ne hw (i := 7) (j := 3) rfl rfl (by decide)
  have h4 : OP_SMALLDATA ≠ P.OP_NUMERIC := nodup_ne hw (i := 7) (j := 4) rfl rfl (by decide)
  have h5 : OP_SMALLDATA ≠ OP_SMALLINTEGER := by decide
  have h6 : OP_SMALLDATA ≠ P.OP_SCRIPTNUMBER :=
    nodup_ne hw (i := 7) (j := 6) rfl rfl (by decide)
  simp [compareOp, h1, h2, h3, h4, h5, h6]

theorem compareOp_literal {P : Params} (h : P.wellFormed = true) {L : Nat}
    (hL : L ∈ ownLiterals P ++ sharedLiterals) (op1 : Nat) (vch1 vch2 : valtype)
    (sols : List valtype) :
    compareOp P op1 vch1 L vch2 sols =
      if op1 ≠ L ∨ vch1 ≠ vch2 then none else some sols := by
  obtain ⟨_, h1, h2, h3, h4, h5, h6, h7⟩ := wf_literal h hL
  simp [compareOp, h1, h2, h3, h4, h5, h6, h7]

/-! ## The template registry -/

theorem mem_multimapInsert (rank : txnouttype → Nat) (kv x : txnouttype × CScript) :
    ∀ m : List (txnouttype × CScript), x ∈ multimapInsert rank kv m ↔ x = kv ∨ x ∈ m := by
  intro m
  induction m with
  | nil => simp [multimapInsert]
  | cons y ys ih =>
    simp only [multimapInsert]
    split
    · simp
    · simp only [List.mem_cons, ih]
      tauto

theorem mem_foldl_multimapInsert (rank : txnouttype → Nat) (x : txnouttype × CScript) :
    ∀ (l m : List (txnouttype × CScript)),
      x ∈ l.foldl (fun m kv => multimapInsert rank kv m) m ↔ x ∈ l ∨ x ∈ m := by
  intro l
  induction l with
  | nil => simp
  | cons kv l ih =>
    intro m
    simp only [List.foldl_cons, ih, mem_multimapInsert, List.mem_cons]
    tauto

/-- The registry holds the inserted templates, whatever the order of the keys. -/
theorem mem_mTemplates (P : Params) (x : txnouttype × CScript) :
    x ∈ mTemplates P ↔ x ∈ templateInsertions P := by
  simp [mTemplates, mem_foldl_multimapInsert]

/-- A property of every inserted template is a property of each of the fifteen
`insert` statements, the one of the data-carrier template under its flag. -/
theorem forall_templateInsertions (P : Params) (Q : txnouttype × CScript → Prop) :
    (∀ x ∈ templateInsertions P, Q x) ↔
      Q (TX_PUBKEY, [OP_PUBKEY, OP_CHECKSIG]) ∧
      Q (TX_SCRIPTHASH, [OP_HASH160, OP_PUBKEYHASH, OP_EQUAL]) ∧
      Q (TX_DELAYEDSCRIPTHASH,
        [P.OP_SCRIPTNUMBER, P.OP_CHECKLOCKTIMEVERIFY, OP_HASH160, OP_PUBKEYHASH, OP_EQUAL]) ∧
      Q (TX_PUBKEYHASH, [OP_DUP, OP_HASH160, OP_PUBKEYHASH, OP_EQUALVERIFY, OP_CHECKSIG]) ∧
      Q (TX_DELAYEDPUBKEYHASH,
        [P.OP_SCRIPTNUMBER, P.OP_CHECKLOCKTIMEVERIFY, OP_DUP, OP_HASH160, OP_PUBKEYHASH,
          OP_EQUALVERIFY, OP_CHECKSIG]) ∧
      Q (TX_DELAYEDPUBKEY,
        [P.OP_SCRIPTNUMBER, P.OP_CHECKLOCKTIMEVERIFY, OP_PUBKEY, OP_CHECKSIG]) ∧
      Q (TX_MULTISIG, [OP_SMALLINTEGER, OP_PUBKEYS, OP_SMALLINTEGER, OP_CHECKMULTISIG]) ∧
      Q (TX_DELAYEDMULTISIG,
        [P.OP_SCRIPTNUMBER, P.OP_CHECKLOCKTIMEVERIFY, OP_SMALLINTEGER, OP_PUBKEYS,
          OP_SMALLINTEGER, OP_CHECKMULTISIG]) ∧
      Q (TX_ESCROW,
        [OP_IF, OP_PUBKEYHASH, OP_DUP, OP_PUBKEY, OP_PUBKEY, P.OP_CHECKDATASIG, OP_VERIFY,
          OP_SWAP, OP_HASH160, OP_EQUAL, OP_VERIFY, OP_PUBKEYHASH, OP_TOALTSTACK, OP_DUP,
          OP_HASH160, OP_PUBKEYHASH, OP_EQUALVERIFY, OP_CHECKSIG, OP_ELSE, P.OP_NUMERIC,
          P.OP_CHECKEXPIRY, OP_ENDIF]) ∧
      Q (TX_ESCROW_SENDER,
        [OP_IF, OP_IF, OP_PUBKEYHASH, OP_DUP, OP_PUBKEY, OP_PUBKEY, P.OP_CHECKDATASIG,
          OP_VERIFY, OP_SWAP, OP_HASH160, OP_EQUAL, OP_VERIFY, P.OP_CHECKTRANSFERNONCE,
          OP_ELSE, OP_PUBKEYHASH, OP_TOALTSTACK, OP_DUP, OP_HASH160, OP_PUBKEYHASH,
          OP_EQUALVERIFY, OP_CHECKSIG, OP_ENDIF, OP_ELSE, P.OP_NUMERIC, P.OP_CHECKEXPIRY,
          OP_ENDIF]) ∧
      Q (TX_ESCROW_FEE,
        [OP_IF, OP_PUBKEYHASH, OP_TOALTSTACK, OP_DUP, OP_HASH160, OP_PUBKEYHASH,
          OP_EQUALVERIFY, OP_CHECKSIG, OP_ELSE, P.OP_NUMERIC, P.OP_CHECKEXPIRY, OP_ENDIF]) ∧
      Q (TX_PUBKEYHASH_NONCED,
        [P.OP_NONCE, OP_TOALTSTACK, OP_DUP, OP_HASH160, OP_PUBKEYHASH, OP_EQUALVERIFY,
          OP_CHECKSIG]) ∧
      (P.fDataCarrier = true → Q (TX_NULL_DATA, [OP_RETURN, OP_SMALLDATA])) ∧
      Q (TX_NULL_DATA, [OP_RETURN]) := by
  cases hdc : P.fDataCarrier
  · simp only [templateInsertions, hdc, Bool.false_eq_true, if_false, List.append_nil,
      List.cons_append, List.nil_append, List.forall_mem_cons, List.not_mem_nil,
      false_implies, implies_true, and_true]
    tauto
  · simp only [templateInsertions, hdc, if_true, List.append_nil,
      List.cons_append, List.nil_append, List.forall_mem_cons, List.not_mem_nil,
      false_implies, implies_true, and_true, true_implies]
    tauto

theorem templateInsertions_plain {P : Params} (h : P.wellFormed = true)
    {x : txnouttype × CScript} (hx : x ∈ templateInsertions P) :
    ∀ op ∈ x.2, OP_PUSHDATA4 < op := by
  have hall : ∀ x ∈ templateInsertions P,
      ∀ op ∈ x.2, op ∈ wildcardOpcodes P ++ ownLiterals P ++ sharedLiterals := by
    rw [forall_templateInsertions]
    simp [wildcardOpcodes, ownLiterals, sharedLiterals]
  exact fun op hop => wf_plain h (hall x hx op hop)

/-! ## The scan over the registry -/

theorem scanTemplates_none (P : Params) (s : CScript) :
    ∀ tpls : List (txnouttype × CScript),
      (∀ x ∈ tpls, matchFull P x.1 s x.2 [] = .ok .broke) →
      scanTemplates P s tpls = .ok (false, TX_NONSTANDARD, []) := by
  intro tpls
  induction tpls with
  | nil => intro _; rfl
  | cons x xs ih =>
    intro hall
    have hx := hall x (List.mem_cons_self _ _)
    simp only [scanTemplates, matchLoop_eq_matchFull, hx]
    exact ih (fun y hy => hall y (List.mem_cons_of_mem _ hy))

theorem scanTemplates_unique (P : Params) (s : CScript) (t : txnouttype) (ret : Bool)
    (sols : List valtype) :
    ∀ tpls : List (txnouttype × CScript),
      (∃ x ∈ tpls, x.1 = t ∧ matchFull P x.1 s x.2 [] = .ok (.returned ret sols)) →
      (∀ x ∈ tpls, matchFull P x.1 s x.2 [] = .ok .broke ∨
        (x.1 = t ∧ matchFull P x.1 s x.2 [] = .ok (.returned ret sols))) →
      scanTemplates P s tpls = .ok (ret, t, sols) := by
  intro tpls
  induction tpls with
  | nil => intro hex; simp at hex
  | cons x xs ih =>
    intro hex hall
    rcases hall x (List.mem_cons_self _ _) with hx | ⟨ht, hx⟩
    · simp only [scanTemplates, matchLoop_eq_matchFull, hx]
      refine ih ?_ (fun y hy => hall y (List.mem_cons_of_mem _ hy))
      obtain ⟨y, hy, hyt, hym⟩ := hex
      rcases List.mem_cons.mp hy with rfl | hy'
      · rw [hx] at hym; cases hym
      · exact ⟨y, hy', hyt, hym⟩
    · simp only [scanTemplates, matchLoop_eq_matchFull, hx]
      rw [ht]

theorem scanTemplates_cases (P : Params) (s : CScript) (t : txnouttype) (ret : Bool)
    (sols : List valtype) :
    ∀ tpls : List (txnouttype × CScript), scanTemplates P s tpls = .ok (ret, t, sols) →
      (ret = false ∧ t = TX_NONSTANDARD ∧ sols = [] ∧
        ∀ x ∈ tpls, matchFull P x.1 s x.2 [] = .ok .broke) ∨
      ∃ x ∈ tpls, x.1 = t ∧ matchFull P x.1 s x.2 [] = .ok (.returned ret sols) := by
  intro tpls
  induction tpls with
  | nil =>
    intro h
    simp only [scanTemplates, Except.ok.injEq, Prod.mk.injEq] at h
    obtain ⟨h1, h2, h3⟩ := h
    exact Or.inl ⟨h1.symm, h2.symm, h3.symm, by simp⟩
  | cons x xs ih =>
    intro h
    simp only [scanTemplates, matchLoop_eq_matchFull] at h
    cases hm : matchFull P x.1 s x.2 [] with
    | error f => rw [hm] at h; cases h
    | ok r =>
      rw [hm] at h
      cases r with
      | broke =>
        rcases ih h with ⟨h1, h2, h3, h4⟩ | ⟨y, hy, hyt, hym⟩
        · refine Or.inl ⟨h1, h2, h3, ?_⟩
          intro y hy
          rcases List.mem_cons.mp hy with rfl | hy'
          · exact hm
          · exact h4 y hy'
        · exact Or.inr ⟨y, List.mem_cons_of_mem _ hy, hyt, hym⟩
      | returned ret' sols' =>
        simp only [Except.ok.injEq, Prod.mk.injEq] at h
        obtain ⟨h1, h2, h3⟩ := h
        subst h1 h2 h3
        exact Or.inr ⟨x, List.mem_cons_self _ _, rfl, hm⟩

/-- The scan ends without a fault when the scan of each template does. -/
theorem scanTemplates_ok (P : Params) (s : CScript) :
    ∀ tpls : List (txnouttype × CScript),
      (∀ x ∈ tpls, ∃ r, matchFull P x.1 s x.2 [] = .ok r) →
      ∃ r, scanTemplates P s tpls = .ok r := by
  intro tpls
  induction tpls with
  | nil => intro _; exact ⟨_, rfl⟩
  | cons x xs ih =>
    intro hall
    obtain ⟨r, hr⟩ := hall x (List.mem_cons_self _ _)
    simp only [scanTemplates, matchLoop_eq_matchFull, hr]
    cases r with
    | broke => exact ih (fun y hy => hall y (List.mem_cons_of_mem _ hy))
    | returned ret sols => exact ⟨_, rfl⟩

/-- On the registry `matchFull` is `matchT`. -/
theorem matchFull_template {P : Params} (h : P.wellFormed = true) {x : txnouttype × CScript}
    (hx : x ∈ templateInsertions P) (s : CScript) (sols : List valtype) :
    matchFull P x.1 s x.2 sols = matchT P x.1 s x.2 sols :=
  matchFull_eq_matchT P x.1 x.2.length x.2 s sols (Nat.le_refl _) (templateInsertions_plain h hx)

/-- A script that is not a pay-to-script-hash script, that one type of template
accepts or rejects with a `return`, and on which the templates of the other
types break, is given that result by `Solver`, in every order of the registry. -/
theorem Solver_unique {P : Params} (h : P.wellFormed = true) {s : CScript}
    (hp : IsPayToScriptHash s = false) {t : txnouttype} {ret : Bool} {sols : List valtype}
    (hex : ∃ x ∈ templateInsertions P, x.1 = t ∧
      matchT P x.1 s x.2 [] = .ok (.returned ret sols))
    (hall : ∀ x ∈ templateInsertions P, matchT P x.1 s x.2 [] = .ok .broke ∨
      (x.1 = t ∧ matchT P x.1 s x.2 [] = .ok (.returned ret sols)))
    (v : List valtype) : Solver P s v = .ok (ret, t, sols) := by
  simp only [Solver, hp, Bool.false_eq_true, if_false]
  apply scanTemplates_unique
  · obtain ⟨x, hx, ht, hm⟩ := hex
    exact ⟨x, (mem_mTemplates P x).mpr hx, ht, by rw [matchFull_template h hx]; exact hm⟩
  · intro x hx
    have hx' := (mem_mTemplates P x).mp hx
    rw [matchFull_template h hx']
    exact hall x hx'

/-- A script that is not a pay-to-script-hash script and on which every template
breaks is non-standard. -/
theorem Solver_none {P : Params} (h : P.wellFormed = true) {s : CScript}
    (hp : IsPayToScriptHash s = false)
    (hall : ∀ x ∈ templateInsertions P, matchT P x.1 s x.2 [] = .ok .broke)
    (v : List valtype) : Solver P s v = .ok (false, TX_NONSTANDARD, []) := by
  simp only [Solver, hp, Bool.false_eq_true, if_false]
  apply scanTemplates_none
  intro x hx
  have hx' := (mem_mTemplates P x).mp hx
  rw [matchFull_template h hx']
  exact hall x hx'

/-! ## Pushes -/

/-- A direct push of `v` is read back as `v`. -/
theorem GetOp_push {n : Nat} (hn : n < OP_PUSHDATA1) (v : valtype) (hv : v.length = n)
    (rest : CScript) : GetOp (n :: (v ++ rest)) = ⟨true, rest, n, v⟩ := by
  have h1 : n ≤ OP_PUSHDATA4 := Nat.le_of_lt (Nat.lt_trans hn (by decide))
  simp only [GetOp, h1, hn, if_true, readPush]
  have h2 : ¬ (v ++ rest).length < n := by simp [hv]
  simp [h2, ← hv]

theorem GetScriptForDestination_keyID {h : valtype} (hh : h.length = 20) :
    GetScriptForDestination (.CKeyID h) =
      OP_DUP :: OP_HASH160 :: 20 :: (h ++ [OP_EQUALVERIFY, OP_CHECKSIG]) := by
  simp +decide [GetScriptForDestination, pushOp, pushData, hh]

theorem GetScriptForDestination_scriptID {h : valtype} (hh : h.length = 20) :
    GetScriptForDestination (.CScriptID h) = OP_HASH160 :: 20 :: (h ++ [OP_EQUAL]) := by
  simp +decide [GetScriptForDestination, pushOp, pushData, hh]

/-- What the scan of the templates uses of the assumptions on the added opcodes. -/
theorem wf_own {P : Params} (h : P.wellFormed = true) :
    (OP_PUSHDATA4 < P.OP_CHECKLOCKTIMEVERIFY ∧ OP_PUSHDATA4 < P.OP_CHECKDATASIG ∧
      OP_PUSHDATA4 < P.OP_CHECKTRANSFERNONCE ∧ OP_PUSHDATA4 < P.OP_CHECKEXPIRY ∧
      OP_PUSHDATA4 < P.OP_NONCE ∧ OP_PUSHDATA4 < P.OP_NUMERIC ∧
      OP_PUSHDATA4 < P.OP_SCRIPTNUMBER) ∧
    (P.OP_CHECKLOCKTIMEVERIFY ≠ OP_PUBKEYS ∧ P.OP_CHECKDATASIG ≠ OP_PUBKEYS ∧
      P.OP_CHECKTRANSFERNONCE ≠ OP_PUBKEYS ∧ P.OP_CHECKEXPIRY ≠ OP_PUBKEYS ∧
      P.OP_NONCE ≠ OP_PUBKEYS ∧ P.OP_NUMERIC ≠ OP_PUBKEYS ∧ P.OP_SCRIPTNUMBER ≠ OP_PUBKEYS) := by
  have hw := wf_wild h
  refine ⟨⟨?_, ?_, ?_, ?_, ?_, ?_, ?_⟩, ⟨?_, ?_, ?_, ?_, ?_, ?_, ?_⟩⟩
  · exact wf_plain h (by simp [ownLiterals])
  · exact wf_plain h (by simp [ownLiterals])
  · exact wf_plain h (by simp [ownLiterals])
  · exact wf_plain h (by simp [ownLiterals])
  · exact wf_plain h (by simp [wildcardOpcodes])
  · exact wf_plain h (by simp [wildcardOpcodes])
  · exact wf_plain h (by simp [wildcardOpcodes])
  · exact (wf_literal h (by simp [ownLiterals])).1
  · exact (wf_literal h (by simp [ownLiterals])).1
  · exact (wf_literal h (by simp [ownLiterals])).1
  · exact (wf_literal h (by simp [ownLiterals])).1
  · exact nodup_ne hw (i := 3) (j := 0) rfl rfl (by decide)
  · exact nodup_ne hw (i := 4) (j := 0) rfl rfl (by decide)
  · exact nodup_ne hw (i := 6) (j := 0) rfl rfl (by decide)

theorem Solver_p2pkh {P : Params} (hP : P.wellFormed = true) {h : valtype} (hh : h.length = 20)
    (v : List valtype) :
    Solver P (OP_DUP :: OP_HASH160 :: 20 :: (h ++ [OP_EQUALVERIFY, OP_CHECKSIG])) v =
      .ok (true, TX_PUBKEYHASH, [h]) := by
  obtain ⟨⟨p1, p2, p3, p4, p5, p6, p7⟩, ⟨q1, q2, q3, q4, q5, q6, q7⟩⟩ := wf_own hP
  have g20 : ∀ rest, GetOp (20 :: (h ++ rest)) = ⟨true, rest, 20, h⟩ :=
    fun rest => GetOp_push (by decide) h hh rest
  apply Solver_unique hP
  · simp +decide [IsPayToScriptHash]
  · refine ⟨(TX_PUBKEYHASH, [OP_DUP, OP_HASH160, OP_PUBKEYHASH, OP_EQUALVERIFY, OP_CHECKSIG]),
      by simp [templateInsertions], rfl, ?_⟩
    simp +decide [matchT, GetOp_plain, g20, compareOp_PUBKEYHASH, compareOp_literal hP,
      ownLiterals, sharedLiterals, hh, foundMatch]
  · rw [forall_templateInsertions]
    simp +decide [matchT, GetOp_plain, g20, compareOp_PUBKEY, compareOp_PUBKEYHASH,
      compareOp_literal hP, compareOp_NONCE hP, compareOp_SCRIPTNUMBER hP,
      compareOp_SMALLINTEGER hP, compareOp_SMALLDATA hP, p1, p2, p3, p4, p5, p6, p7,
      q1, q2, q3, q4, q5, q6, q7, ownLiterals, sharedLiterals, hh, foundMatch]

theorem sampleParams_wellFormed : sampleParams.wellFormed = true := by decide

/-! ## Induction along the template -/

theorem decodeFails_step {pc : CScript} (hok : (GetOp pc).ok = true)
    (h : ∀ n, decodeFails n (GetOp pc).pc = false) : ∀ n, decodeFails n pc = false := by
  intro n
  cases n with
  | zero => rfl
  | succ n => simp [decodeFails, hok, h n]

/-- The `OP_PUBKEYS` loop ends without a fault; it appends the vectors of 33 to
65 bytes that it meets, it stops at a vector of another size, and it is left
after a failed `GetOp` with `OP_INVALIDOPCODE`. -/
theorem pubkeysFull_spec : ∀ (n : Nat) (pc1 : CScript) (opcode1 : Nat) (vch1 : valtype)
    (sols : List valtype), pc1.length ≤ n →
    ∃ pc' op' vch' keys, pubkeysFull pc1 opcode1 vch1 sols = .ok (pc', op', vch', sols ++ keys) ∧
      (∀ k ∈ keys, 33 ≤ k.length ∧ k.length ≤ 65) ∧
      ¬ (33 ≤ vch'.length ∧ vch'.length ≤ 65) ∧
      (op' = OP_INVALIDOPCODE ∨ op' = opcode1 ∨ pc'.length < pc1.length) ∧
      (op' = OP_INVALIDOPCODE ∨
        ((∀ n, decodeFails n pc' = false) → ∀ n, decodeFails n pc1 = false)) := by
  intro n
  induction n with
  | zero =>
    intro pc1 opcode1 vch1 sols hn
    rw [pubkeysFull_eq]
    by_cases hc : 33 ≤ vch1.length ∧ vch1.length ≤ 65
    · rw [if_pos hc]
      by_cases hok : (GetOp pc1).ok = false
      · rw [if_pos hok]
        obtain ⟨h1, h2⟩ := GetOp_fail hok
        exact ⟨_, _, _, [vch1], rfl, by simpa using hc, by simp [h2], Or.inl h1, Or.inl h1⟩
      · have := GetOp_ok_length (Bool.eq_true_of_not_eq_false hok)
        omega
    · rw [if_neg hc]
      exact ⟨_, _, _, [], by simp, by simp, hc, Or.inr (Or.inl rfl), Or.inr (fun h => h)⟩
  | succ n ih =>
    intro pc1 opcode1 vch1 sols hn
    rw [pubkeysFull_eq]
    by_cases hc : 33 ≤ vch1.length ∧ vch1.length ≤ 65
    · rw [if_pos hc]
      by_cases hok : (GetOp pc1).ok = false
      · rw [if_pos hok]
        obtain ⟨h1, h2⟩ := GetOp_fail hok
        exact ⟨_, _, _, [vch1], rfl, by simpa using hc, by simp [h2], Or.inl h1, Or.inl h1⟩
      · rw [if_neg hok]
        have hok' := Bool.eq_true_of_not_eq_false hok
        have hlt := GetOp_ok_length hok'
        obtain ⟨pc', op', vch', keys, hr, hk, hv, hm, hd⟩ :=
          ih (GetOp pc1).pc (GetOp pc1).opcodeRet (GetOp pc1).vchRet (sols ++ [vch1]) (by omega)
        refine ⟨pc', op', vch', vch1 :: keys, ?_, ?_, hv, ?_, ?_⟩
        · rw [hr]; simp
        · intro k hkm
          rcases List.mem_cons.mp hkm with rfl | hk'
          · exact hc
          · exact hk k hk'
        · rcases hm with hm | hm | hm
          · exact Or.inl hm
          · right; right
            have := pubkeysFull_ok (GetOp pc1).pc (GetOp pc1).opcodeRet (GetOp pc1).vchRet
              (sols ++ [vch1])
            obtain ⟨r, hr', hlen⟩ := this
            rw [hr] at hr'
            cases hr'
            simp only at hlen
            omega
          · right; right; omega
        · rcases hd with hd | hd
          · exact Or.inl hd
          · exact Or.inr (fun h => decodeFails_step hok' (hd h))
    · rw [if_neg hc]
      exact ⟨_, _, _, [], by simp, by simp, hc, Or.inr (Or.inl rfl), Or.inr (fun h => h)⟩

/-- Induction along the template: a property of the result of `matchT` holds
when it holds for a `break`, for the block `// Found a match`, and is carried
over a round of the loop. -/
theorem matchT_induct (P : Params) (t : txnouttype)
    (R : CScript → List Nat → List valtype → Except Fault MatchResult → Prop)
    (hend : ∀ sols, R [] [] sols (foundMatch t sols))
    (hbroke : ∀ pc1 pc2 sols, R pc1 pc2 sols (.ok .broke))
    (hstep : ∀ pc1 op2 pc2 sols sols', (GetOp pc1).ok = true → op2 ≠ OP_PUBKEYS →
      compareOp P (GetOp pc1).opcodeRet (GetOp pc1).vchRet op2 [] sols = some sols' →
      R (GetOp pc1).pc pc2 sols' (matchT P t (GetOp pc1).pc pc2 sols') →
      R pc1 (op2 :: pc2) sols (matchT P t (GetOp pc1).pc pc2 sols'))
    (hkeys : ∀ pc1 op2 pc2 sols pc1' opcode1 vch1 sols' sols'', (GetOp pc1).ok = true →
      pubkeysFull (GetOp pc1).pc (GetOp pc1).opcodeRet (GetOp pc1).vchRet sols =
        .ok (pc1', opcode1, vch1, sols') →
      compareOp P opcode1 vch1 op2 [] sols' = some sols'' →
      R pc1' pc2 sols'' (matchT P t pc1' pc2 sols'') →
      R pc1 (OP_PUBKEYS :: op2 :: pc2) sols (matchT P t pc1' pc2 sols'')) :
    ∀ (n : Nat) (pc2 : List Nat) (pc1 : CScript) (sols : List valtype), pc2.length ≤ n →
      R pc1 pc2 sols (matchT P t pc1 pc2 sols) := by
  intro n
  induction n with
  | zero =>
    intro pc2 pc1 sols hn
    have : pc2 = [] := List.length_eq_zero.mp (Nat.le_zero.mp hn)
    subst this
    simp only [matchT]
    by_cases h1 : pc1 = []
    · subst h1; simpa using hend sols
    · rw [if_neg h1]; exact hbroke _ _ _
  | succ n ih =>
    intro pc2 pc1 sols hn
    match pc2, hn with
    | [], _ =>
      simp only [matchT]
      by_cases h1 : pc1 = []
      · subst h1; simpa using hend sols
      · rw [if_neg h1]; exact hbroke _ _ _
    | [op2], _ =>
      simp only [matchT]
      by_cases hok : (GetOp pc1).ok = false
      · rw [if_pos hok]; exact hbroke _ _ _
      · rw [if_neg hok]
        by_cases hpk : op2 = OP_PUBKEYS
        · rw [if_pos hpk]; exact hbroke _ _ _
        · rw [if_neg hpk]
          cases hc : compareOp P (GetOp pc1).opcodeRet (GetOp pc1).vchRet op2 [] sols with
          | none => exact hbroke _ _ _
          | some sols' =>
            exact hstep pc1 op2 [] sols sols' (Bool.eq_true_of_not_eq_false hok) hpk hc
              (ih [] _ _ (by simp))
    | op2 :: op2' :: rest, hn =>
      simp only [matchT]
      by_cases hok : (GetOp pc1).ok = false
      · rw [if_pos hok]; exact hbroke _ _ _
      · rw [if_neg hok]
        have hok' := Bool.eq_true_of_not_eq_false hok
        by_cases hpk : op2 = OP_PUBKEYS
        · rw [if_pos hpk]
          subst hpk
          obtain ⟨r, hr, _⟩ := pubkeysFull_ok (GetOp pc1).pc (GetOp pc1).opcodeRet
            (GetOp pc1).vchRet sols
          obtain ⟨pc1', opcode1, vch1, sols'⟩ := r
          rw [hr]
          simp only
          cases hc : compareOp P opcode1 vch1 op2' [] sols' with
          | none => exact hbroke _ _ _
          | some sols'' =>
            exact hkeys pc1 op2' rest sols pc1' opcode1 vch1 sols' sols'' hok' hr hc
              (ih rest _ _ (by simp at hn; omega))
        · rw [if_neg hpk]
          cases hc : compareOp P (GetOp pc1).opcodeRet (GetOp pc1).vchRet op2 [] sols with
          | none => exact hbroke _ _ _
          | some sols' =>
            exact hstep pc1 op2 (op2' :: rest) sols sols' hok' hpk hc
              (ih (op2' :: rest) _ _ (by simp at hn ⊢; omega))

/-! ## Properties of a match -/

theorem foundMatch_sols {t : txnouttype} {sols sols' : List valtype} {ret : Bool}
    (h : foundMatch t sols = .ok (.returned ret sols')) : sols' = sols := by
  unfold foundMatch at h
  split at h
  · split at h
    · cases h
    · split at h
      · cases h
      · split at h
        · cases h
        · split at h
          · cases h
          · split at h <;> · cases h; rfl
  · cases h; rfl

/-- Outside `TX_MULTISIG` the scan of a template ends without a fault. -/
theorem matchT_ok (P : Params) {t : txnouttype} (ht : t ≠ TX_MULTISIG) (pc2 : List Nat)
    (pc1 : CScript) (sols : List valtype) : ∃ r, matchT P t pc1 pc2 sols = .ok r := by
  refine matchT_induct P t (fun _ _ _ res => ∃ r, res = .ok r) ?_ ?_ ?_ ?_ pc2.length pc2 pc1
    sols (Nat.le_refl _)
  · intro sols
    exact ⟨.returned true sols, by simp [foundMatch, ht]⟩
  · intro _ _ _
    exact ⟨_, rfl⟩
  · intro _ _ _ _ _ _ _ _ h
    exact h
  · intro _ _ _ _ _ _ _ _ _ _ _ _ h
    exact h

theorem ite_some_length {c : Prop} [Decidable c] {sols1 sols' : List valtype}
    (h : (if c then none else some sols1) = some sols') : sols' = sols1 := by
  split at h
  · cases h
  · cases h; rfl

theorem ite_some_length' {c : Prop} [Decidable c] {sols1 sols' : List valtype}
    (h : (if c then some sols1 else none) = some sols') : sols' = sols1 := by
  split at h
  · cases h; rfl
  · cases h

theorem compareOp_length {P : Params} {op1 op2 : Nat} {vch1 vch2 : valtype}
    {sols sols' : List valtype} (h : compareOp P op1 vch1 op2 vch2 sols = some sols') :
    sols'.length = sols.length + slotPushes P op2 := by
  unfold compareOp at h
  by_cases e1 : op2 = OP_PUBKEY
  · rw [if_pos e1] at h
    rw [ite_some_length h]
    simp [slotPushes, e1]
  rw [if_neg e1] at h
  by_cases e2 : op2 = OP_PUBKEYHASH
  · rw [if_pos e2] at h
    rw [ite_some_length h]
    simp [slotPushes, e2]
  rw [if_neg e2] at h
  by_cases e3 : op2 = P.OP_NONCE
  · rw [if_pos e3] at h
    rw [ite_some_length h]
    simp [slotPushes, e3]
  rw [if_neg e3] at h
  by_cases e4 : op2 = P.OP_NUMERIC
  · rw [if_pos e4] at h
    rw [ite_some_length h]
    simp [slotPushes, e4]
  rw [if_neg e4] at h
  by_cases e5 : op2 = OP_SMALLINTEGER
  · rw [if_pos e5] at h
    rw [ite_some_length' h]
    simp [slotPushes, e5]
  rw [if_neg e5] at h
  by_cases e6 : op2 = P.OP_SCRIPTNUMBER
  · rw [if_pos e6] at h
    rw [ite_some_length' h]
    simp [slotPushes, e6]
  rw [if_neg e6] at h
  have e0 : slotPushes P op2 = 0 := by simp [slotPushes, e1, e2, e3, e4, e5, e6]
  by_cases e7 : op2 = OP_SMALLDATA
  · rw [if_pos e7] at h
    rw [ite_some_length h, e0]
    rfl
  rw [if_neg e7] at h
  rw [ite_some_length h, e0]
  rfl

theorem pushCount_cons (P : Params) {op2 : Nat} (hpk : op2 ≠ OP_PUBKEYS) (pc2 : List Nat) :
    pushCount P (op2 :: pc2) = slotPushes P op2 + pushCount P pc2 := by
  cases pc2 with
  | nil => simp [pushCount, hpk]
  | cons a rest => simp [pushCount, hpk]

/-- A match appends at least as many solutions as the template has slots that
append one. -/
theorem matchT_pushCount (P : Params) (t : txnouttype) (pc2 : List Nat) (pc1 : CScript)
    (sols : List valtype) {ret : Bool} {sols' : List valtype}
    (h : matchT P t pc1 pc2 sols = .ok (.returned ret sols')) :
    sols.length + pushCount P pc2 ≤ sols'.length := by
  refine matchT_induct P t
    (fun _ pc2 sols res => ∀ ret sols', res = .ok (.returned ret sols') →
      sols.length + pushCount P pc2 ≤ sols'.length) ?_ ?_ ?_ ?_ pc2.length pc2 pc1
    sols (Nat.le_refl _) ret sols' h
  · intro sols ret sols' h
    rw [foundMatch_sols h]
    simp [pushCount]
  · intro _ _ _ ret sols' h
    cases h
  · intro pc1 op2 pc2 sols sols1 _ hpk hc ih ret sols' h
    have h1 := compareOp_length hc
    have h2 := ih ret sols' h
    rw [pushCount_cons P hpk]
    omega
  · intro pc1 op2 pc2 sols pc1' opcode1 vch1 sols1 sols2 _ hr hc ih ret sols' h
    have h1 := compareOp_length hc
    have h2 := ih ret sols' h
    obtain ⟨_, _, _, keys, hr', _⟩ := pubkeysFull_spec _ (GetOp pc1).pc (GetOp pc1).opcodeRet
      (GetOp pc1).vchRet sols (Nat.le_refl _)
    rw [hr] at hr'
    simp only [Except.ok.injEq, Prod.mk.injEq] at hr'
    have h3 : sols1.length = sols.length + keys.length := by rw [hr'.2.2.2]; simp
    simp only [pushCount, if_true]
    omega

theorem decodeFails_nil (n : Nat) : decodeFails n [] = false := by
  cases n <;> simp [decodeFails]

/-- A script that a template of the registry matches, or rejects after a match,
decodes to its end. -/
theorem matchT_decodes {P : Params} (hP : P.wellFormed = true) (t : txnouttype)
    (pc2 : List Nat) (pc1 : CScript) (sols : List valtype) (hg : pubkeysGuarded pc2 = true)
    {ret : Bool} {sols' : List valtype}
    (h : matchT P t pc1 pc2 sols = .ok (.returned ret sols')) :
    ∀ n, decodeFails n pc1 = false := by
  refine matchT_induct P t
    (fun pc1 pc2 _ res => pubkeysGuarded pc2 = true → ∀ ret sols',
      res = .ok (.returned ret sols') → ∀ n, decodeFails n pc1 = false) ?_ ?_ ?_ ?_
    pc2.length pc2 pc1 sols (Nat.le_refl _) hg ret sols' h
  · intro _ _ _ _ _ n
    exact decodeFails_nil n
  · intro _ _ _ _ ret sols' h
    cases h
  · intro pc1 op2 pc2 sols sols1 hok _ _ ih hg ret sols' h
    have hg' : pubkeysGuarded pc2 = true := by
      simp only [pubkeysGuarded, Bool.and_eq_true] at hg
      exact hg.2
    exact decodeFails_step hok (ih hg' ret sols' h)
  · intro pc1 op2 pc2 sols pc1' opcode1 vch1 sols1 sols2 hok hr hc ih hg ret sols' h
    simp only [pubkeysGuarded, Bool.and_eq_true, ne_eq, not_true_eq_false, decide_False,
      Bool.false_or, List.head?_cons, beq_iff_eq, Option.some.injEq] at hg
    obtain ⟨hop2, _, hg'⟩ := hg
    subst hop2
    rw [compareOp_SMALLINTEGER hP] at hc
    have hne : opcode1 ≠ OP_INVALIDOPCODE := by
      intro he
      subst he
      simp +decide at hc
    obtain ⟨_, _, _, keys, hr', _, _, _, hd⟩ := pubkeysFull_spec _ (GetOp pc1).pc
      (GetOp pc1).opcodeRet (GetOp pc1).vchRet sols (Nat.le_refl _)
    rw [hr] at hr'
    simp only [Except.ok.injEq, Prod.mk.injEq] at hr'
    obtain ⟨e1, e2, _, _⟩ := hr'
    subst e1 e2
    rcases hd with hd | hd
    · exact absurd hd hne
    · exact decodeFails_step hok (hd (ih hg' ret sols' h))

/-! ## The multisig template -/

theorem DecodeOP_N_le {op : Nat} (h : op = OP_0 ∨ (OP_1 ≤ op ∧ op ≤ OP_16)) :
    DecodeOP_N op ≤ 16 := by
  simp only [DecodeOP_N, OP_0, OP_1, OP_16] at h ⊢
  split <;> omega

/-- The tail `OP_SMALLINTEGER OP_PUBKEYS OP_SMALLINTEGER OP_CHECKMULTISIG` of a
template either breaks or reaches the block `// Found a match` with the
solutions `[m], key, ..., key, [n]` appended, where `m` and `n` are at most 16
and every key has 33 to 65 bytes. -/
theorem matchT_multisig {P : Params} (hP : P.wellFormed = true) (t : txnouttype)
    (s : CScript) (sols0 : List valtype) :
    matchT P t s [OP_SMALLINTEGER, OP_PUBKEYS, OP_SMALLINTEGER, OP_CHECKMULTISIG] sols0 =
        .ok .broke ∨
      ∃ m keys n, (∀ k ∈ keys, 33 ≤ k.length ∧ k.length ≤ 65) ∧ m ≤ 16 ∧ n ≤ 16 ∧
        matchT P t s [OP_SMALLINTEGER, OP_PUBKEYS, OP_SMALLINTEGER, OP_CHECKMULTISIG] sols0 =
          foundMatch t (sols0 ++ [m] :: (keys ++ [[n]])) := by
  have hsi : OP_SMALLINTEGER ≠ OP_PUBKEYS := by decide
  have hcm : OP_CHECKMULTISIG ≠ OP_PUBKEYS := by decide
  simp only [matchT, if_neg hsi, if_neg hcm, if_true, compareOp_SMALLINTEGER hP]
  by_cases hok1 : (GetOp s).ok = false
  · left; rw [if_pos hok1]
  rw [if_neg hok1]
  by_cases hm : (GetOp s).opcodeRet = OP_0 ∨ (OP_1 ≤ (GetOp s).opcodeRet ∧
      (GetOp s).opcodeRet ≤ OP_16)
  swap
  · left; rw [if_neg hm]
  rw [if_pos hm]
  simp only
  by_cases hok2 : (GetOp (GetOp s).pc).ok = false
  · left; rw [if_pos hok2]
  rw [if_neg hok2]
  obtain ⟨pc', op', vch', keys, hr, hk, _, _, _⟩ := pubkeysFull_spec _ (GetOp (GetOp s).pc).pc
    (GetOp (GetOp s).pc).opcodeRet (GetOp (GetOp s).pc).vchRet
    (sols0 ++ [[DecodeOP_N (GetOp s).opcodeRet]]) (Nat.le_refl _)
  rw [hr]
  simp only
  by_cases hn : op' = OP_0 ∨ (OP_1 ≤ op' ∧ op' ≤ OP_16)
  swap
  · left; rw [if_neg hn]
  rw [if_pos hn]
  simp only
  by_cases hok3 : (GetOp pc').ok = false
  · left; rw [if_pos hok3]
  rw [if_neg hok3]
  rw [compareOp_literal hP (by simp [sharedLiterals])]
  by_cases hlit : (GetOp pc').opcodeRet ≠ OP_CHECKMULTISIG ∨ (GetOp pc').vchRet ≠ []
  · left; rw [if_pos hlit]
  rw [if_neg hlit]
  simp only
  by_cases hend : (GetOp pc').pc = []
  swap
  · left; rw [if_neg hend]
  rw [if_pos hend]
  right
  refine ⟨DecodeOP_N (GetOp s).opcodeRet, keys, DecodeOP_N op', hk, DecodeOP_N_le hm,
    DecodeOP_N_le hn, ?_⟩
  simp

theorem sizeSub_add (n k : Nat) : sizeSub (n + k) k = n := by
  unfold sizeSub
  rw [if_neg (by omega)]
  omega

theorem foundMatch_multisig (m n : Nat) (keys : List valtype) :
    foundMatch TX_MULTISIG ([m] :: (keys ++ [[n]])) =
      .ok (.returned (decide (1 ≤ m ∧ 1 ≤ n ∧ m ≤ n ∧ keys.length = n))
        ([m] :: (keys ++ [[n]]))) := by
  have hlast : ([m] :: (keys ++ [[n]])).getLast? = some [n] := by
    rw [← List.cons_append]
    exact List.getLast?_concat _
  have hlen : ([m] :: (keys ++ [[n]])).length = keys.length + 2 := by simp
  have hsz : sizeSub ([m] :: (keys ++ [[n]])).length 2 = keys.length := by
    rw [hlen]; exact sizeSub_add _ _
  simp only [foundMatch, if_true, vecFront, vecAt, vecBack, hlast, hsz, List.getElem?_cons_zero]
  by_cases hc : 1 ≤ m ∧ 1 ≤ n ∧ m ≤ n ∧ keys.length = n
  · have : ¬ (m < 1 ∨ n < 1 ∨ m > n ∨ keys.length ≠ n) := by omega
    rw [if_neg this, decide_eq_true hc]
  · have : m < 1 ∨ n < 1 ∨ m > n ∨ keys.length ≠ n := by omega
    rw [if_pos this, decide_eq_false hc]

/-- The two data-carrier templates append no solution. -/
theorem matchT_nulldata_bare {P : Params} (hP : P.wellFormed = true) (t : txnouttype)
    (s : CScript) (sols0 : List valtype) {ret : Bool} {sols : List valtype}
    (h : matchT P t s [OP_RETURN] sols0 = .ok (.returned ret sols)) : sols = sols0 := by
  have hne : OP_RETURN ≠ OP_PUBKEYS := by decide
  simp only [matchT, if_neg hne, compareOp_literal hP (L := OP_RETURN)
    (by simp [sharedLiterals])] at h
  split at h
  · cases h
  · split at h
    · cases h
    · rename_i sols1 hc
      rw [ite_some_length hc] at h
      split at h
      · exact foundMatch_sols h
      · cases h

theorem matchT_nulldata_data {P : Params} (hP : P.wellFormed = true) (t : txnouttype)
    (s : CScript) (sols0 : List valtype) {ret : Bool} {sols : List valtype}
    (h : matchT P t s [OP_RETURN, OP_SMALLDATA] sols0 = .ok (.returned ret sols)) :
    sols = sols0 := by
  have hne : OP_RETURN ≠ OP_PUBKEYS := by decide
  have hne' : OP_SMALLDATA ≠ OP_PUBKEYS := by decide
  simp only [matchT, if_neg hne, if_neg hne', compareOp_SMALLDATA hP,
    compareOp_literal hP (L := OP_RETURN) (by simp [sharedLiterals])] at h
  split at h
  · cases h
  · split at h
    · cases h
    · rename_i sols1 hc
      rw [ite_some_length hc] at h
      split at h
      · cases h
      · split at h
        · cases h
        · rename_i sols2 hc2
          rw [ite_some_length hc2] at h
          split at h
          · exact foundMatch_sols h
          · cases h

/-! ## Claim C1: round trip of a destination -/

theorem IsPayToScriptHash_p2sh {h : valtype} (hh : h.length = 20) :
    IsPayToScriptHash (OP_HASH160 :: 20 :: (h ++ [OP_EQUAL])) = true := by
  have h22 : (h ++ [OP_EQUAL])[20]? = some OP_EQUAL := by
    rw [List.getElem?_append_right (by omega)]
    simp [hh]
  simp [IsPayToScriptHash, hh, h22]

theorem Solver_p2sh (P : Params) {h : valtype} (hh : h.length = 20) (v : List valtype) :
    Solver P (OP_HASH160 :: 20 :: (h ++ [OP_EQUAL])) v = .ok (true, TX_SCRIPTHASH, v ++ [h]) := by
  simp [Solver, IsPayToScriptHash_p2sh hh, List.take_append_of_le_length, hh]

/-- C1. Round trip: for a 20-byte hash `h` and a destination `d` that is the key
hash `h` or the script hash `h`, `ExtractDestination` applied to
`GetScriptForDestination(d)` returns true and sets the address to `d`. -/
theorem C1_roundtrip (P : Params) (hP : P.wellFormed = true) (h : valtype)
    (hh : h.length = 20) (d : CTxDestination) (hd : d = .CKeyID h ∨ d = .CScriptID h)
    (addressRet : CTxDestination) :
    ExtractDestination P (GetScriptForDestination d) addressRet = .ok (true, d) := by
  rcases hd with rfl | rfl
  · rw [GetScriptForDestination_keyID hh]
    simp [ExtractDestination, Solver_p2pkh hP hh, keyIDAt, vecAt, toUint160, hh]
  · rw [GetScriptForDestination_scriptID hh]
    simp [ExtractDestination, Solver_p2sh P hh, vecAt, toUint160, hh]

theorem C1_roundtrip_witness :
    sampleParams.wellFormed = true ∧ (sampleHash 7).length = 20 ∧
      ExtractDestination sampleParams (GetScriptForDestination (.CKeyID (sampleHash 7)))
        .CNoDestination = .ok (true, .CKeyID (sampleHash 7)) :=
  ⟨by decide, by decide,
    C1_roundtrip sampleParams (by decide) (sampleHash 7) (by decide) _ (Or.inl rfl) _⟩

/-! ## Claim C2: one type, and when the solutions are empty -/

/-- On every script the scan of every template of the registry ends without a
fault. -/
theorem templates_ok {P : Params} (hP : P.wellFormed = true) (s : CScript) :
    ∀ x ∈ templateInsertions P, ∃ r, matchT P x.1 s x.2 [] = .ok r := by
  rw [forall_templateInsertions]
  refine ⟨?_, ?_, ?_, ?_, ?_, ?_, ?_, ?_, ?_, ?_, ?_, ?_, ?_, ?_⟩
  case refine_7 =>
    rcases matchT_multisig hP TX_MULTISIG s [] with h | ⟨m, keys, n, _, _, _, h⟩
    · exact ⟨_, h⟩
    · rw [h]
      exact ⟨_, foundMatch_multisig m n keys⟩
  all_goals first
    | (refine matchT_ok P ?_ _ _ _; simp)
    | (intro _; refine matchT_ok P ?_ _ _ _; simp)

/-- Every template but the two of `TX_NULL_DATA` has a slot that appends a
solution. -/
theorem templates_pushCount {P : Params} (hP : P.wellFormed = true) :
    ∀ x ∈ templateInsertions P, x.1 = TX_NULL_DATA ∨ 1 ≤ pushCount P x.2 := by
  obtain ⟨_, ⟨_, _, _, _, q5, _, q7⟩⟩ := wf_own hP
  have hA : ∀ op rest, op ≠ OP_PUBKEYS → slotPushes P op = 1 →
      1 ≤ pushCount P (op :: rest) := by
    intro op rest h1 h2
    rw [pushCount_cons P h1]
    omega
  have hS : ∀ op rest, op ≠ OP_PUBKEYS → 1 ≤ pushCount P rest →
      1 ≤ pushCount P (op :: rest) := by
    intro op rest h1 h2
    rw [pushCount_cons P h1]
    omega
  have s1 : slotPushes P OP_PUBKEY = 1 := by simp [slotPushes]
  have s2 : slotPushes P OP_PUBKEYHASH = 1 := by simp [slotPushes]
  have s3 : slotPushes P P.OP_NONCE = 1 := by simp [slotPushes]
  have s4 : slotPushes P OP_SMALLINTEGER = 1 := by simp [slotPushes]
  have s5 : slotPushes P P.OP_SCRIPTNUMBER = 1 := by simp [slotPushes]
  rw [forall_templateInsertions]
  refine ⟨Or.inr ?_, Or.inr ?_, Or.inr ?_, Or.inr ?_, Or.inr ?_, Or.inr ?_, Or.inr ?_, Or.inr ?_,
    Or.inr ?_, Or.inr ?_, Or.inr ?_, Or.inr ?_, fun _ => Or.inl rfl, Or.inl rfl⟩
  · exact hA _ _ (by decide) s1
  · exact hS _ _ (by decide) (hA _ _ (by decide) s2)
  · exact hA _ _ q7 s5
  · exact hS _ _ (by decide) (hS _ _ (by decide) (hA _ _ (by decide) s2))
  · exact hA _ _ q7 s5
  · exact hA _ _ q7 s5
  · exact hA _ _ (by decide) s4
  · exact hA _ _ q7 s5
  · exact hS _ _ (by decide) (hA _ _ (by decide) s2)
  · exact hS _ _ (by decide) (hS _ _ (by decide) (hA _ _ (by decide) s2))
  · exact hS _ _ (by decide) (hA _ _ (by decide) s2)
  · exact hA _ _ q5 s3

theorem templates_type (P : Params) :
    ∀ x ∈ templateInsertions P, x.1 ≠ TX_NONSTANDARD := by
  rw [forall_templateInsertions]
  simp

theorem templates_nulldata {P : Params} (hP : P.wellFormed = true) (s : CScript) :
    ∀ x ∈ templateInsertions P, x.1 = TX_NULL_DATA →
      ∀ ret sols, matchT P x.1 s x.2 [] = .ok (.returned ret sols) → sols = [] := by
  rw [forall_templateInsertions]
  simp only [reduceCtorEq, false_implies, true_implies, true_and]
  exact ⟨fun _ _ _ h => matchT_nulldata_data hP _ _ _ h,
    fun _ _ h => matchT_nulldata_bare hP _ _ _ h⟩

/-- C2, the statement of the specification fails: the script `RETURN` is given
the type `TX_NULL_DATA`, which is not `TX_NONSTANDARD`, with no solution. -/
theorem C2_counterexample :
    ∃ ret t sols, Solver sampleParams [OP_RETURN] [] = .ok (ret, t, sols) ∧
      ¬ (t = TX_NONSTANDARD ↔ sols = []) :=
  ⟨true, TX_NULL_DATA, [], rfl, by decide⟩

/-- C2, amended. For every script and an empty solutions vector on entry,
`Solver` ends with one return value, one output type and one solutions vector,
and the solutions are empty if and only if the type is `TX_NONSTANDARD` or
`TX_NULL_DATA`. -/
theorem C2_type_and_solutions (P : Params) (hP : P.wellFormed = true) (s : CScript) :
    ∃ ret t sols, Solver P s [] = .ok (ret, t, sols) ∧
      (sols = [] ↔ (t = TX_NONSTANDARD ∨ t = TX_NULL_DATA)) := by
  by_cases hp : IsPayToScriptHash s = true
  · exact ⟨true, TX_SCRIPTHASH, [(s.drop 2).take 20], by simp [Solver, hp], by simp⟩
  · have hmem : ∀ x, x ∈ mTemplates P → x ∈ templateInsertions P :=
      fun x hx => (mem_mTemplates P x).mp hx
    obtain ⟨⟨ret, t, sols⟩, hr⟩ := scanTemplates_ok P s (mTemplates P) (fun x hx => by
      rw [matchFull_template hP (hmem x hx)]
      exact templates_ok hP s x (hmem x hx))
    refine ⟨ret, t, sols, by simp [Solver, hp, hr], ?_⟩
    rcases scanTemplates_cases P s t ret sols (mTemplates P) hr with
      ⟨_, h2, h3, _⟩ | ⟨x, hx, hxt, hm⟩
    · simp [h2, h3]
    · rw [matchFull_template hP (hmem x hx)] at hm
      have hty := templates_type P x (hmem x hx)
      rw [hxt] at hty
      constructor
      · intro hs
        rcases templates_pushCount hP x (hmem x hx) with hnd | hpc
        · exact Or.inr (hxt ▸ hnd)
        · have := matchT_pushCount P x.1 x.2 s [] hm
          rw [hs] at this
          simp at this
          omega
      · intro ht
        rcases ht with ht | ht
        · exact absurd ht hty
        · exact templates_nulldata hP s x (hmem x hx) (hxt.trans ht) ret sols hm

theorem C2_type_and_solutions_witness :
    sampleParams.wellFormed = true ∧
      ∃ ret t sols, Solver sampleParams [OP_RETURN, 1, 7] [] = .ok (ret, t, sols) ∧
        (sols = [] ↔ (t = TX_NONSTANDARD ∨ t = TX_NULL_DATA)) :=
  ⟨by decide, C2_type_and_solutions sampleParams (by decide) [OP_RETURN, 1, 7]⟩

/-! ## Claims C3 and C4: the script of `GetScriptForMultisig` -/

theorem pushData_append (s : CScript) (b : valtype) : pushData s b = s ++ pushData [] b := by
  unfold pushData
  split_ifs <;> simp

theorem foldl_pushData (keys : List valtype) :
    ∀ s : CScript, keys.foldl pushData s = s ++ pushAll keys := by
  induction keys with
  | nil => intro s; simp [pushAll]
  | cons k ks ih =>
    intro s
    simp only [List.foldl_cons, pushAll]
    rw [ih, ih (pushData [] k), pushData_append s k, List.append_assoc]

theorem pushAll_cons (k : valtype) (ks : List valtype) :
    pushAll (k :: ks) = pushData [] k ++ pushAll ks := by
  simp only [pushAll, List.foldl_cons]
  rw [foldl_pushData]
  rfl

theorem pushData_key {k : valtype} (hk : k.length = 33 ∨ k.length = 65) :
    pushData [] k = k.length :: k := by
  have : k.length < OP_PUSHDATA1 := by simp only [OP_PUSHDATA1]; omega
  simp [pushData, this]

theorem GetScriptForMultisig_eq (m : Nat) (keys : List valtype) :
    GetScriptForMultisig m keys =
      EncodeOP_N m :: (pushAll keys ++ [EncodeOP_N keys.length, OP_CHECKMULTISIG]) := by
  simp [GetScriptForMultisig, pushOp, foldl_pushData]

theorem pubkeysFull_stop (pc1 : CScript) (opcode1 : Nat) {vch1 : valtype}
    (hv : ¬ (33 ≤ vch1.length ∧ vch1.length ≤ 65)) (sols : List valtype) :
    pubkeysFull pc1 opcode1 vch1 sols = .ok (pc1, opcode1, vch1, sols) := by
  rw [pubkeysFull_eq, if_neg hv]

/-- The `OP_PUBKEYS` loop over pushed keys of 33 or 65 bytes takes them all and
stops at what follows them. -/
theorem pubkeysFull_keys {tail tail' : CScript} {op : Nat} {vch : valtype}
    (htail : GetOp tail = ⟨true, tail', op, vch⟩)
    (hv : ¬ (33 ≤ vch.length ∧ vch.length ≤ 65)) :
    ∀ (ks : List valtype) (k : valtype) (opcode1 : Nat) (sols : List valtype),
      (∀ x ∈ k :: ks, x.length = 33 ∨ x.length = 65) →
      pubkeysFull (pushAll ks ++ tail) opcode1 k sols = .ok (tail', op, vch, sols ++ k :: ks) := by
  intro ks
  induction ks with
  | nil =>
    intro k opcode1 sols hk
    have hk1 : 33 ≤ k.length ∧ k.length ≤ 65 := by
      have := hk k (List.mem_cons_self _ _)
      omega
    rw [pubkeysFull_eq, if_pos hk1]
    simp only [pushAll, List.foldl_nil, List.nil_append, htail, Bool.true_eq_false, if_false]
    exact pubkeysFull_stop _ _ hv _
  | cons k' ks ih =>
    intro k opcode1 sols hk
    have hk1 : 33 ≤ k.length ∧ k.length ≤ 65 := by
      have := hk k (List.mem_cons_self _ _)
      omega
    have hk' : k'.length = 33 ∨ k'.length = 65 := hk k' (by simp)
    have hlt : k'.length < OP_PUSHDATA1 := by simp only [OP_PUSHDATA1]; omega
    rw [pubkeysFull_eq, if_pos hk1, pushAll_cons, pushData_key hk']
    simp only [List.cons_append, List.append_assoc]
    rw [GetOp_push hlt k' rfl]
    simp only [Bool.true_eq_false, if_false]
    rw [ih k' k'.length (sols ++ [k]) (fun x hx => hk x (List.mem_cons_of_mem _ hx))]
    simp

theorem EncodeOP_N_facts {n : Nat} (h1 : 1 ≤ n) (h2 : n ≤ 16) :
    OP_PUSHDATA4 < EncodeOP_N n ∧ OP_1 ≤ EncodeOP_N n ∧ EncodeOP_N n ≤ OP_16 ∧
      DecodeOP_N (EncodeOP_N n) = n := by
  simp only [EncodeOP_N, DecodeOP_N, OP_PUSHDATA4, OP_0, OP_1, OP_16]
  have : ¬ n = 0 := by omega
  rw [if_neg this]
  have : ¬ 81 + n - 1 = 0 := by omega
  rw [if_neg this]
  omega

/-- The script of `GetScriptForMultisig` for `1 ≤ m ≤ len(keys) ≤ 16` and keys of
33 or 65 bytes is matched by the `TX_MULTISIG` template, and by no other. -/
theorem Solver_multisig_script {P : Params} (hP : P.wellFormed = true) {m : Nat}
    {keys : List valtype} (h1 : 1 ≤ m) (h2 : m ≤ keys.length) (h3 : keys.length ≤ 16)
    (hk : ∀ k ∈ keys, k.length = 33 ∨ k.length = 65) (v : List valtype) :
    Solver P (GetScriptForMultisig m keys) v =
      .ok (true, TX_MULTISIG, [m] :: (keys ++ [[keys.length]])) := by
  obtain ⟨⟨p1, p2, p3, p4, p5, p6, p7⟩, ⟨q1, q2, q3, q4, q5, q6, q7⟩⟩ := wf_own hP
  obtain ⟨m1, m2, m3, m4⟩ := EncodeOP_N_facts h1 (Nat.le_trans h2 h3)
  obtain ⟨n1, n2, n3, n4⟩ := EncodeOP_N_facts (Nat.le_trans h1 h2) h3
  rw [GetScriptForMultisig_eq]
  cases keys with
  | nil => simp at h2; omega
  | cons k ks =>
    have hk0 : k.length = 33 ∨ k.length = 65 := hk k (List.mem_cons_self _ _)
    have hlt : k.length < OP_PUSHDATA1 := by simp only [OP_PUSHDATA1]; omega
    rw [pushAll_cons, pushData_key hk0]
    simp only [List.cons_append, List.append_assoc]
    generalize hom : EncodeOP_N m = om at m1 m2 m3 m4 ⊢
    generalize hon : EncodeOP_N (k :: ks).length = oN at n1 n2 n3 n4 ⊢
    have gk := GetOp_push hlt k rfl (pushAll ks ++ [oN, OP_CHECKMULTISIG])
    have gtail : GetOp [oN, OP_CHECKMULTISIG] = ⟨true, [OP_CHECKMULTISIG], oN, []⟩ :=
      GetOp_plain n1 _
    have gkeys := pubkeysFull_keys gtail (by simp) ks k k.length [[m]] hk
    have f1 : om ≠ OP_HASH160 := by simp only [OP_16, OP_HASH160] at m3 ⊢; omega
    have f2 : om ≠ OP_DUP := by simp only [OP_16, OP_DUP] at m3 ⊢; omega
    have f3 : om ≠ OP_IF := by simp only [OP_16, OP_IF] at m3 ⊢; omega
    have f4 : om ≠ OP_RETURN := by simp only [OP_16, OP_RETURN] at m3 ⊢; omega
    have f5 : ¬ om ≤ 5 := by simp only [OP_1] at m2; omega
    have f6 : k.length ≠ OP_TOALTSTACK := by simp only [OP_TOALTSTACK]; omega
    have hdec : (1 ≤ m ∧ 1 ≤ (k :: ks).length ∧ m ≤ (k :: ks).length ∧
        (k :: ks).length = (k :: ks).length) := ⟨h1, Nat.le_trans h1 h2, h2, rfl⟩
    have hms : matchT P TX_MULTISIG
        (om :: k.length :: (k ++ (pushAll ks ++ [oN, OP_CHECKMULTISIG])))
        [OP_SMALLINTEGER, OP_PUBKEYS, OP_SMALLINTEGER, OP_CHECKMULTISIG] [] =
        .ok (.returned true ([m] :: (k :: ks ++ [[(k :: ks).length]]))) := by
      have := foundMatch_multisig m (k :: ks).length (k :: ks)
      rw [decide_eq_true hdec] at this
      simp only [List.length_cons, List.cons_append] at this
      simp +decide [matchT, GetOp_plain, m1, gk, gkeys, compareOp_SMALLINTEGER hP, m2, m3, m4,
        n2, n3, n4, compareOp_literal hP, sharedLiterals, this]
    apply Solver_unique hP
    · simp [IsPayToScriptHash, f1]
    · exact ⟨(TX_MULTISIG, [OP_SMALLINTEGER, OP_PUBKEYS, OP_SMALLINTEGER, OP_CHECKMULTISIG]),
        by simp [templateInsertions], rfl, hms⟩
    · rw [forall_templateInsertions]
      refine ⟨?_, ?_, ?_, ?_, ?_, ?_, Or.inr ⟨rfl, hms⟩, ?_, ?_, ?_, ?_, ?_, ?_, ?_⟩
      all_goals
        simp +decide [matchT, GetOp_plain, m1, gk, compareOp_PUBKEY, compareOp_PUBKEYHASH,
          compareOp_literal hP, compareOp_NONCE hP, compareOp_SCRIPTNUMBER hP,
          compareOp_SMALLDATA hP, p1, p2, p3, p4, p5, p6, p7,
          q1, q2, q3, q4, q5, q6, q7, ownLiterals, sharedLiterals, f1, f2, f3, f4, f5, f6]

/-- C3. For `1 ≤ m ≤ len(keys) ≤ 16` and keys that serialise to 33 or 65 bytes,
`Solver` applied to `GetScriptForMultisig(m, keys)` returns true with the type
`TX_MULTISIG` and the solutions: the byte `m`, the keys in their order, the byte
`len(keys)`. -/
theorem C3_multisig_solver (P : Params) (hP : P.wellFormed = true) (m : Nat)
    (keys : List valtype) (h1 : 1 ≤ m) (h2 : m ≤ keys.length) (h3 : keys.length ≤ 16)
    (hk : ∀ k ∈ keys, k.length = 33 ∨ k.length = 65) (v : List valtype) :
    Solver P (GetScriptForMultisig m keys) v =
      .ok (true, TX_MULTISIG, [[m]] ++ keys ++ [[keys.length]]) := by
  rw [Solver_multisig_script hP h1 h2 h3 hk v]
  simp

theorem C3_multisig_solver_witness :
    sampleParams.wellFormed = true ∧
      Solver sampleParams (GetScriptForMultisig 2 [sampleKey 1, sampleKey 2, sampleKey 3]) [] =
        .ok (true, TX_MULTISIG, [[2], sampleKey 1, sampleKey 2, sampleKey 3, [3]]) :=
  ⟨by decide,
    C3_multisig_solver sampleParams (by decide) 2 [sampleKey 1, sampleKey 2, sampleKey 3]
      (by decide) (by decide) (by decide) (by decide) []⟩

/-- C4. For `1 ≤ m ≤ len(keys) ≤ 16` and keys that serialise to 33 or 65 bytes,
`IsStandard` applied to `GetScriptForMultisig(m, keys)` is true if and only if
`len(keys) ≤ 3`; the type it reports is `TX_MULTISIG`. -/
theorem C4_multisig_standard (P : Params) (hP : P.wellFormed = true) (m : Nat)
    (keys : List valtype) (h1 : 1 ≤ m) (h2 : m ≤ keys.length) (h3 : keys.length ≤ 16)
    (hk : ∀ k ∈ keys, k.length = 33 ∨ k.length = 65) :
    IsStandard P (GetScriptForMultisig m keys) = .ok (decide (keys.length ≤ 3), TX_MULTISIG) := by
  have hlast : ([m] :: (keys ++ [[keys.length]])).getLast? = some [keys.length] := by
    rw [← List.cons_append]
    exact List.getLast?_concat _
  simp only [IsStandard, Solver_multisig_script hP h1 h2 h3 hk [], if_true, vecFront, vecAt,
    vecBack, hlast, List.getElem?_cons_zero]
  by_cases hn : keys.length ≤ 3
  · have c1 : ¬ (keys.length < 1 ∨ keys.length > 3) := by omega
    have c2 : ¬ (m < 1 ∨ m > keys.length) := by omega
    rw [if_neg c1, if_neg c2, decide_eq_true hn]
    rfl
  · have c1 : keys.length < 1 ∨ keys.length > 3 := by omega
    rw [if_pos c1, decide_eq_false hn]

theorem C4_multisig_standard_witness :
    sampleParams.wellFormed = true ∧
      IsStandard sampleParams
        (GetScriptForMultisig 2 [sampleKey 1, sampleKey 2, sampleKey 3, sampleKey 4]) =
        .ok (false, TX_MULTISIG) :=
  ⟨by decide,
    C4_multisig_standard sampleParams (by decide) 2
      [sampleKey 1, sampleKey 2, sampleKey 3, sampleKey 4]
      (by decide) (by decide) (by decide) (by decide)⟩

/-! ## Claims C5, C6 and C7: the checks on a multisig match -/

theorem GetOp_zero (rest : CScript) : GetOp (OP_0 :: rest) = ⟨true, rest, OP_0, []⟩ := by
  simp [GetOp, readPush, OP_0, OP_PUSHDATA4, OP_PUSHDATA1]

/-- What the scripts below use of the assumptions on `OP_CHECKLOCKTIMEVERIFY`. -/
theorem wf_cltv {P : Params} (h : P.wellFormed = true) :
    P.OP_CHECKLOCKTIMEVERIFY ≠ OP_TOALTSTACK ∧ P.OP_CHECKLOCKTIMEVERIFY ≠ OP_0 ∧
      ¬ (OP_1 ≤ P.OP_CHECKLOCKTIMEVERIFY ∧ P.OP_CHECKLOCKTIMEVERIFY ≤ OP_16) := by
  have hnd := wf_nodup h
  obtain ⟨a1, _⟩ := wf_beyond h
  refine ⟨nodup_ne hnd (i := 8) (j := 21) rfl rfl (by decide), ?_, ?_⟩
  · simp only [OP_16, OP_0] at a1 ⊢; omega
  · simp only [OP_16, OP_1] at a1 ⊢; omega

/-- A script `OP_1 OP_1 OP_CHECKMULTISIG`, with thresholds 1 of 1 and no key,
ends `Solver` in the block of additional checks for `TX_MULTISIG`. -/
theorem Solver_multisig_nokey {P : Params} (hP : P.wellFormed = true) (v : List valtype) :
    Solver P [OP_1, OP_1, OP_CHECKMULTISIG] v = .ok (false, TX_MULTISIG, [[1], [1]]) := by
  obtain ⟨⟨p1, p2, p3, p4, p5, p6, p7⟩, ⟨q1, q2, q3, q4, q5, q6, q7⟩⟩ := wf_own hP
  have hfm : foundMatch TX_MULTISIG [[1], [1]] = .ok (.returned false [[1], [1]]) :=
    foundMatch_multisig 1 1 []
  have hps : pubkeysFull [OP_CHECKMULTISIG] OP_1 [] [[1]] =
      .ok ([OP_CHECKMULTISIG], OP_1, [], [[1]]) := pubkeysFull_stop _ _ (by simp) _
  have hd1 : DecodeOP_N OP_1 = 1 := by decide
  have hms : matchT P TX_MULTISIG [OP_1, OP_1, OP_CHECKMULTISIG]
      [OP_SMALLINTEGER, OP_PUBKEYS, OP_SMALLINTEGER, OP_CHECKMULTISIG] [] =
      .ok (.returned false [[1], [1]]) := by
    simp +decide [matchT, GetOp_plain, hps, compareOp_SMALLINTEGER hP, compareOp_literal hP,
      sharedLiterals, hfm, hd1]
  apply Solver_unique hP
  · simp +decide [IsPayToScriptHash]
  · exact ⟨(TX_MULTISIG, [OP_SMALLINTEGER, OP_PUBKEYS, OP_SMALLINTEGER, OP_CHECKMULTISIG]),
      by simp [templateInsertions], rfl, hms⟩
  · rw [forall_templateInsertions]
    refine ⟨?_, ?_, ?_, ?_, ?_, ?_, Or.inr ⟨rfl, hms⟩, ?_, ?_, ?_, ?_, ?_, ?_, ?_⟩
    all_goals
      simp +decide [matchT, GetOp_plain, compareOp_PUBKEY, compareOp_PUBKEYHASH,
        compareOp_literal hP, compareOp_NONCE hP, compareOp_SCRIPTNUMBER hP,
        compareOp_SMALLDATA hP, p1, p2, p3, p4, p5, p6, p7,
        q1, q2, q3, q4, q5, q6, q7, ownLiterals, sharedLiterals]

/-- C6, the code at the failing input. On `OP_1 OP_1 OP_CHECKMULTISIG`, which has
the shape of the multisig template with `m = n = 1` and no key, `Solver` returns
false and leaves the type `TX_MULTISIG` and the two solutions `[1]`, `[1]` in
place of `TX_NONSTANDARD` and no solution. -/
theorem C6_rejected_match_not_cleared (P : Params) (hP : P.wellFormed = true)
    (v : List valtype) :
    Solver P [OP_1, OP_1, OP_CHECKMULTISIG] v = .ok (false, TX_MULTISIG, [[1], [1]]) ∧
      Solver P [OP_1, OP_1, OP_CHECKMULTISIG] v ≠ .ok (false, TX_NONSTANDARD, []) := by
  rw [Solver_multisig_nokey hP v]
  exact ⟨rfl, by simp⟩

theorem C6_rejected_match_not_cleared_witness :
    sampleParams.wellFormed = true ∧
      Solver sampleParams [0x51, 0x51, 0xae] [] = .ok (false, TX_MULTISIG, [[1], [1]]) :=
  ⟨by decide, (C6_rejected_match_not_cleared sampleParams (by decide) []).1⟩

theorem pubkeysFull_one {k : valtype} (hk : k.length = 33) (opcode1 : Nat)
    (sols : List valtype) :
    pubkeysFull [OP_1, OP_CHECKMULTISIG] opcode1 k sols =
      .ok ([OP_CHECKMULTISIG], OP_1, [], sols ++ [k]) := by
  have gtail : GetOp [OP_1, OP_CHECKMULTISIG] = ⟨true, [OP_CHECKMULTISIG], OP_1, []⟩ :=
    GetOp_plain (by decide) _
  have := pubkeysFull_keys gtail (by simp) [] k opcode1 sols (by simp [hk])
  simpa [pushAll] using this

/-- A script `<locktime> OP_CHECKLOCKTIMEVERIFY OP_m <key> OP_1 OP_CHECKMULTISIG`
with a locktime push of at most 5 bytes, `m` in 1..16 and one key of 33 bytes is
matched by the `TX_DELAYEDMULTISIG` template, whatever `m` is. -/
theorem Solver_delayed_one_key {P : Params} (hP : P.wellFormed = true) {lock k : valtype}
    (hl : lock.length ≤ 5) {om : Nat} (hm1 : OP_1 ≤ om) (hm2 : om ≤ OP_16)
    (hk : k.length = 33) (v : List valtype) :
    Solver P (lock.length :: (lock ++ P.OP_CHECKLOCKTIMEVERIFY :: om :: 33 ::
        (k ++ [OP_1, OP_CHECKMULTISIG]))) v =
      .ok (true, TX_DELAYEDMULTISIG, [lock, [DecodeOP_N om], k, [1]]) := by
  obtain ⟨⟨p1, p2, p3, p4, p5, p6, p7⟩, ⟨q1, q2, q3, q4, q5, q6, q7⟩⟩ := wf_own hP
  obtain ⟨c1, c2, c3⟩ := wf_cltv hP
  have hd1 : DecodeOP_N OP_1 = 1 := by decide
  have hll : lock.length < OP_PUSHDATA1 := by simp only [OP_PUSHDATA1]; omega
  have gl := GetOp_push hll lock rfl
    (P.OP_CHECKLOCKTIMEVERIFY :: om :: 33 :: (k ++ [OP_1, OP_CHECKMULTISIG]))
  have gk := GetOp_push (n := 33) (by decide) k hk [OP_1, OP_CHECKMULTISIG]
  have hom : OP_PUSHDATA4 < om := by simp only [OP_1, OP_PUSHDATA4] at hm1 ⊢; omega
  have f1 : om ≠ OP_HASH160 := by simp only [OP_16, OP_HASH160] at hm2 ⊢; omega
  have f2 : om ≠ OP_DUP := by simp only [OP_16, OP_DUP] at hm2 ⊢; omega
  have f3 : lock.length ≠ OP_HASH160 := by simp only [OP_HASH160]; omega
  have f4 : lock.length ≠ OP_DUP := by simp only [OP_DUP]; omega
  have f5 : lock.length ≠ OP_IF := by simp only [OP_IF]; omega
  have f6 : lock.length ≠ OP_RETURN := by simp only [OP_RETURN]; omega
  have f7 : lock.length < 33 := by omega
  have f8 : ¬ (OP_1 ≤ lock.length ∧ lock.length ≤ OP_16) := by simp only [OP_1]; omega
  have f9 : lock.length ≠ 20 := by omega
  have f10 : ¬ 9 < lock.length := by omega
  have hps : ∀ sols, pubkeysFull [OP_1, OP_CHECKMULTISIG] 33 k sols =
      .ok ([OP_CHECKMULTISIG], OP_1, [], sols ++ [k]) := pubkeysFull_one hk 33
  have hps0 : ∀ rest sols, pubkeysFull rest P.OP_CHECKLOCKTIMEVERIFY [] sols =
      .ok (rest, P.OP_CHECKLOCKTIMEVERIFY, [], sols) :=
    fun rest sols => pubkeysFull_stop _ _ (by simp) _
  have hdm : matchT P TX_DELAYEDMULTISIG
      (lock.length :: (lock ++ P.OP_CHECKLOCKTIMEVERIFY :: om :: 33 ::
        (k ++ [OP_1, OP_CHECKMULTISIG])))
      [P.OP_SCRIPTNUMBER, P.OP_CHECKLOCKTIMEVERIFY, OP_SMALLINTEGER, OP_PUBKEYS,
        OP_SMALLINTEGER, OP_CHECKMULTISIG] [] =
      .ok (.returned true [lock, [DecodeOP_N om], k, [1]]) := by
    simp +decide [matchT, GetOp_plain, gl, gk, hps, hom, p1, q1, q7, hl, hm1, hm2, hd1,
      compareOp_SCRIPTNUMBER hP, compareOp_SMALLINTEGER hP, compareOp_literal hP,
      ownLiterals, sharedLiterals, foundMatch]
  apply Solver_unique hP
  · simp [IsPayToScriptHash, f3]
  · exact ⟨(TX_DELAYEDMULTISIG, [P.OP_SCRIPTNUMBER, P.OP_CHECKLOCKTIMEVERIFY, OP_SMALLINTEGER,
      OP_PUBKEYS, OP_SMALLINTEGER, OP_CHECKMULTISIG]), by simp [templateInsertions], rfl, hdm⟩
  · rw [forall_templateInsertions]
    refine ⟨?_, ?_, ?_, ?_, ?_, ?_, ?_, Or.inr ⟨rfl, hdm⟩, ?_, ?_, ?_, ?_, ?_, ?_⟩
    all_goals
      simp +decide [matchT, GetOp_plain, gl, hom, hps0, compareOp_PUBKEY, compareOp_PUBKEYHASH,
        compareOp_literal hP, compareOp_NONCE hP, compareOp_SCRIPTNUMBER hP,
        compareOp_SMALLINTEGER hP, compareOp_SMALLDATA hP, p1, p2, p3, p4, p5, p6, p7,
        q1, q2, q3, q4, q5, q6, q7, ownLiterals, sharedLiterals, hl, c1, c2, c3,
        f1, f2, f3, f4, f5, f6, f7, f8, f9, f10]
    all_goals (repeat' split)
    all_goals rfl

/-- C5, the code at the failing input. The script
`OP_0 OP_CHECKLOCKTIMEVERIFY OP_2 <key> OP_1 OP_CHECKMULTISIG`, with one key of 33
bytes, threshold `m = 2` and key count `n = 1`, is classified by `Solver` as
`TX_DELAYEDMULTISIG` with return value true: the check `m ≤ n` of the block
`// Found a match` is made for `TX_MULTISIG` only. -/
theorem C5_delayed_multisig_unchecked (P : Params) (hP : P.wellFormed = true) (k : valtype)
    (hk : k.length = 33) (v : List valtype) :
    Solver P ([OP_0, P.OP_CHECKLOCKTIMEVERIFY, 0x52, 33] ++ k ++ [OP_1, OP_CHECKMULTISIG]) v =
      .ok (true, TX_DELAYEDMULTISIG, [[], [2], k, [1]]) := by
  have h := @Solver_delayed_one_key P hP [] k (by simp) 0x52 (by decide) (by decide) hk v
  have hd : DecodeOP_N 0x52 = 2 := by decide
  rw [hd] at h
  simpa [OP_0] using h

theorem C5_delayed_multisig_unchecked_witness :
    sampleParams.wellFormed = true ∧ (sampleKey 9).length = 33 ∧
      Solver sampleParams ([0x00, 0xb1, 0x52, 33] ++ sampleKey 9 ++ [0x51, 0xae]) [] =
        .ok (true, TX_DELAYEDMULTISIG, [[], [2], sampleKey 9, [1]]) :=
  ⟨by decide, by decide,
    C5_delayed_multisig_unchecked sampleParams (by decide) (sampleKey 9) (by decide) []⟩

/-- C7, the code at the failing input. For the script
`<05 07> OP_CHECKLOCKTIMEVERIFY OP_1 <key> OP_1 OP_CHECKMULTISIG`, a 1-of-1
delayed multisig with a valid key of 33 bytes behind the locktime push `05 07`,
`ExtractDestinations` returns true with `nRequired = 7`, the second byte of the
locktime, where the threshold of the script is 1. -/
theorem C7_delayed_nRequired (P : Params) (hP : P.wellFormed = true) (k : valtype)
    (hk : k.length = 33) (hv : P.pubKeyIsValid k = true) (nRequiredRet : Int) :
    ExtractDestinations P
        ([2, 5, 7, P.OP_CHECKLOCKTIMEVERIFY, OP_1, 33] ++ k ++ [OP_1, OP_CHECKMULTISIG])
        nRequiredRet =
      .ok (true, TX_DELAYEDMULTISIG, [.CKeyID (P.pubKeyGetID k)], 7) := by
  have h := @Solver_delayed_one_key P hP [5, 7] k (by simp) OP_1 (by decide) (by decide) hk []
  have hd : DecodeOP_N OP_1 = 1 := by decide
  rw [hd] at h
  have hs : Solver P
      ([2, 5, 7, P.OP_CHECKLOCKTIMEVERIFY, OP_1, 33] ++ k ++ [OP_1, OP_CHECKMULTISIG]) [] =
      .ok (true, TX_DELAYEDMULTISIG, [[5, 7], [1], k, [1]]) := by
    simpa using h
  have hsz : sizeSub ([[5, 7], [1], k, [1]] : List valtype).length 1 = 3 := sizeSub_add 3 1
  rw [ExtractDestinations, hs]
  simp +decide [vecFront, vecAt, keyIndices, hsz, keysLoop, hv, List.range']

theorem C7_delayed_nRequired_witness :
    sampleParams.wellFormed = true ∧ (sampleKey 9).length = 33 ∧
      sampleParams.pubKeyIsValid (sampleKey 9) = true ∧
      ExtractDestinations sampleParams
          ([2, 5, 7, 0xb1, 0x51, 33] ++ sampleKey 9 ++ [0x51, 0xae]) 0 =
        .ok (true, TX_DELAYEDMULTISIG, [.CKeyID (sampleParams.pubKeyGetID (sampleKey 9))], 7) :=
  ⟨by decide, by decide, by decide,
    C7_delayed_nRequired sampleParams (by decide) (sampleKey 9) (by decide) (by decide) 0⟩

/-! ## Claim C8: the destinations of a multisig script -/

theorem templates_multisig (P : Params) :
    ∀ x ∈ templateInsertions P, x.1 = TX_MULTISIG →
      x.2 = [OP_SMALLINTEGER, OP_PUBKEYS, OP_SMALLINTEGER, OP_CHECKMULTISIG] := by
  rw [forall_templateInsertions]
  simp

/-- The solutions of a script that `Solver` classifies as `TX_MULTISIG` are the
byte `m`, keys of 33 to 65 bytes and the byte `n`, where `n` is the number of
keys and `1 ≤ m ≤ n ≤ 16`. -/
theorem Solver_multisig_inv {P : Params} (hP : P.wellFormed = true) {s : CScript}
    {v sols : List valtype} (hs : Solver P s v = .ok (true, TX_MULTISIG, sols)) :
    ∃ m keys, sols = [m] :: (keys ++ [[keys.length]]) ∧ 1 ≤ m ∧ m ≤ keys.length ∧
      keys.length ≤ 16 ∧ ∀ k ∈ keys, 33 ≤ k.length ∧ k.length ≤ 65 := by
  unfold Solver at hs
  split at hs
  · simp at hs
  · rcases scanTemplates_cases P s _ _ _ (mTemplates P) hs with ⟨h1, _⟩ | ⟨x, hx, hxt, hm⟩
    · cases h1
    · have hx' := (mem_mTemplates P x).mp hx
      rw [matchFull_template hP hx', hxt, templates_multisig P x hx' hxt] at hm
      rcases matchT_multisig hP TX_MULTISIG s [] with hb | ⟨m, keys, n, hk, _, hn, he⟩
      · rw [hb] at hm; cases hm
      · rw [he, List.nil_append, foundMatch_multisig] at hm
        simp only [Except.ok.injEq, MatchResult.returned.injEq, decide_eq_true_eq] at hm
        obtain ⟨⟨c1, _, c3, c4⟩, hsol⟩ := hm
        subst c4
        exact ⟨m, keys, hsol.symm, c1, c3, hn, hk⟩

/-- The loop over the keys collects the key hashes of the valid keys, in order. -/
theorem keysLoop_range (P : Params) (post : List valtype) :
    ∀ (keys pre : List valtype) (acc : List CTxDestination),
      keysLoop P (pre ++ keys ++ post) (List.range' pre.length keys.length) acc =
        .ok (acc ++ (keys.filter P.pubKeyIsValid).map (fun k => .CKeyID (P.pubKeyGetID k))) := by
  intro keys
  induction keys with
  | nil => intro pre acc; simp [keysLoop]
  | cons k ks ih =>
    intro pre acc
    have hat : (pre ++ k :: ks ++ post)[pre.length]? = some k := by
      rw [List.append_assoc, List.getElem?_append_right (Nat.le_refl _)]
      simp
    have hrec := ih (pre ++ [k])
    simp only [List.length_append, List.length_singleton, List.append_assoc,
      List.singleton_append] at hrec
    simp only [List.length_cons, List.range'_succ, keysLoop, vecAt, hat]
    cases hv : P.pubKeyIsValid k
    · simp only [if_true]
      rw [List.append_assoc, hrec acc]
      simp [List.filter_cons, hv]
    · simp only [Bool.true_eq_false, if_false]
      rw [List.append_assoc, hrec]
      simp [List.filter_cons, hv]

theorem ExtractDestinations_multisig {P : Params} {s : CScript} {m : Nat}
    {keys : List valtype} {n : Nat}
    (hs : Solver P s [] = .ok (true, TX_MULTISIG, [m] :: (keys ++ [[n]]))) (nRequiredRet : Int) :
    ExtractDestinations P s nRequiredRet =
      .ok (keys.any P.pubKeyIsValid, TX_MULTISIG,
        (keys.filter P.pubKeyIsValid).map (fun k => .CKeyID (P.pubKeyGetID k)), (m : Int)) := by
  have hlen : ([m] :: (keys ++ [[n]])).length = (keys.length + 1) + 1 := by simp
  have hsz : sizeSub ([m] :: (keys ++ [[n]])).length 1 = keys.length + 1 := by
    rw [hlen]; exact sizeSub_add _ _
  have hloop := keysLoop_range P [[n]] keys [[m]] []
  simp only [List.singleton_append, List.length_singleton, List.nil_append,
    List.cons_append] at hloop
  rw [ExtractDestinations, hs]
  simp only [reduceCtorEq, if_false, true_or, if_true, vecFront, vecAt,
    List.getElem?_cons_zero, keyIndices, hsz, Nat.add_sub_cancel, hloop]
  by_cases hany : keys.any P.pubKeyIsValid = true
  · have hne : (keys.filter P.pubKeyIsValid).map
        (fun k => CTxDestination.CKeyID (P.pubKeyGetID k)) ≠ [] := by
      simp only [ne_eq, List.map_eq_nil_iff, List.filter_eq_nil_iff, not_forall]
      simp only [List.any_eq_true] at hany
      obtain ⟨k, hk, hv⟩ := hany
      exact ⟨k, hk, by simp [hv]⟩
    rw [if_neg hne, hany]
  · have he : (keys.filter P.pubKeyIsValid).map
        (fun k => CTxDestination.CKeyID (P.pubKeyGetID k)) = [] := by
      simp only [List.map_eq_nil_iff, List.filter_eq_nil_iff]
      intro k hk hv
      exact hany (List.any_eq_true.mpr ⟨k, hk, hv⟩)
    rw [if_pos he, he, Bool.eq_false_iff.mpr hany]

/-! ## Claim C9: the data-carrier flag -/

theorem readPush_exact (op : Nat) (v : valtype) (rest : CScript) :
    readPush op v.length (v ++ rest) = ⟨true, rest, op, v⟩ := by
  have h : ¬ (v ++ rest).length < v.length := by simp
  simp [readPush, h]

theorem readLE_two (a b : Nat) (xs : CScript) : readLE 2 (a :: b :: xs) = a + 256 * b := by
  simp [readLE]

theorem readLE_four (a b c d : Nat) (xs : CScript) :
    readLE 4 (a :: b :: c :: d :: xs) = a + 256 * (b + 256 * (c + 256 * d)) := by
  simp [readLE]

/-- What `operator<<` writes for a vector, `GetOp` reads back as a push of that
vector. -/
theorem GetOp_pushData (v : valtype) (hv : v.length < 2 ^ 32) (rest : CScript) :
    ∃ op, op ≤ OP_PUSHDATA4 ∧ GetOp (pushData [] v ++ rest) = ⟨true, rest, op, v⟩ := by
  unfold pushData
  by_cases h1 : v.length < OP_PUSHDATA1
  · rw [if_pos h1]
    refine ⟨v.length, Nat.le_of_lt (Nat.lt_trans h1 (by decide)), ?_⟩
    have := GetOp_push h1 v rfl rest
    simpa using this
  rw [if_neg h1]
  by_cases h2 : v.length ≤ 0xff
  · rw [if_pos h2]
    refine ⟨OP_PUSHDATA1, by decide, ?_⟩
    have e : [] ++ [OP_PUSHDATA1, v.length] ++ v ++ rest =
        OP_PUSHDATA1 :: v.length :: (v ++ rest) := by simp
    rw [e]
    simp only [GetOp, readPush_exact]
    simp +decide
  rw [if_neg h2]
  by_cases h3 : v.length ≤ 0xffff
  · rw [if_pos h3]
    refine ⟨OP_PUSHDATA2, by decide, ?_⟩
    have e : [] ++ [OP_PUSHDATA2] ++ writeLE 2 v.length ++ v ++ rest =
        OP_PUSHDATA2 :: (v.length % 256) :: (v.length / 256 % 256) :: (v ++ rest) := by
      simp [writeLE]
    have hle : v.length % 256 + 256 * (v.length / 256 % 256) = v.length := by omega
    have hlen : ¬ ((v.length % 256) :: (v.length / 256 % 256) :: (v ++ rest)).length < 2 := by
      simp
    rw [e]
    simp only [GetOp, hlen, if_false, readLE_two, hle, List.drop_succ_cons, List.drop_zero,
      readPush_exact]
    simp +decide
  rw [if_neg h3]
  refine ⟨OP_PUSHDATA4, by decide, ?_⟩
  have hmod : v.length % 2 ^ 32 = v.length := Nat.mod_eq_of_lt hv
  have e : [] ++ [OP_PUSHDATA4] ++ writeLE 4 (v.length % 2 ^ 32) ++ v ++ rest =
      OP_PUSHDATA4 :: (v.length % 256) :: (v.length / 256 % 256) ::
        (v.length / 256 / 256 % 256) :: (v.length / 256 / 256 / 256 % 256) :: (v ++ rest) := by
    rw [hmod]
    simp [writeLE]
  have hle : v.length % 256 + 256 * (v.length / 256 % 256 + 256 * (v.length / 256 / 256 % 256 +
      256 * (v.length / 256 / 256 / 256 % 256))) = v.length := by
    have : v.length < 4294967296 := by simpa using hv
    omega
  have hlen : ¬ ((v.length % 256) :: (v.length / 256 % 256) ::
      (v.length / 256 / 256 % 256) :: (v.length / 256 / 256 / 256 % 256) ::
        (v ++ rest)).length < 4 := by
    simp
  rw [e]
  simp only [GetOp, hlen, if_false, readLE_four, hle, List.drop_succ_cons, List.drop_zero,
    readPush_exact]
  simp +decide

theorem return_data_eq (payload : valtype) :
    pushData (pushOp [] OP_RETURN) payload = OP_RETURN :: pushData [] payload := by
  rw [pushData_append]
  rfl

/-- The templates on the script `RETURN <payload>`: only the data-carrier
template with a data slot matches it. -/
theorem Solver_return_data {P : Params} (hP : P.wellFormed = true) {payload : valtype}
    (h2 : payload.length ≤ P.nMaxDatacarrierBytes) (v : List valtype) :
    Solver P (pushData (pushOp [] OP_RETURN) payload) v =
      .ok (if P.fDataCarrier = true then (true, TX_NULL_DATA, [])
        else (false, TX_NONSTANDARD, [])) := by
  obtain ⟨⟨p1, p2, p3, p4, p5, p6, p7⟩, ⟨q1, q2, q3, q4, q5, q6, q7⟩⟩ := wf_own hP
  have hlt : payload.length < 2 ^ 32 := Nat.lt_of_le_of_lt h2 (wf_max hP)
  obtain ⟨op, hop, gp⟩ := GetOp_pushData payload hlt []
  rw [List.append_nil] at gp
  rw [return_data_eq]
  generalize pushData [] payload = D at gp
  have hD : D ≠ [] := by
    intro h
    subst h
    simp [GetOp_nil] at gp
  have f1 : op ≠ OP_TOALTSTACK := by simp only [OP_PUSHDATA4, OP_TOALTSTACK] at hop ⊢; omega
  have f2 : ¬ P.nMaxDatacarrierBytes < payload.length := by omega
  have hdata : matchT P TX_NULL_DATA (OP_RETURN :: D) [OP_RETURN, OP_SMALLDATA] [] =
      .ok (.returned true []) := by
    simp +decide [matchT, GetOp_plain, gp, compareOp_literal hP, compareOp_SMALLDATA hP,
      sharedLiterals, f2, foundMatch]
  have hothers : ∀ x ∈ templateInsertions P, x ≠ (TX_NULL_DATA, [OP_RETURN, OP_SMALLDATA]) →
      matchT P x.1 (OP_RETURN :: D) x.2 [] = .ok .broke := by
    rw [forall_templateInsertions]
    simp +decide [matchT, GetOp_plain, gp, hD, compareOp_PUBKEY, compareOp_PUBKEYHASH,
      compareOp_literal hP, compareOp_NONCE hP, compareOp_SCRIPTNUMBER hP,
      compareOp_SMALLINTEGER hP, p1, p2, p3, p4, p5, p6, p7,
      q1, q2, q3, q4, q5, q6, q7, ownLiterals, sharedLiterals, f1]
  have hp : IsPayToScriptHash (OP_RETURN :: D) = false := by
    simp +decide [IsPayToScriptHash]
  cases hf : P.fDataCarrier
  · simp only [Bool.false_eq_true, if_false]
    apply Solver_none hP hp
    intro x hx
    refine hothers x hx ?_
    rintro rfl
    simp [templateInsertions, hf] at hx
  · simp only [if_true]
    apply Solver_unique hP hp
    · exact ⟨(TX_NULL_DATA, [OP_RETURN, OP_SMALLDATA]), by simp [templateInsertions, hf], rfl,
        hdata⟩
    · intro x hx
      by_cases hxe : x = (TX_NULL_DATA, [OP_RETURN, OP_SMALLDATA])
      · subst hxe
        exact Or.inr ⟨rfl, hdata⟩
      · exact Or.inl (hothers x hx hxe)

/-- The script `RETURN` alone is matched by the bare data-carrier template. -/
theorem Solver_return_bare {P : Params} (hP : P.wellFormed = true) (v : List valtype) :
    Solver P (pushOp [] OP_RETURN) v = .ok (true, TX_NULL_DATA, []) := by
  obtain ⟨⟨p1, p2, p3, p4, p5, p6, p7⟩, ⟨q1, q2, q3, q4, q5, q6, q7⟩⟩ := wf_own hP
  have hs : pushOp [] OP_RETURN = [OP_RETURN] := rfl
  rw [hs]
  have hbare : matchT P TX_NULL_DATA [OP_RETURN] [OP_RETURN] [] = .ok (.returned true []) := by
    simp +decide [matchT, GetOp_plain, compareOp_literal hP, sharedLiterals, foundMatch]
  apply Solver_unique hP
  · simp +decide [IsPayToScriptHash]
  · exact ⟨(TX_NULL_DATA, [OP_RETURN]), by simp [templateInsertions], rfl, hbare⟩
  · rw [forall_templateInsertions]
    refine ⟨?_, ?_, ?_, ?_, ?_, ?_, ?_, ?_, ?_, ?_, ?_, ?_, ?_, Or.inr ⟨rfl, hbare⟩⟩
    all_goals
      simp +decide [matchT, GetOp_plain, GetOp_nil, compareOp_PUBKEY, compareOp_PUBKEYHASH,
        compareOp_literal hP, compareOp_NONCE hP, compareOp_SCRIPTNUMBER hP,
        compareOp_SMALLINTEGER hP, compareOp_SMALLDATA hP, p1, p2, p3, p4, p5, p6, p7,
        q1, q2, q3, q4, q5, q6, q7, ownLiterals, sharedLiterals]

theorem wellFormed_withDataCarrier (P : Params) (b : Bool) :
    (withDataCarrier P b).wellFormed = P.wellFormed := rfl

/-- C9. For a payload of 1 to `nMaxDatacarrierBytes` bytes, `Solver` classifies
the script `RETURN <payload>` as `TX_NONSTANDARD` when the data-carrier flag is
off and as `TX_NULL_DATA` when it is on; the script `RETURN` alone is
`TX_NULL_DATA` under both values of the flag. -/
theorem C9_nulldata_toggle (P : Params) (hP : P.wellFormed = true) (payload : valtype)
    (_h1 : 1 ≤ payload.length) (h2 : payload.length ≤ P.nMaxDatacarrierBytes)
    (v : List valtype) :
    Solver (withDataCarrier P false) (pushData (pushOp [] OP_RETURN) payload) v =
        .ok (false, TX_NONSTANDARD, []) ∧
      Solver (withDataCarrier P true) (pushData (pushOp [] OP_RETURN) payload) v =
        .ok (true, TX_NULL_DATA, []) ∧
      ∀ b, Solver (withDataCarrier P b) (pushOp [] OP_RETURN) v = .ok (true, TX_NULL_DATA, []) := by
  refine ⟨?_, ?_, fun b => Solver_return_bare (P := withDataCarrier P b) hP v⟩
  · have h := Solver_return_data (P := withDataCarrier P false) hP h2 v
    simpa [withDataCarrier] using h
  · have h := Solver_return_data (P := withDataCarrier P true) hP h2 v
    simpa [withDataCarrier] using h

theorem C9_nulldata_toggle_witness :
    sampleParams.wellFormed = true ∧
      Solver (withDataCarrier sampleParams false) (pushData (pushOp [] OP_RETURN) [1, 2, 3]) [] =
        .ok (false, TX_NONSTANDARD, []) ∧
      Solver (withDataCarrier sampleParams true) (pushData (pushOp [] OP_RETURN) [1, 2, 3]) [] =
        .ok (true, TX_NULL_DATA, []) ∧
      ∀ b, Solver (withDataCarrier sampleParams b) (pushOp [] OP_RETURN) [] =
        .ok (true, TX_NULL_DATA, []) :=
  ⟨by decide, C9_nulldata_toggle sampleParams (by decide) [1, 2, 3] (by decide) (by decide) []⟩

/-! ## Claim C10: scripts that do not decode -/

theorem templates_guarded {P : Params} (hP : P.wellFormed = true) :
    ∀ x ∈ templateInsertions P, pubkeysGuarded x.2 = true := by
  obtain ⟨_, ⟨q1, q2, q3, q4, q5, q6, q7⟩⟩ := wf_own hP
  rw [forall_templateInsertions]
  simp +decide [pubkeysGuarded, q1, q2, q3, q4, q5, q6, q7]

/-- A script of the pay-to-script-hash shape decodes to its end. -/
theorem IsPayToScriptHash_decodes {s : CScript} (hp : IsPayToScriptHash s = true) :
    ∀ n, decodeFails n s = false := by
  simp only [IsPayToScriptHash, Bool.and_eq_true, beq_iff_eq] at hp
  obtain ⟨⟨⟨hlen, h0⟩, h1⟩, h22⟩ := hp
  match s, hlen, h0, h1, h22 with
  | a :: b :: t, hlen, h0, h1, h22 =>
    simp only [List.getElem?_cons_zero, Option.some.injEq, List.getElem?_cons_succ] at h0 h1 h22
    subst h0 h1
    have htl : t.length = 21 := by simpa using hlen
    have ht : t = t.take 20 ++ [OP_EQUAL] := by
      have hd : t.drop 20 = [OP_EQUAL] := by
        have h20 : 20 < t.length := by omega
        rw [List.drop_eq_getElem_cons h20]
        have hnil : t.drop 21 = [] := List.drop_eq_nil_of_le (by omega)
        have hg : t[20] = OP_EQUAL := by
          have := List.getElem?_eq_getElem h20
          rw [this] at h22
          exact Option.some.inj h22
        rw [hg, hnil]
      conv_lhs => rw [← List.take_append_drop 20 t, hd]
    have hk : (t.take 20).length = 20 := by simp [htl]
    have g1 : GetOp (OP_HASH160 :: 20 :: t) = ⟨true, 20 :: t, OP_HASH160, []⟩ :=
      GetOp_plain (by decide) _
    have g2 : GetOp (20 :: t) = ⟨true, [OP_EQUAL], 20, t.take 20⟩ := by
      conv_lhs => rw [ht]
      exact GetOp_push (by decide) _ hk _
    have g3 : GetOp [OP_EQUAL] = ⟨true, [], OP_EQUAL, []⟩ := GetOp_plain (by decide) _
    have d3 : ∀ n, decodeFails n [OP_EQUAL] = false :=
      decodeFails_step (by rw [g3]) (by rw [g3]; exact decodeFails_nil)
    have d2 : ∀ n, decodeFails n (20 :: t) = false :=
      decodeFails_step (by rw [g2]) (by rw [g2]; exact d3)
    exact decodeFails_step (by rw [g1]) (by rw [g1]; exact d2)

/-- C10. A script whose decoding by successive `GetOp` meets a failure before
its end (a push that announces more bytes than remain) matches no template:
`Solver` returns false with `TX_NONSTANDARD` and no solution, also when the
failure is met inside the loop of the `OP_PUBKEYS` slot. -/
theorem C10_undecodable_nonstandard (P : Params) (hP : P.wellFormed = true) (s : CScript)
    (hf : decodeFails s.length s = true) (v : List valtype) :
    Solver P s v = .ok (false, TX_NONSTANDARD, []) := by
  have hp : IsPayToScriptHash s = false := by
    cases h : IsPayToScriptHash s
    · rfl
    · rw [IsPayToScriptHash_decodes h] at hf
      cases hf
  apply Solver_none hP hp
  intro x hx
  obtain ⟨r, hr⟩ := templates_ok hP s x hx
  cases r with
  | broke => exact hr
  | returned ret sols =>
    have := matchT_decodes hP x.1 x.2 s [] (templates_guarded hP x hx) hr s.length
    rw [this] at hf
    cases hf

theorem C10_undecodable_nonstandard_witness :
    sampleParams.wellFormed = true ∧
      decodeFails ([0x51, 33] ++ sampleKey 1 ++ [33, 2, 2]).length
        ([0x51, 33] ++ sampleKey 1 ++ [33, 2, 2]) = true ∧
      Solver sampleParams ([0x51, 33] ++ sampleKey 1 ++ [33, 2, 2]) [] =
        .ok (false, TX_NONSTANDARD, []) :=
  ⟨by decide, by decide,
    C10_undecodable_nonstandard sampleParams (by decide)
      ([0x51, 33] ++ sampleKey 1 ++ [33, 2, 2]) (by decide) []⟩

/-! ## Claim C12: the key-hash scenario -/

/-- C12. For every 20-byte `h` the script `DUP HASH160 <h> EQUALVERIFY CHECKSIG`
is classified by `Solver` as `TX_PUBKEYHASH` with the solutions `[h]`,
`ExtractDestination` returns true with the key hash `h`, and
`ScriptSigArgsExpected` on the type and solutions of `Solver` is 2. -/
theorem C12_p2pkh_scenario (P : Params) (hP : P.wellFormed = true) (h : valtype)
    (hh : h.length = 20) (addressRet : CTxDestination) :
    Solver P (OP_DUP :: OP_HASH160 :: 20 :: (h ++ [OP_EQUALVERIFY, OP_CHECKSIG])) []
        = .ok (true, TX_PUBKEYHASH, [h]) ∧
      ExtractDestination P (OP_DUP :: OP_HASH160 :: 20 :: (h ++ [OP_EQUALVERIFY, OP_CHECKSIG]))
        addressRet = .ok (true, .CKeyID h) ∧
      ∀ r, Solver P (OP_DUP :: OP_HASH160 :: 20 :: (h ++ [OP_EQUALVERIFY, OP_CHECKSIG])) []
        = .ok r → ScriptSigArgsExpected P r.2.1 r.2.2 = 2 := by
  refine ⟨Solver_p2pkh hP hh [], ?_, ?_⟩
  · simp [ExtractDestination, Solver_p2pkh hP hh, keyIDAt, vecAt, toUint160, hh]
  · intro r hr
    rw [Solver_p2pkh hP hh] at hr
    cases hr
    rfl

theorem C12_p2pkh_scenario_witness :
    sampleParams.wellFormed = true ∧ (sampleHash 7).length = 20 ∧
      Solver sampleParams
        (OP_DUP :: OP_HASH160 :: 20 :: (sampleHash 7 ++ [OP_EQUALVERIFY, OP_CHECKSIG])) []
        = .ok (true, TX_PUBKEYHASH, [sampleHash 7]) :=
  ⟨by decide, by decide,
    (C12_p2pkh_scenario sampleParams (by decide) (sampleHash 7) (by decide) .CNoDestination).1⟩

/-! ## Claim C11: the shortcut and the template scan agree -/

/-- C15, the statement of the specification fails: `GetTxnOutputType` maps
`TX_NONSTANDARD` to the string `nonstandard`, not to `NULL`. -/
theorem C15_counterexample :
    GetTxnOutputType TX_NONSTANDARD = some "nonstandard" ∧
      GetTxnOutputType TX_NONSTANDARD ≠ none :=
  ⟨rfl, by decide⟩

/-- C15, amended. `GetTxnOutputType` maps every output type, `TX_NONSTANDARD`
included, to a string of lowercase letters and hyphens; the strings of two
different types differ; `TX_NONSTANDARD` has `nonstandard`, `TX_PUBKEYHASH` has
`pubkeyhash`, `TX_ESCROW_FEE` has `escrow-fee` and `TX_DELAYEDMULTISIG` has
`delayedmultisig`. -/
theorem C15_output_type_names :
    (∀ t, ∃ s, GetTxnOutputType t = some s ∧ isLowercaseHyphenated s = true) ∧
      (∀ t u, GetTxnOutputType t = GetTxnOutputType u → t = u) ∧
      GetTxnOutputType TX_NONSTANDARD = some "nonstandard" ∧
      GetTxnOutputType TX_PUBKEYHASH = some "pubkeyhash" ∧
      GetTxnOutputType TX_ESCROW_FEE = some "escrow-fee" ∧
      GetTxnOutputType TX_DELAYEDMULTISIG = some "delayedmultisig" := by
  refine ⟨?_, ?_, rfl, rfl, rfl, rfl⟩
  · intro t
    cases t <;> exact ⟨_, rfl, by decide⟩
  · intro t u
    cases t <;> cases u <;> simp [GetTxnOutputType]

/-! ## Claim C13: the number of arguments of a multisig script -/

/-- For a script that `Solver` classifies as `TX_MULTISIG` with the threshold
`m`, the first solution, `ScriptSigArgsExpected` is `m + 1`. -/
theorem ScriptSigArgsExpected_multisig {P : Params} (hP : P.wellFormed = true) {s : CScript}
    {v sols : List valtype} (hs : Solver P s v = .ok (true, TX_MULTISIG, sols)) :
    ∃ m : Nat, sols.head? = some [m] ∧ ScriptSigArgsExpected P TX_MULTISIG sols = m + 1 := by
  obtain ⟨m, keys, rfl, _⟩ := Solver_multisig_inv hP hs
  exact ⟨m, rfl, rfl⟩

/-- For both multisig types `ScriptSigArgsExpected` is -1 when there is no
solution or the first solution is empty. -/
theorem ScriptSigArgsExpected_malformed (P : Params) (rest : List valtype) :
    ScriptSigArgsExpected P TX_MULTISIG [] = -1 ∧
      ScriptSigArgsExpected P TX_MULTISIG ([] :: rest) = -1 ∧
      ScriptSigArgsExpected P TX_DELAYEDMULTISIG [] = -1 ∧
      ScriptSigArgsExpected P TX_DELAYEDMULTISIG ([] :: rest) = -1 :=
  ⟨rfl, rfl, rfl, rfl⟩

/-- C13, the code at the failing input. The script
`<05 07> OP_CHECKLOCKTIMEVERIFY OP_1 <key> OP_1 OP_CHECKMULTISIG`, a delayed
multisig with threshold `m = 1` behind the locktime push `05 07`, is classified
`TX_DELAYEDMULTISIG`, and `ScriptSigArgsExpected` on that type and those
solutions is `DELAYED_DELTA + 5 + 2`, from the first byte of the locktime, not
`DELAYED_DELTA + 1 + 2`. -/
theorem C13_delayed_args_from_locktime (P : Params) (hP : P.wellFormed = true) (k : valtype)
    (hk : k.length = 33) :
    Solver P ([2, 5, 7, P.OP_CHECKLOCKTIMEVERIFY, OP_1, 33] ++ k ++ [OP_1, OP_CHECKMULTISIG]) []
        = .ok (true, TX_DELAYEDMULTISIG, [[5, 7], [1], k, [1]]) ∧
      ScriptSigArgsExpected P TX_DELAYEDMULTISIG [[5, 7], [1], k, [1]]
        = P.DELAYED_DELTA + 5 + 2 ∧
      ScriptSigArgsExpected P TX_DELAYEDMULTISIG [[5, 7], [1], k, [1]]
        ≠ P.DELAYED_DELTA + 1 + 2 := by
  have h := @Solver_delayed_one_key P hP [5, 7] k (by simp) OP_1 (by decide) (by decide) hk []
  have hd : DecodeOP_N OP_1 = 1 := by decide
  rw [hd] at h
  refine ⟨by simpa using h, ?_, ?_⟩
  · simp only [ScriptSigArgsExpected, firstByte]
    push_cast
    ring
  · simp only [ScriptSigArgsExpected, firstByte]
    push_cast
    omega

theorem C13_delayed_args_from_locktime_witness :
    sampleParams.wellFormed = true ∧ (sampleKey 9).length = 33 ∧
      ScriptSigArgsExpected sampleParams TX_DELAYEDMULTISIG [[5, 7], [1], sampleKey 9, [1]]
        = sampleParams.DELAYED_DELTA + 5 + 2 :=
  ⟨by decide, by decide,
    (C13_delayed_args_from_locktime sampleParams (by decide) (sampleKey 9) (by decide)).2.1⟩

/-! ## Claim C19: the indices are in bounds -/

/-- C19, the code at the failing input. For the script
`OP_0 OP_CHECKLOCKTIMEVERIFY OP_1 <key> OP_1 OP_CHECKMULTISIG`, which `Solver`
classifies `TX_DELAYEDMULTISIG` with the empty locktime as first solution,
`ExtractDestinations` reads `vSolutions.front()[1]` out of bounds. -/
theorem C19_delayed_front_out_of_bounds (P : Params) (hP : P.wellFormed = true) (k : valtype)
    (hk : k.length = 33) (nRequiredRet : Int) :
    Solver P ([OP_0, P.OP_CHECKLOCKTIMEVERIFY, OP_1, 33] ++ k ++ [OP_1, OP_CHECKMULTISIG]) []
        = .ok (true, TX_DELAYEDMULTISIG, [[], [1], k, [1]]) ∧
      ExtractDestinations P
        ([OP_0, P.OP_CHECKLOCKTIMEVERIFY, OP_1, 33] ++ k ++ [OP_1, OP_CHECKMULTISIG])
        nRequiredRet = .error .outOfBounds := by
  have h := @Solver_delayed_one_key P hP [] k (by simp) OP_1 (by decide) (by decide) hk []
  have hd : DecodeOP_N OP_1 = 1 := by decide
  rw [hd] at h
  have hs : Solver P
      ([OP_0, P.OP_CHECKLOCKTIMEVERIFY, OP_1, 33] ++ k ++ [OP_1, OP_CHECKMULTISIG]) [] =
      .ok (true, TX_DELAYEDMULTISIG, [[], [1], k, [1]]) := by
    simpa [OP_0] using h
  refine ⟨hs, ?_⟩
  rw [ExtractDestinations, hs]
  simp +decide [vecFront, vecAt]

theorem C19_delayed_front_out_of_bounds_witness :
    sampleParams.wellFormed = true ∧ (sampleKey 9).length = 33 ∧
      ExtractDestinations sampleParams
        ([OP_0, 0xb1, OP_1, 33] ++ sampleKey 9 ++ [OP_1, OP_CHECKMULTISIG]) 0
        = .error .outOfBounds :=
  ⟨by decide, by decide,
    (C19_delayed_front_out_of_bounds sampleParams (by decide) (sampleKey 9) (by decide) 0).2⟩

/-! ## Claim C16: the scripts of type `TX_NULL_DATA` -/

/-- C16, the code at the failing input. With the data-carrier template in the
registry, the script `RETURN CHECKSIG`, where no data is pushed behind `RETURN`,
is classified `TX_NULL_DATA`: the `OP_SMALLDATA` slot tests the size of `vch1`
only, which is 0 for an opcode that pushes nothing. -/
theorem C16_return_checksig_nulldata (P : Params) (hP : P.wellFormed = true)
    (hd : P.fDataCarrier = true) (v : List valtype) :
    Solver P [OP_RETURN, OP_CHECKSIG] v = .ok (true, TX_NULL_DATA, []) := by
  obtain ⟨⟨p1, p2, p3, p4, p5, p6, p7⟩, ⟨q1, q2, q3, q4, q5, q6, q7⟩⟩ := wf_own hP
  apply Solver_unique hP
  · simp +decide [IsPayToScriptHash]
  · refine ⟨(TX_NULL_DATA, [OP_RETURN, OP_SMALLDATA]),
      by simp [templateInsertions, hd], rfl, ?_⟩
    simp +decide [matchT, GetOp_plain, compareOp_SMALLDATA hP, compareOp_literal hP,
      ownLiterals, sharedLiterals, foundMatch]
  · rw [forall_templateInsertions]
    simp +decide [matchT, GetOp_plain, compareOp_PUBKEY, compareOp_PUBKEYHASH,
      compareOp_literal hP, compareOp_NONCE hP, compareOp_SCRIPTNUMBER hP,
      compareOp_SMALLINTEGER hP, compareOp_SMALLDATA hP, p1, p2, p3, p4, p5, p6, p7,
      q1, q2, q3, q4, q5, q6, q7, ownLiterals, sharedLiterals, foundMatch]

theorem C16_return_checksig_nulldata_witness :
    sampleParams.wellFormed = true ∧ sampleParams.fDataCarrier = true ∧
      Solver sampleParams [0x6a, 0xac] [] = .ok (true, TX_NULL_DATA, []) :=
  ⟨by decide, by decide, C16_return_checksig_nulldata sampleParams (by decide) (by decide) []⟩

/-! ## Claim C20: the scripts of type `TX_SCRIPTHASH` -/

theorem GetOp_pushdata1 {n : Nat} (v : valtype) (hv : v.length = n) (rest : CScript) :
    GetOp (OP_PUSHDATA1 :: n :: (v ++ rest)) = ⟨true, rest, OP_PUSHDATA1, v⟩ := by
  subst hv
  simp +decide [GetOp, readPush, readLE, OP_PUSHDATA1, OP_PUSHDATA2, OP_PUSHDATA4]

/-- C20, the code at the failing input. The 24-byte script
`HASH160 PUSHDATA1 0x14 <h> EQUAL`, where the 20 bytes are pushed with a
`PUSHDATA1` length prefix, fails the shortcut test `IsPayToScriptHash` and is
classified `TX_SCRIPTHASH` by the template scan, with the solutions `[h]`. -/
theorem C20_pushdata1_scripthash (P : Params) (hP : P.wellFormed = true) (h : valtype)
    (hh : h.length = 20) (v : List valtype) :
    IsPayToScriptHash (OP_HASH160 :: OP_PUSHDATA1 :: 20 :: (h ++ [OP_EQUAL])) = false ∧
      Solver P (OP_HASH160 :: OP_PUSHDATA1 :: 20 :: (h ++ [OP_EQUAL])) v
        = .ok (true, TX_SCRIPTHASH, [h]) := by
  obtain ⟨⟨p1, p2, p3, p4, p5, p6, p7⟩, ⟨q1, q2, q3, q4, q5, q6, q7⟩⟩ := wf_own hP
  have g : ∀ rest, GetOp (OP_PUSHDATA1 :: 20 :: (h ++ rest)) = ⟨true, rest, OP_PUSHDATA1, h⟩ :=
    fun rest => GetOp_pushdata1 h hh rest
  have hp : IsPayToScriptHash (OP_HASH160 :: OP_PUSHDATA1 :: 20 :: (h ++ [OP_EQUAL])) = false := by
    simp [IsPayToScriptHash, hh]
  refine ⟨hp, ?_⟩
  apply Solver_unique hP hp
  · refine ⟨(TX_SCRIPTHASH, [OP_HASH160, OP_PUBKEYHASH, OP_EQUAL]),
      by simp [templateInsertions], rfl, ?_⟩
    simp +decide [matchT, GetOp_plain, g, compareOp_PUBKEYHASH, compareOp_literal hP,
      ownLiterals, sharedLiterals, hh, foundMatch]
  · rw [forall_templateInsertions]
    simp +decide [matchT, GetOp_plain, g, compareOp_PUBKEY, compareOp_PUBKEYHASH,
      compareOp_literal hP, compareOp_NONCE hP, compareOp_SCRIPTNUMBER hP,
      compareOp_SMALLINTEGER hP, compareOp_SMALLDATA hP, p1, p2, p3, p4, p5, p6, p7,
      q1, q2, q3, q4, q5, q6, q7, ownLiterals, sharedLiterals, hh, foundMatch]

theorem C20_pushdata1_scripthash_witness :
    sampleParams.wellFormed = true ∧ (sampleHash 7).length = 20 ∧
      Solver sampleParams (0xa9 :: 0x4c :: 0x14 :: (sampleHash 7 ++ [0x87])) []
        = .ok (true, TX_SCRIPTHASH, [sampleHash 7]) :=
  ⟨by decide, by decide,
    (C20_pushdata1_scripthash sampleParams (by decide) (sampleHash 7) (by decide) []).2⟩

/-! ## Claim C17: `Solver` terminates -/

/-- The loop of the `OP_PUBKEYS` slot is its pass, repeated. -/
theorem pubkeysLoop_step (fuel : Nat) (pc1 : CScript) (opcode1 : Nat) (vch1 : valtype)
    (sols : List valtype) :
    pubkeysLoop (fuel + 1) pc1 opcode1 vch1 sols =
      match pubkeysStep pc1 opcode1 vch1 sols with
      | .inl st => .ok st
      | .inr st => pubkeysLoop fuel st.1 st.2.1 st.2.2.1 st.2.2.2 := by
  simp only [pubkeysLoop, pubkeysStep]
  by_cases h : 33 ≤ vch1.length ∧ vch1.length ≤ 65
  · simp only [if_pos h]
    by_cases hok : (GetOp pc1).ok = false
    · simp only [if_pos hok]
    · simp only [if_neg hok]
  · simp only [if_neg h]

/-- A pass of the loop of the `OP_PUBKEYS` slot that does not leave the loop has
read an opcode: the rest of the script is shorter. -/
theorem pubkeysStep_consumes {pc1 : CScript} {opcode1 : Nat} {vch1 : valtype}
    {sols : List valtype} {st : CScript × Nat × valtype × List valtype}
    (h : pubkeysStep pc1 opcode1 vch1 sols = .inr st) : st.1.length < pc1.length := by
  simp only [pubkeysStep] at h
  by_cases hc : 33 ≤ vch1.length ∧ vch1.length ≤ 65
  · simp only [if_pos hc] at h
    by_cases hok : (GetOp pc1).ok = false
    · simp only [if_pos hok] at h
      cases h
    · simp only [if_neg hok] at h
      cases h
      exact GetOp_ok_length (Bool.eq_true_of_not_eq_false hok)
  · simp only [if_neg hc] at h
    cases h

/-- The loop of the comparison is its pass, repeated. -/
theorem matchLoop_step (P : Params) (typeRet : txnouttype) (fuel : Nat) (pc1 pc2 : CScript)
    (sols : List valtype) :
    matchLoop P typeRet (fuel + 1) pc1 pc2 sols =
      match matchStep P typeRet pc1 pc2 sols with
      | .error f => .error f
      | .ok (.inl r) => .ok r
      | .ok (.inr st) => matchLoop P typeRet fuel st.1 st.2.1 st.2.2 := by
  simp only [matchLoop, matchStep]
  by_cases hend : pc1 = [] ∧ pc2 = []
  · simp only [if_pos hend]
    cases foundMatch typeRet sols <;> rfl
  · simp only [if_neg hend]
    by_cases hok : (GetOp pc1).ok = false
    · simp only [if_pos hok]
    · simp only [if_neg hok]
      by_cases hok2 : (GetOp pc2).ok = false
      · simp only [if_pos hok2]
      · simp only [if_neg hok2]
        by_cases hpk : (GetOp pc2).opcodeRet = OP_PUBKEYS
        · simp only [if_pos hpk]
          cases pubkeysLoop ((GetOp pc1).pc.length + 1) (GetOp pc1).pc (GetOp pc1).opcodeRet
            (GetOp pc1).vchRet sols with
          | error f => rfl
          | ok r =>
            obtain ⟨pc1', opcode1', vch1', sols'⟩ := r
            simp only
            by_cases hok3 : (GetOp (GetOp pc2).pc).ok = false
            · simp only [if_pos hok3]
            · simp only [if_neg hok3]
              cases compareOp P opcode1' vch1' (GetOp (GetOp pc2).pc).opcodeRet
                (GetOp (GetOp pc2).pc).vchRet sols' <;> rfl
        · simp only [if_neg hpk]
          cases compareOp P (GetOp pc1).opcodeRet (GetOp pc1).vchRet (GetOp pc2).opcodeRet
            (GetOp pc2).vchRet sols <;> rfl

/-- A pass of the loop of the comparison that does not leave the loop has read
an opcode of the script: the rest of the script is shorter. -/
theorem matchStep_consumes {P : Params} {typeRet : txnouttype} {pc1 pc2 : CScript}
    {sols : List valtype} {st : CScript × CScript × List valtype}
    (h : matchStep P typeRet pc1 pc2 sols = .ok (.inr st)) : st.1.length < pc1.length := by
  simp only [matchStep] at h
  by_cases hend : pc1 = [] ∧ pc2 = []
  · simp only [if_pos hend] at h
    cases hf : foundMatch typeRet sols <;> rw [hf] at h <;> cases h
  · simp only [if_neg hend] at h
    by_cases hok : (GetOp pc1).ok = false
    · simp only [if_pos hok] at h
      cases h
    · simp only [if_neg hok] at h
      have hlt := GetOp_ok_length (Bool.eq_true_of_not_eq_false hok)
      by_cases hok2 : (GetOp pc2).ok = false
      · simp only [if_pos hok2] at h
        cases h
      · simp only [if_neg hok2] at h
        by_cases hpk : (GetOp pc2).opcodeRet = OP_PUBKEYS
        · simp only [if_pos hpk] at h
          obtain ⟨r, hr, hlen⟩ := pubkeysLoop_ok ((GetOp pc1).pc.length + 1) (GetOp pc1).pc
            (GetOp pc1).opcodeRet (GetOp pc1).vchRet sols (Nat.lt_succ_self _)
          obtain ⟨pc1', opcode1', vch1', sols'⟩ := r
          rw [hr] at h
          simp only at h hlen
          by_cases hok3 : (GetOp (GetOp pc2).pc).ok = false
          · simp only [if_pos hok3] at h
            cases h
          · simp only [if_neg hok3] at h
            cases hc : compareOp P opcode1' vch1' (GetOp (GetOp pc2).pc).opcodeRet
              (GetOp (GetOp pc2).pc).vchRet sols' <;> rw [hc] at h <;> cases h
            simp only
            omega
        · simp only [if_neg hpk] at h
          cases hc : compareOp P (GetOp pc1).opcodeRet (GetOp pc1).vchRet (GetOp pc2).opcodeRet
            (GetOp pc2).vchRet sols <;> rw [hc] at h <;> cases h
          exact hlt

/-- C17. `Solver` ends with a result on every script and every solutions vector
on entry, without a fault. A pass of the loop of the comparison, and a pass of
the loop of the `OP_PUBKEYS` slot, leaves its loop or goes on with a shorter
rest of the script; the loops are these passes repeated, and more passes than
the length of the script allows change nothing. -/
theorem C17_solver_total (P : Params) (hP : P.wellFormed = true) (s : CScript)
    (v : List valtype) :
    (∃ ret t sols, Solver P s v = .ok (ret, t, sols)) ∧
      (∀ t pc1 pc2 sols st, matchStep P t pc1 pc2 sols = .ok (.inr st) →
        st.1.length < pc1.length) ∧
      (∀ pc1 opcode1 vch1 sols st, pubkeysStep pc1 opcode1 vch1 sols = .inr st →
        st.1.length < pc1.length) ∧
      (∀ t fuel pc1 pc2 sols, matchLoop P t (fuel + 1) pc1 pc2 sols =
        match matchStep P t pc1 pc2 sols with
        | .error f => .error f
        | .ok (.inl r) => .ok r
        | .ok (.inr st) => matchLoop P t fuel st.1 st.2.1 st.2.2) ∧
      (∀ fuel pc1 opcode1 vch1 sols, pubkeysLoop (fuel + 1) pc1 opcode1 vch1 sols =
        match pubkeysStep pc1 opcode1 vch1 sols with
        | .inl st => .ok st
        | .inr st => pubkeysLoop fuel st.1 st.2.1 st.2.2.1 st.2.2.2) ∧
      (∀ t fuel pc1 pc2 sols, pc1.length < fuel →
        matchLoop P t fuel pc1 pc2 sols = matchLoop P t (pc1.length + 1) pc1 pc2 sols) ∧
      (∀ fuel pc1 opcode1 vch1 sols, pc1.length < fuel →
        pubkeysLoop fuel pc1 opcode1 vch1 sols =
          pubkeysLoop (pc1.length + 1) pc1 opcode1 vch1 sols) := by
  refine ⟨?_, fun _ _ _ _ _ h => matchStep_consumes h, fun _ _ _ _ _ h => pubkeysStep_consumes h,
    fun t fuel pc1 pc2 sols => matchLoop_step P t fuel pc1 pc2 sols,
    fun fuel pc1 opcode1 vch1 sols => pubkeysLoop_step fuel pc1 opcode1 vch1 sols,
    fun t fuel pc1 pc2 sols h => matchLoop_fuel P t _ _ _ _ _ h (Nat.lt_succ_self _),
    fun fuel pc1 opcode1 vch1 sols h => pubkeysLoop_fuel _ _ _ _ _ _ h (Nat.lt_succ_self _)⟩
  by_cases hp : IsPayToScriptHash s = true
  · exact ⟨true, TX_SCRIPTHASH, v ++ [(s.drop 2).take 20], by simp [Solver, hp]⟩
  · have hmem : ∀ x, x ∈ mTemplates P → x ∈ templateInsertions P :=
      fun x hx => (mem_mTemplates P x).mp hx
    obtain ⟨⟨ret, t, sols⟩, hr⟩ := scanTemplates_ok P s (mTemplates P) (fun x hx => by
      rw [matchFull_template hP (hmem x hx)]
      exact templates_ok hP s x (hmem x hx))
    exact ⟨ret, t, sols, by simp [Solver, hp, hr]⟩

theorem C17_solver_total_witness :
    sampleParams.wellFormed = true ∧
      ∃ ret t sols, Solver sampleParams [0x21, 0x02, 0x4c] [[1]] = .ok (ret, t, sols) :=
  ⟨by decide, (C17_solver_total sampleParams (by decide) [0x21, 0x02, 0x4c] [[1]]).1⟩

/-! ## What a slot of a template accepts -/

theorem readPush_ok {opcode nSize : Nat} {pc : CScript}
    (h : (readPush opcode nSize pc).ok = true) :
    (readPush opcode nSize pc).opcodeRet = opcode ∧
      (readPush opcode nSize pc).vchRet.length = nSize := by
  unfold readPush at h ⊢
  by_cases h1 : pc.length < nSize
  · simp [h1] at h
  · rw [if_neg h1]
    exact ⟨rfl, by simp; omega⟩

/-- A successful `GetOp` gives the opcode that is the first byte; an opcode
above `OP_PUSHDATA4` comes with no data, an opcode below `OP_PUSHDATA1` comes
with as many bytes as its number says. -/
theorem GetOp_ok_facts {pc : CScript} (h : (GetOp pc).ok = true) :
    pc.head? = some (GetOp pc).opcodeRet ∧
      (OP_PUSHDATA4 < (GetOp pc).opcodeRet → (GetOp pc).vchRet = []) ∧
      ((GetOp pc).opcodeRet < OP_PUSHDATA1 →
        (GetOp pc).vchRet.length = (GetOp pc).opcodeRet) := by
  cases pc with
  | nil => simp [GetOp] at h
  | cons opcode rest =>
    simp only [GetOp] at h ⊢
    by_cases h1 : opcode ≤ OP_PUSHDATA4
    · simp only [h1, if_true] at h ⊢
      by_cases h2 : opcode < OP_PUSHDATA1
      · simp only [h2, if_true] at h ⊢
        obtain ⟨e1, e2⟩ := readPush_ok h
        rw [e1]
        exact ⟨rfl, fun hc => absurd h1 (Nat.not_le.mpr hc), fun _ => e2⟩
      · simp only [h2, if_false] at h ⊢
        by_cases h3 : opcode = OP_PUSHDATA1
        · simp only [h3, if_true] at h ⊢
          cases rest with
          | nil => simp at h
          | cons b rest2 =>
            simp only at h ⊢
            obtain ⟨e1, _⟩ := readPush_ok h
            rw [e1]
            exact ⟨rfl, fun hc => by simp [OP_PUSHDATA4, OP_PUSHDATA1] at hc,
              fun hc => by simp at hc⟩
        · simp only [h3, if_false] at h ⊢
          by_cases h4 : opcode = OP_PUSHDATA2
          · simp only [h4, if_true] at h ⊢
            by_cases h5 : rest.length < 2
            · simp [h5] at h
            · simp only [h5, if_false] at h ⊢
              obtain ⟨e1, _⟩ := readPush_ok h
              rw [e1]
              exact ⟨rfl, fun hc => by simp [OP_PUSHDATA4, OP_PUSHDATA2] at hc,
                fun hc => by simp [OP_PUSHDATA1, OP_PUSHDATA2] at hc⟩
          · simp only [h4, if_false] at h ⊢
            by_cases h5 : rest.length < 4
            · simp [h5] at h
            · simp only [h5, if_false] at h ⊢
              obtain ⟨e1, _⟩ := readPush_ok h
              rw [e1]
              exact ⟨rfl, fun hc => absurd h1 (Nat.not_le.mpr hc),
                fun hc => absurd hc h2⟩
    · rw [if_neg h1]
      exact ⟨rfl, fun _ => rfl, fun hc => by
        simp only [OP_PUSHDATA4, OP_PUSHDATA1] at h1 hc
        omega⟩

theorem slot_literal {P : Params} (hP : P.wellFormed = true) {L : Nat}
    (hL : L ∈ ownLiterals P ++ sharedLiterals) {o : Nat} {v : valtype}
    {sols sols1 : List valtype} (h : compareOp P o v L [] sols = some sols1) :
    o = L ∧ v = [] ∧ sols1 = sols := by
  rw [compareOp_literal hP hL] at h
  by_cases hc : o ≠ L ∨ v ≠ []
  · rw [if_pos hc] at h
    cases h
  · rw [if_neg hc] at h
    simp only [not_or, not_not] at hc
    exact ⟨hc.1, hc.2, (Option.some.inj h).symm⟩

theorem slot_PUBKEY {P : Params} {o : Nat} {v : valtype} {sols sols1 : List valtype}
    (h : compareOp P o v OP_PUBKEY [] sols = some sols1) :
    (33 ≤ v.length ∧ v.length ≤ 65) ∧ sols1 = sols ++ [v] := by
  rw [compareOp_PUBKEY] at h
  by_cases hc : v.length < 33 ∨ v.length > 65
  · rw [if_pos hc] at h
    cases h
  · rw [if_neg hc] at h
    exact ⟨by omega, (Option.some.inj h).symm⟩

theorem slot_PUBKEYHASH {P : Params} {o : Nat} {v : valtype} {sols sols1 : List valtype}
    (h : compareOp P o v OP_PUBKEYHASH [] sols = some sols1) :
    v.length = 20 ∧ sols1 = sols ++ [v] := by
  rw [compareOp_PUBKEYHASH] at h
  by_cases hc : v.length ≠ 20
  · rw [if_pos hc] at h
    cases h
  · rw [if_neg hc] at h
    exact ⟨not_not.mp hc, (Option.some.inj h).symm⟩

theorem slot_NONCE {P : Params} (hP : P.wellFormed = true) {o : Nat} {v : valtype}
    {sols sols1 : List valtype} (h : compareOp P o v P.OP_NONCE [] sols = some sols1) :
    v.length ≤ 9 ∧ sols1 = sols ++ [v] := by
  rw [compareOp_NONCE hP] at h
  by_cases hc : v.length > 9
  · rw [if_pos hc] at h
    cases h
  · rw [if_neg hc] at h
    exact ⟨by omega, (Option.some.inj h).symm⟩

theorem slot_NUMERIC {P : Params} (hP : P.wellFormed = true) {o : Nat} {v : valtype}
    {sols sols1 : List valtype} (h : compareOp P o v P.OP_NUMERIC [] sols = some sols1) :
    v.length ≤ 4 ∧ sols1 = sols ++ [v] := by
  rw [compareOp_NUMERIC hP] at h
  by_cases hc : v.length > 4
  · rw [if_pos hc] at h
    cases h
  · rw [if_neg hc] at h
    exact ⟨by omega, (Option.some.inj h).symm⟩

theorem slot_SMALLINTEGER {P : Params} (hP : P.wellFormed = true) {o : Nat} {v : valtype}
    {sols sols1 : List valtype} (h : compareOp P o v OP_SMALLINTEGER [] sols = some sols1) :
    (o = OP_0 ∨ (OP_1 ≤ o ∧ o ≤ OP_16)) ∧ sols1 = sols ++ [[DecodeOP_N o]] := by
  rw [compareOp_SMALLINTEGER hP] at h
  by_cases hc : o = OP_0 ∨ (OP_1 ≤ o ∧ o ≤ OP_16)
  · rw [if_pos hc] at h
    exact ⟨hc, (Option.some.inj h).symm⟩
  · rw [if_neg hc] at h
    cases h

theorem slot_SCRIPTNUMBER {P : Params} (hP : P.wellFormed = true) {o : Nat} {v : valtype}
    {sols sols1 : List valtype} (h : compareOp P o v P.OP_SCRIPTNUMBER [] sols = some sols1) :
    o ≤ 5 ∧ sols1 = sols ++ [v] := by
  rw [compareOp_SCRIPTNUMBER hP] at h
  by_cases hc : o ≤ 0x05
  · rw [if_pos hc] at h
    exact ⟨hc, (Option.some.inj h).symm⟩
  · rw [if_neg hc] at h
    cases h

theorem slot_SMALLDATA {P : Params} (hP : P.wellFormed = true) {o : Nat} {v : valtype}
    {sols sols1 : List valtype} (h : compareOp P o v OP_SMALLDATA [] sols = some sols1) :
    v.length ≤ P.nMaxDatacarrierBytes ∧ sols1 = sols := by
  rw [compareOp_SMALLDATA hP] at h
  by_cases hc : v.length > P.nMaxDatacarrierBytes
  · rw [if_pos hc] at h
    cases h
  · rw [if_neg hc] at h
    exact ⟨by omega, (Option.some.inj h).symm⟩

/-- A match of a template that starts with another opcode than `OP_PUBKEYS`:
`GetOp` on the script succeeds, the slot accepts what was read, and the rest of
the script matches the rest of the template. -/
theorem matchT_head {P : Params} {t : txnouttype} {pc1 : CScript} {op2 : Nat} {pc2 : List Nat}
    {sols : List valtype} {ret : Bool} {sols' : List valtype} (hpk : op2 ≠ OP_PUBKEYS)
    (h : matchT P t pc1 (op2 :: pc2) sols = .ok (.returned ret sols')) :
    (GetOp pc1).ok = true ∧ ∃ sols1,
      compareOp P (GetOp pc1).opcodeRet (GetOp pc1).vchRet op2 [] sols = some sols1 ∧
      matchT P t (GetOp pc1).pc pc2 sols1 = .ok (.returned ret sols') := by
  by_cases hok : (GetOp pc1).ok = false
  · cases pc2 <;> simp [matchT, hok] at h
  · refine ⟨Bool.eq_true_of_not_eq_false hok, ?_⟩
    cases pc2 with
    | nil =>
      simp only [matchT, if_neg hok, if_neg hpk] at h
      cases hc : compareOp P (GetOp pc1).opcodeRet (GetOp pc1).vchRet op2 [] sols with
      | none =>
        rw [hc] at h
        cases h
      | some sols1 =>
        rw [hc] at h
        exact ⟨sols1, rfl, h⟩
    | cons op2' pc2' =>
      simp only [matchT, if_neg hok, if_neg hpk] at h
      cases hc : compareOp P (GetOp pc1).opcodeRet (GetOp pc1).vchRet op2 [] sols with
      | none =>
        rw [hc] at h
        cases h
      | some sols1 =>
        rw [hc] at h
        exact ⟨sols1, rfl, h⟩

/-- A match of the empty template: the script is at its end. -/
theorem matchT_end {P : Params} {t : txnouttype} {pc1 : CScript} {sols : List valtype}
    {ret : Bool} {sols' : List valtype}
    (h : matchT P t pc1 [] sols = .ok (.returned ret sols')) : pc1 = [] ∧ sols' = sols := by
  by_cases hpc : pc1 = []
  · subst hpc
    simp only [matchT, if_true] at h
    exact ⟨rfl, foundMatch_sols h⟩
  · simp [matchT, hpc] at h

/-- A match of a template that starts with `OP_PUBKEYS`. -/
theorem matchT_head_pubkeys {P : Params} {t : txnouttype} {pc1 : CScript} {op2 : Nat}
    {pc2 : List Nat} {sols : List valtype} {ret : Bool} {sols' : List valtype}
    (h : matchT P t pc1 (OP_PUBKEYS :: op2 :: pc2) sols = .ok (.returned ret sols')) :
    (GetOp pc1).ok = true ∧ ∃ pc1' opcode1 vch1 sols1 sols2,
      pubkeysFull (GetOp pc1).pc (GetOp pc1).opcodeRet (GetOp pc1).vchRet sols =
        .ok (pc1', opcode1, vch1, sols1) ∧
      compareOp P opcode1 vch1 op2 [] sols1 = some sols2 ∧
      matchT P t pc1' pc2 sols2 = .ok (.returned ret sols') := by
  by_cases hok : (GetOp pc1).ok = false
  · simp [matchT, hok] at h
  · refine ⟨Bool.eq_true_of_not_eq_false hok, ?_⟩
    simp only [matchT, if_neg hok, if_true] at h
    cases hk : pubkeysFull (GetOp pc1).pc (GetOp pc1).opcodeRet (GetOp pc1).vchRet sols with
    | error f =>
      rw [hk] at h
      cases h
    | ok r =>
      obtain ⟨pc1', opcode1, vch1, sols1⟩ := r
      rw [hk] at h
      simp only at h
      cases hc : compareOp P opcode1 vch1 op2 [] sols1 with
      | none =>
        rw [hc] at h
        cases h
      | some sols2 =>
        rw [hc] at h
        exact ⟨pc1', opcode1, vch1, sols1, sols2, rfl, hc, h⟩

/-! ## The templates exclude one another -/

/-- The opcodes up to `OP_16` are none of the literals with which a template
starts or goes on. -/
theorem small_ne {o : Nat} (h : o ≤ OP_16) :
    o ≠ OP_HASH160 ∧ o ≠ OP_DUP ∧ o ≠ OP_RETURN ∧ o ≠ OP_IF ∧ o ≠ OP_TOALTSTACK := by
  simp only [OP_16, OP_HASH160, OP_DUP, OP_RETURN, OP_IF, OP_TOALTSTACK] at h ⊢
  omega

/-- What the `OP_SCRIPTNUMBER` slot or the `OP_SMALLINTEGER` slot accepts is
not as long as a public key. -/
theorem small_not_key {pc : CScript} (hok : (GetOp pc).ok = true)
    (h : (GetOp pc).opcodeRet ≤ 5 ∨ (GetOp pc).opcodeRet = OP_0 ∨
      (OP_1 ≤ (GetOp pc).opcodeRet ∧ (GetOp pc).opcodeRet ≤ OP_16)) :
    ¬ (33 ≤ (GetOp pc).vchRet.length ∧ (GetOp pc).vchRet.length ≤ 65) := by
  obtain ⟨_, f1, f2⟩ := GetOp_ok_facts hok
  simp only [OP_0, OP_1, OP_16, OP_PUSHDATA1, OP_PUSHDATA4] at h f1 f2
  rcases h with h | h | h
  · have := f2 (by omega)
    omega
  · have := f2 (by omega)
    omega
  · rw [f1 (by omega)]
    simp

/-- Data is read behind a push opcode only. -/
theorem data_opcode {pc : CScript} (hok : (GetOp pc).ok = true)
    (h : 20 ≤ (GetOp pc).vchRet.length) : (GetOp pc).opcodeRet ≤ OP_16 := by
  obtain ⟨_, f1, _⟩ := GetOp_ok_facts hok
  by_contra hc
  have hv := f1 (by simp only [OP_16, OP_PUSHDATA4] at hc ⊢; omega)
  rw [hv] at h
  simp at h

theorem candidate_scripthash {P : Params} (hP : P.wellFormed = true) {s : CScript} {ret : Bool}
    {sols : List valtype}
    (h : matchT P TX_SCRIPTHASH s [OP_HASH160, OP_PUBKEYHASH, OP_EQUAL] [] =
      .ok (.returned ret sols)) :
    (TX_SCRIPTHASH, [OP_HASH160, OP_PUBKEYHASH, OP_EQUAL]) = candidate P s := by
  obtain ⟨ok1, s1, c1, m1⟩ := matchT_head (by decide) h
  obtain ⟨ok2, s2, c2, m2⟩ := matchT_head (by decide) m1
  obtain ⟨ok3, s3, c3, m3⟩ := matchT_head (by decide) m2
  obtain ⟨e1, v1, _⟩ := slot_literal hP (by simp [sharedLiterals]) c1
  obtain ⟨e3, v3, _⟩ := slot_literal hP (by simp [sharedLiterals]) c3
  simp +decide [candidate, e1, v1, e3]

theorem candidate_pubkey {P : Params} (hP : P.wellFormed = true) {s : CScript} {ret : Bool}
    {sols : List valtype}
    (h : matchT P TX_PUBKEY s [OP_PUBKEY, OP_CHECKSIG] [] = .ok (.returned ret sols)) :
    (TX_PUBKEY, [OP_PUBKEY, OP_CHECKSIG]) = candidate P s := by
  obtain ⟨ok1, s1, c1, m1⟩ := matchT_head (by decide) h
  obtain ⟨ok2, s2, c2, m2⟩ := matchT_head (by decide) m1
  obtain ⟨l1, _⟩ := slot_PUBKEY c1
  obtain ⟨e2, v2, _⟩ := slot_literal hP (by simp [sharedLiterals]) c2
  simp +decide [candidate, l1, e2]

theorem candidate_pubkeyhash {P : Params} (hP : P.wellFormed = true) {s : CScript} {ret : Bool}
    {sols : List valtype}
    (h : matchT P TX_PUBKEYHASH s
      [OP_DUP, OP_HASH160, OP_PUBKEYHASH, OP_EQUALVERIFY, OP_CHECKSIG] [] =
      .ok (.returned ret sols)) :
    (TX_PUBKEYHASH, [OP_DUP, OP_HASH160, OP_PUBKEYHASH, OP_EQUALVERIFY, OP_CHECKSIG]) =
      candidate P s := by
  obtain ⟨ok1, s1, c1, m1⟩ := matchT_head (by decide) h
  obtain ⟨ok2, s2, c2, m2⟩ := matchT_head (by decide) m1
  obtain ⟨e1, v1, _⟩ := slot_literal hP (by simp [sharedLiterals]) c1
  obtain ⟨e2, v2, _⟩ := slot_literal hP (by simp [sharedLiterals]) c2
  simp +decide [candidate, e1, v1, e2]

theorem candidate_nonced {P : Params} (hP : P.wellFormed = true) {s : CScript} {ret : Bool}
    {sols : List valtype}
    (h : matchT P TX_PUBKEYHASH_NONCED s
      [P.OP_NONCE, OP_TOALTSTACK, OP_DUP, OP_HASH160, OP_PUBKEYHASH, OP_EQUALVERIFY,
        OP_CHECKSIG] [] = .ok (.returned ret sols)) :
    (TX_PUBKEYHASH_NONCED,
      [P.OP_NONCE, OP_TOALTSTACK, OP_DUP, OP_HASH160, OP_PUBKEYHASH, OP_EQUALVERIFY,
        OP_CHECKSIG]) = candidate P s := by
  obtain ⟨_, ⟨_, _, _, _, q5, _, _⟩⟩ := wf_own hP
  obtain ⟨ok1, s1, c1, m1⟩ := matchT_head q5 h
  obtain ⟨ok2, s2, c2, m2⟩ := matchT_head (by decide) m1
  obtain ⟨ok3, s3, c3, m3⟩ := matchT_head (by decide) m2
  obtain ⟨e2, v2, _⟩ := slot_literal hP (by simp [sharedLiterals]) c2
  obtain ⟨e3, v3, _⟩ := slot_literal hP (by simp [sharedLiterals]) c3
  simp +decide [candidate, e2, e3]

theorem candidate_bare {P : Params} (hP : P.wellFormed = true) {s : CScript} {ret : Bool}
    {sols : List valtype}
    (h : matchT P TX_NULL_DATA s [OP_RETURN] [] = .ok (.returned ret sols)) :
    (TX_NULL_DATA, [OP_RETURN]) = candidate P s := by
  obtain ⟨ok1, s1, c1, m1⟩ := matchT_head (by decide) h
  obtain ⟨e1, v1, _⟩ := slot_literal hP (by simp [sharedLiterals]) c1
  obtain ⟨hend, _⟩ := matchT_end m1
  simp +decide [candidate, e1, v1, hend, GetOp_nil]

theorem candidate_data {P : Params} (hP : P.wellFormed = true) {s : CScript} {ret : Bool}
    {sols : List valtype}
    (h : matchT P TX_NULL_DATA s [OP_RETURN, OP_SMALLDATA] [] = .ok (.returned ret sols)) :
    (TX_NULL_DATA, [OP_RETURN, OP_SMALLDATA]) = candidate P s := by
  obtain ⟨ok1, s1, c1, m1⟩ := matchT_head (by decide) h
  obtain ⟨ok2, s2, c2, m2⟩ := matchT_head (by decide) m1
  obtain ⟨e1, v1, _⟩ := slot_literal hP (by simp [sharedLiterals]) c1
  obtain ⟨hend, _⟩ := matchT_end m2
  have hne := GetOp_ok_ne_nil ok2
  simp +decide [candidate, e1, v1, hend, GetOp_nil, hne]

theorem candidate_delayedscripthash {P : Params} (hP : P.wellFormed = true) {s : CScript} {ret : Bool}
    {sols : List valtype}
    (h : matchT P TX_DELAYEDSCRIPTHASH s
      [P.OP_SCRIPTNUMBER, P.OP_CHECKLOCKTIMEVERIFY, OP_HASH160, OP_PUBKEYHASH, OP_EQUAL] [] = .ok (.returned ret sols)) :
    (TX_DELAYEDSCRIPTHASH,
      [P.OP_SCRIPTNUMBER, P.OP_CHECKLOCKTIMEVERIFY, OP_HASH160, OP_PUBKEYHASH, OP_EQUAL]) = candidate P s := by
  obtain ⟨_, ⟨q1, _, _, _, _, _, q7⟩⟩ := wf_own hP
  obtain ⟨ok1, s1, c1, m1⟩ := matchT_head q7 h
  obtain ⟨ok2, s2, c2, m2⟩ := matchT_head q1 m1
  obtain ⟨ok3, s3, c3, m3⟩ := matchT_head (by decide) m2
  obtain ⟨l1, _⟩ := slot_SCRIPTNUMBER hP c1
  obtain ⟨e2, v2, _⟩ := slot_literal hP (by simp [ownLiterals]) c2
  have k1 := small_not_key ok1 (Or.inl l1)
  obtain ⟨n1, n2, n3, n4, _⟩ := small_ne (o := (GetOp s).opcodeRet)
    (by simp only [OP_16]; omega)
  have t2 := (wf_cltv hP).1
  obtain ⟨e3, v3, _⟩ := slot_literal hP (by simp [sharedLiterals]) c3
  simp +decide [candidate, e2, e3, k1, n1, n2, n3, n4, t2]

theorem candidate_delayedpubkeyhash {P : Params} (hP : P.wellFormed = true) {s : CScript} {ret : Bool}
    {sols : List valtype}
    (h : matchT P TX_DELAYEDPUBKEYHASH s
      [P.OP_SCRIPTNUMBER, P.OP_CHECKLOCKTIMEVERIFY, OP_DUP, OP_HASH160, OP_PUBKEYHASH,
        OP_EQUALVERIFY, OP_CHECKSIG] [] = .ok (.returned ret sols)) :
    (TX_DELAYEDPUBKEYHASH,
      [P.OP_SCRIPTNUMBER, P.OP_CHECKLOCKTIMEVERIFY, OP_DUP, OP_HASH160, OP_PUBKEYHASH,
        OP_EQUALVERIFY, OP_CHECKSIG]) = candidate P s := by
  obtain ⟨_, ⟨q1, _, _, _, _, _, q7⟩⟩ := wf_own hP
  obtain ⟨ok1, s1, c1, m1⟩ := matchT_head q7 h
  obtain ⟨ok2, s2, c2, m2⟩ := matchT_head q1 m1
  obtain ⟨ok3, s3, c3, m3⟩ := matchT_head (by decide) m2
  obtain ⟨l1, _⟩ := slot_SCRIPTNUMBER hP c1
  obtain ⟨e2, v2, _⟩ := slot_literal hP (by simp [ownLiterals]) c2
  have k1 := small_not_key ok1 (Or.inl l1)
  obtain ⟨n1, n2, n3, n4, _⟩ := small_ne (o := (GetOp s).opcodeRet)
    (by simp only [OP_16]; omega)
  have t2 := (wf_cltv hP).1
  obtain ⟨e3, v3, _⟩ := slot_literal hP (by simp [sharedLiterals]) c3
  simp +decide [candidate, e2, e3, k1, n1, n2, n3, n4, t2]

theorem candidate_delayedpubkey {P : Params} (hP : P.wellFormed = true) {s : CScript} {ret : Bool}
    {sols : List valtype}
    (h : matchT P TX_DELAYEDPUBKEY s
      [P.OP_SCRIPTNUMBER, P.OP_CHECKLOCKTIMEVERIFY, OP_PUBKEY, OP_CHECKSIG] [] = .ok (.returned ret sols)) :
    (TX_DELAYEDPUBKEY,
      [P.OP_SCRIPTNUMBER, P.OP_CHECKLOCKTIMEVERIFY, OP_PUBKEY, OP_CHECKSIG]) = candidate P s := by
  obtain ⟨_, ⟨q1, _, _, _, _, _, q7⟩⟩ := wf_own hP
  obtain ⟨ok1, s1, c1, m1⟩ := matchT_head q7 h
  obtain ⟨ok2, s2, c2, m2⟩ := matchT_head q1 m1
  obtain ⟨ok3, s3, c3, m3⟩ := matchT_head (by decide) m2
  obtain ⟨l1, _⟩ := slot_SCRIPTNUMBER hP c1
  obtain ⟨e2, v2, _⟩ := slot_literal hP (by simp [ownLiterals]) c2
  have k1 := small_not_key ok1 (Or.inl l1)
  obtain ⟨n1, n2, n3, n4, _⟩ := small_ne (o := (GetOp s).opcodeRet)
    (by simp only [OP_16]; omega)
  have t2 := (wf_cltv hP).1
  obtain ⟨l3, _⟩ := slot_PUBKEY c3
  obtain ⟨d1, d2, _⟩ := small_ne (data_opcode ok3 (by omega))
  simp +decide [candidate, e2, k1, n1, n2, n3, n4, t2, l3, d1, d2]

theorem candidate_delayedmultisig {P : Params} (hP : P.wellFormed = true) {s : CScript} {ret : Bool}
    {sols : List valtype}
    (h : matchT P TX_DELAYEDMULTISIG s
      [P.OP_SCRIPTNUMBER, P.OP_CHECKLOCKTIMEVERIFY, OP_SMALLINTEGER, OP_PUBKEYS,
        OP_SMALLINTEGER, OP_CHECKMULTISIG] [] = .ok (.returned ret sols)) :
    (TX_DELAYEDMULTISIG,
      [P.OP_SCRIPTNUMBER, P.OP_CHECKLOCKTIMEVERIFY, OP_SMALLINTEGER, OP_PUBKEYS,
        OP_SMALLINTEGER, OP_CHECKMULTISIG]) = candidate P s := by
  obtain ⟨_, ⟨q1, _, _, _, _, _, q7⟩⟩ := wf_own hP
  obtain ⟨ok1, s1, c1, m1⟩ := matchT_head q7 h
  obtain ⟨ok2, s2, c2, m2⟩ := matchT_head q1 m1
  obtain ⟨ok3, s3, c3, m3⟩ := matchT_head (by decide) m2
  obtain ⟨l1, _⟩ := slot_SCRIPTNUMBER hP c1
  obtain ⟨e2, v2, _⟩ := slot_literal hP (by simp [ownLiterals]) c2
  have k1 := small_not_key ok1 (Or.inl l1)
  obtain ⟨n1, n2, n3, n4, _⟩ := small_ne (o := (GetOp s).opcodeRet)
    (by simp only [OP_16]; omega)
  have t2 := (wf_cltv hP).1
  obtain ⟨l3, _⟩ := slot_SMALLINTEGER hP c3
  have k3 := small_not_key ok3 (Or.inr l3)
  obtain ⟨d1, d2, _⟩ := small_ne (o := (GetOp (GetOp (GetOp s).pc).pc).opcodeRet)
    (by simp only [OP_0, OP_1, OP_16] at l3 ⊢; omega)
  simp +decide [candidate, e2, k1, n1, n2, n3, n4, t2, k3, d1, d2]

theorem candidate_escrow {P : Params} (hP : P.wellFormed = true) {s : CScript} {ret : Bool}
    {sols : List valtype}
    (h : matchT P TX_ESCROW s
      [OP_IF, OP_PUBKEYHASH, OP_DUP, OP_PUBKEY, OP_PUBKEY, P.OP_CHECKDATASIG, OP_VERIFY,
        OP_SWAP, OP_HASH160, OP_EQUAL, OP_VERIFY, OP_PUBKEYHASH, OP_TOALTSTACK, OP_DUP,
        OP_HASH160, OP_PUBKEYHASH, OP_EQUALVERIFY, OP_CHECKSIG, OP_ELSE, P.OP_NUMERIC,
        P.OP_CHECKEXPIRY, OP_ENDIF] [] = .ok (.returned ret sols)) :
    (TX_ESCROW,
      [OP_IF, OP_PUBKEYHASH, OP_DUP, OP_PUBKEY, OP_PUBKEY, P.OP_CHECKDATASIG, OP_VERIFY,
        OP_SWAP, OP_HASH160, OP_EQUAL, OP_VERIFY, OP_PUBKEYHASH, OP_TOALTSTACK, OP_DUP,
        OP_HASH160, OP_PUBKEYHASH, OP_EQUALVERIFY, OP_CHECKSIG, OP_ELSE, P.OP_NUMERIC,
        P.OP_CHECKEXPIRY, OP_ENDIF]) = candidate P s := by
  obtain ⟨ok1, s1, c1, m1⟩ := matchT_head (by decide) h
  obtain ⟨ok2, s2, c2, m2⟩ := matchT_head (by decide) m1
  obtain ⟨ok3, s3, c3, m3⟩ := matchT_head (by decide) m2
  obtain ⟨e1, v1, _⟩ := slot_literal hP (by simp [sharedLiterals]) c1
  obtain ⟨l2, _⟩ := slot_PUBKEYHASH c2
  obtain ⟨e3, v3, _⟩ := slot_literal hP (by simp [sharedLiterals]) c3
  obtain ⟨_, _, _, d4, d5⟩ := small_ne (data_opcode ok2 (by omega))
  simp +decide [candidate, e1, v1, e3, d4, d5]

theorem candidate_escrow_sender {P : Params} (hP : P.wellFormed = true) {s : CScript} {ret : Bool}
    {sols : List valtype}
    (h : matchT P TX_ESCROW_SENDER s
      [OP_IF, OP_IF, OP_PUBKEYHASH, OP_DUP, OP_PUBKEY, OP_PUBKEY, P.OP_CHECKDATASIG,
        OP_VERIFY, OP_SWAP, OP_HASH160, OP_EQUAL, OP_VERIFY, P.OP_CHECKTRANSFERNONCE,
        OP_ELSE, OP_PUBKEYHASH, OP_TOALTSTACK, OP_DUP, OP_HASH160, OP_PUBKEYHASH,
        OP_EQUALVERIFY, OP_CHECKSIG, OP_ENDIF, OP_ELSE, P.OP_NUMERIC, P.OP_CHECKEXPIRY,
        OP_ENDIF] [] = .ok (.returned ret sols)) :
    (TX_ESCROW_SENDER,
      [OP_IF, OP_IF, OP_PUBKEYHASH, OP_DUP, OP_PUBKEY, OP_PUBKEY, P.OP_CHECKDATASIG,
        OP_VERIFY, OP_SWAP, OP_HASH160, OP_EQUAL, OP_VERIFY, P.OP_CHECKTRANSFERNONCE,
        OP_ELSE, OP_PUBKEYHASH, OP_TOALTSTACK, OP_DUP, OP_HASH160, OP_PUBKEYHASH,
        OP_EQUALVERIFY, OP_CHECKSIG, OP_ENDIF, OP_ELSE, P.OP_NUMERIC, P.OP_CHECKEXPIRY,
        OP_ENDIF]) = candidate P s := by
  obtain ⟨ok1, s1, c1, m1⟩ := matchT_head (by decide) h
  obtain ⟨ok2, s2, c2, m2⟩ := matchT_head (by decide) m1
  obtain ⟨ok3, s3, c3, m3⟩ := matchT_head (by decide) m2
  obtain ⟨e1, v1, _⟩ := slot_literal hP (by simp [sharedLiterals]) c1
  obtain ⟨e2, v2, _⟩ := slot_literal hP (by simp [sharedLiterals]) c2
  simp +decide [candidate, e1, v1, e2]

theorem candidate_escrow_fee {P : Params} (hP : P.wellFormed = true) {s : CScript} {ret : Bool}
    {sols : List valtype}
    (h : matchT P TX_ESCROW_FEE s
      [OP_IF, OP_PUBKEYHASH, OP_TOALTSTACK, OP_DUP, OP_HASH160, OP_PUBKEYHASH,
        OP_EQUALVERIFY, OP_CHECKSIG, OP_ELSE, P.OP_NUMERIC, P.OP_CHECKEXPIRY, OP_ENDIF] [] = .ok (.returned ret sols)) :
    (TX_ESCROW_FEE,
      [OP_IF, OP_PUBKEYHASH, OP_TOALTSTACK, OP_DUP, OP_HASH160, OP_PUBKEYHASH,
        OP_EQUALVERIFY, OP_CHECKSIG, OP_ELSE, P.OP_NUMERIC, P.OP_CHECKEXPIRY, OP_ENDIF]) = candidate P s := by
  obtain ⟨ok1, s1, c1, m1⟩ := matchT_head (by decide) h
  obtain ⟨ok2, s2, c2, m2⟩ := matchT_head (by decide) m1
  obtain ⟨ok3, s3, c3, m3⟩ := matchT_head (by decide) m2
  obtain ⟨e1, v1, _⟩ := slot_literal hP (by simp [sharedLiterals]) c1
  obtain ⟨l2, _⟩ := slot_PUBKEYHASH c2
  obtain ⟨e3, v3, _⟩ := slot_literal hP (by simp [sharedLiterals]) c3
  obtain ⟨_, _, _, d4, d5⟩ := small_ne (data_opcode ok2 (by omega))
  simp +decide [candidate, e1, v1, e3, d4, d5]

theorem candidate_multisig {P : Params} (hP : P.wellFormed = true) {s : CScript} {ret : Bool}
    {sols : List valtype}
    (h : matchT P TX_MULTISIG s
      [OP_SMALLINTEGER, OP_PUBKEYS, OP_SMALLINTEGER, OP_CHECKMULTISIG] [] = .ok (.returned ret sols)) :
    (TX_MULTISIG,
      [OP_SMALLINTEGER, OP_PUBKEYS, OP_SMALLINTEGER, OP_CHECKMULTISIG]) = candidate P s := by
  obtain ⟨ok1, s1, c1, m1⟩ := matchT_head (by decide) h
  obtain ⟨ok2, pc', op', vch', sols1, sols2, hk, c2, m2⟩ := matchT_head_pubkeys m1
  obtain ⟨l1, _⟩ := slot_SMALLINTEGER hP c1
  have k1 := small_not_key ok1 (Or.inr l1)
  obtain ⟨n1, n2, n3, n4, _⟩ := small_ne (o := (GetOp s).opcodeRet)
    (by simp only [OP_0, OP_1, OP_16] at l1 ⊢; omega)
  have h2 : (GetOp (GetOp s).pc).opcodeRet ≤ OP_16 := by
    by_cases hv : 33 ≤ (GetOp (GetOp s).pc).vchRet.length ∧
        (GetOp (GetOp s).pc).vchRet.length ≤ 65
    · exact data_opcode ok2 (by omega)
    · rw [pubkeysFull_eq, if_neg hv] at hk
      cases hk
      obtain ⟨l2, _⟩ := slot_SMALLINTEGER hP c2
      simp only [OP_0, OP_1, OP_16] at l2 ⊢
      omega
  obtain ⟨_, _, _, _, d5⟩ := small_ne h2
  have d6 : (GetOp (GetOp s).pc).opcodeRet ≠ P.OP_CHECKLOCKTIMEVERIFY := by
    have := (wf_beyond hP).1
    omega
  simp +decide [candidate, k1, n1, n2, n3, n4, d5, d6]

/-- A template of the registry that matches a script is the candidate of the
script. -/
theorem candidate_of_match {P : Params} (hP : P.wellFormed = true) (s : CScript) :
    ∀ x ∈ templateInsertions P, ∀ ret sols,
      matchT P x.1 s x.2 [] = .ok (.returned ret sols) → x = candidate P s := by
  rw [forall_templateInsertions]
  exact ⟨fun _ _ h => candidate_pubkey hP h, fun _ _ h => candidate_scripthash hP h,
    fun _ _ h => candidate_delayedscripthash hP h, fun _ _ h => candidate_pubkeyhash hP h,
    fun _ _ h => candidate_delayedpubkeyhash hP h, fun _ _ h => candidate_delayedpubkey hP h,
    fun _ _ h => candidate_multisig hP h, fun _ _ h => candidate_delayedmultisig hP h,
    fun _ _ h => candidate_escrow hP h, fun _ _ h => candidate_escrow_sender hP h,
    fun _ _ h => candidate_escrow_fee hP h, fun _ _ h => candidate_nonced hP h,
    fun _ _ _ h => candidate_data hP h, fun _ _ h => candidate_bare hP h⟩

/-- The scan of the registry gives the same result in every order of the
registry. -/
theorem scanTemplates_order {P : Params} (hP : P.wellFormed = true) (s : CScript)
    (tpls1 tpls2 : List (txnouttype × CScript))
    (h1 : ∀ x, x ∈ tpls1 ↔ x ∈ templateInsertions P)
    (h2 : ∀ x, x ∈ tpls2 ↔ x ∈ templateInsertions P) :
    scanTemplates P s tpls1 = scanTemplates P s tpls2 := by
  have key : ∀ tpls : List (txnouttype × CScript), (∀ x, x ∈ tpls ↔ x ∈ templateInsertions P) →
      ∀ x ∈ templateInsertions P, ∀ ret sols,
        matchT P x.1 s x.2 [] = .ok (.returned ret sols) →
        scanTemplates P s tpls = .ok (ret, x.1, sols) := by
    intro tpls ht x hx ret sols hm
    apply scanTemplates_unique
    · exact ⟨x, (ht x).mpr hx, rfl, by rw [matchFull_template hP hx]; exact hm⟩
    · intro y hy
      have hy' := (ht y).mp hy
      rw [matchFull_template hP hy']
      obtain ⟨r, hr⟩ := templates_ok hP s y hy'
      cases r with
      | broke => exact Or.inl hr
      | returned ret' sols' =>
        have e1 := candidate_of_match hP s y hy' ret' sols' hr
        have e2 := candidate_of_match hP s x hx ret sols hm
        have e : y = x := e1.trans e2.symm
        subst e
        exact Or.inr ⟨rfl, hm⟩
  have none : ∀ tpls : List (txnouttype × CScript), (∀ x, x ∈ tpls ↔ x ∈ templateInsertions P) →
      (∀ x ∈ templateInsertions P, matchT P x.1 s x.2 [] = .ok .broke) →
      scanTemplates P s tpls = .ok (false, TX_NONSTANDARD, []) := by
    intro tpls ht hall
    apply scanTemplates_none
    intro y hy
    have hy' := (ht y).mp hy
    rw [matchFull_template hP hy']
    exact hall y hy'
  by_cases hex : ∃ x ∈ templateInsertions P, ∃ ret sols,
      matchT P x.1 s x.2 [] = .ok (.returned ret sols)
  · obtain ⟨x, hx, ret, sols, hm⟩ := hex
    rw [key tpls1 h1 x hx ret sols hm, key tpls2 h2 x hx ret sols hm]
  · have hall : ∀ x ∈ templateInsertions P, matchT P x.1 s x.2 [] = .ok .broke := by
      intro x hx
      obtain ⟨r, hr⟩ := templates_ok hP s x hx
      cases r with
      | broke => exact hr
      | returned ret sols => exact absurd ⟨x, hx, ret, sols, hr⟩ hex
    rw [none tpls1 h1 hall, none tpls2 h2 hall]

theorem compareOp_withRank (P : Params) (rank : txnouttype → Nat) :
    compareOp (withRank P rank) = compareOp P := rfl

theorem matchLoop_withRank (P : Params) (rank : txnouttype → Nat) (t : txnouttype) :
    ∀ (fuel : Nat) (pc1 pc2 : CScript) (sols : List valtype),
      matchLoop (withRank P rank) t fuel pc1 pc2 sols = matchLoop P t fuel pc1 pc2 sols := by
  intro fuel
  induction fuel with
  | zero => intros; rfl
  | succ f ih =>
    intro pc1 pc2 sols
    simp only [matchLoop, compareOp_withRank, ih]

theorem scanTemplates_withRank (P : Params) (rank : txnouttype → Nat) (s : CScript) :
    ∀ tpls, scanTemplates (withRank P rank) s tpls = scanTemplates P s tpls := by
  intro tpls
  induction tpls with
  | nil => rfl
  | cons x xs ih => simp only [scanTemplates, matchLoop_withRank, ih]

theorem mem_mTemplates_withRank (P : Params) (rank : txnouttype → Nat)
    (x : txnouttype × CScript) :
    x ∈ mTemplates (withRank P rank) ↔ x ∈ templateInsertions P :=
  mem_mTemplates (withRank P rank) x

/-! ## Claim C18: the order of the registry -/

/-- C18. For every script at most one template of the registry matches (ends
its comparison at `// Found a match`), so at most one output type has a
matching template; `Solver` with the registry iterated in any order, the order
of the `insert` statements among them, gives the result of `Solver`; and the
result of `Solver` is the same for every key order of the multimap. -/
theorem C18_templates_exclusive (P : Params) (hP : P.wellFormed = true) (s : CScript) :
    (∀ x ∈ templateInsertions P, ∀ y ∈ templateInsertions P, ∀ rx sx ry sy,
        matchLoop P x.1 (s.length + 1) s x.2 [] = .ok (.returned rx sx) →
        matchLoop P y.1 (s.length + 1) s y.2 [] = .ok (.returned ry sy) →
        x = y ∧ x.1 = y.1) ∧
      (∀ tpls : List (txnouttype × CScript), (∀ x, x ∈ tpls ↔ x ∈ templateInsertions P) →
        ∀ v, SolverInOrder P tpls s v = Solver P s v) ∧
      (∀ v, SolverInOrder P (templateInsertions P) s v = Solver P s v) ∧
      (∀ rank v, Solver (withRank P rank) s v = Solver P s v) := by
  have horder : ∀ tpls : List (txnouttype × CScript),
      (∀ x, x ∈ tpls ↔ x ∈ templateInsertions P) →
      ∀ v, SolverInOrder P tpls s v = Solver P s v := by
    intro tpls ht v
    simp only [SolverInOrder, Solver]
    by_cases hp : IsPayToScriptHash s = true
    · simp only [hp, if_true]
    · simp only [hp, Bool.false_eq_true, if_false]
      exact scanTemplates_order hP s tpls (mTemplates P) ht (mem_mTemplates P)
  refine ⟨?_, horder, horder _ (fun _ => Iff.rfl), ?_⟩
  · intro x hx y hy rx sx ry sy h1 h2
    have e1 : matchT P x.1 s x.2 [] = .ok (.returned rx sx) := by
      rw [← matchFull_template hP hx]
      exact h1
    have e2 : matchT P y.1 s y.2 [] = .ok (.returned ry sy) := by
      rw [← matchFull_template hP hy]
      exact h2
    have e : x = y :=
      (candidate_of_match hP s x hx rx sx e1).trans (candidate_of_match hP s y hy ry sy e2).symm
    exact ⟨e, by rw [e]⟩
  · intro rank v
    simp only [Solver]
    by_cases hp : IsPayToScriptHash s = true
    · simp only [hp, if_true]
    · simp only [hp, Bool.false_eq_true, if_false]
      rw [scanTemplates_withRank]
      exact scanTemplates_order hP s _ _ (mem_mTemplates_withRank P rank) (mem_mTemplates P)

theorem C18_templates_exclusive_witness :
    sampleParams.wellFormed = true ∧
      SolverInOrder sampleParams (templateInsertions sampleParams).reverse
        [0x21, 0x02, 0x4c] [] = Solver sampleParams [0x21, 0x02, 0x4c] [] :=
  ⟨by decide, (C18_templates_exclusive sampleParams (by decide) [0x21, 0x02, 0x4c]).2.1
    (templateInsertions sampleParams).reverse (fun _ => List.mem_reverse) []⟩

/-! ## Claim C14: the destination of an escrow script -/

theorem decodeOps_nil (n : Nat) : decodeOps n [] = [] := by
  cases n <;> simp [decodeOps, GetOp_nil]

theorem decodeOps_fuel : ∀ (fuel1 fuel2 : Nat) (pc : CScript), pc.length ≤ fuel1 →
    pc.length ≤ fuel2 → decodeOps fuel1 pc = decodeOps fuel2 pc := by
  intro fuel1
  induction fuel1 with
  | zero =>
    intro fuel2 pc h1 _
    have hpc : pc = [] := List.length_eq_zero.mp (Nat.le_zero.mp h1)
    rw [hpc, decodeOps_nil, decodeOps_nil]
  | succ f1 ih =>
    intro fuel2 pc h1 h2
    cases fuel2 with
    | zero =>
      have hpc : pc = [] := List.length_eq_zero.mp (Nat.le_zero.mp h2)
      rw [hpc, decodeOps_nil, decodeOps_nil]
    | succ f2 =>
      simp only [decodeOps]
      by_cases hok : (GetOp pc).ok = false
      · simp only [if_pos hok]
      · simp only [if_neg hok]
        have hlt := GetOp_ok_length (Bool.eq_true_of_not_eq_false hok)
        rw [ih f2 _ (by omega) (by omega)]

/-- After a successful `GetOp` the decoding goes on behind what was read. -/
theorem decodeOps_cons {pc : CScript} (hok : (GetOp pc).ok = true) :
    decodeOps pc.length pc =
      ((GetOp pc).opcodeRet, (GetOp pc).vchRet) ::
        decodeOps (GetOp pc).pc.length (GetOp pc).pc := by
  have hlt := GetOp_ok_length hok
  cases hl : pc.length with
  | zero => omega
  | succ n =>
    simp only [decodeOps, hok, Bool.true_eq_false, if_false]
    rw [decodeOps_fuel n _ _ (by omega) (Nat.le_refl _)]

/-- The block `// Found a match` returns true for every type but `TX_MULTISIG`. -/
theorem matchT_end_ret {P : Params} {t : txnouttype} (ht : t ≠ TX_MULTISIG) {pc1 : CScript}
    {sols : List valtype} {ret : Bool} {sols' : List valtype}
    (h : matchT P t pc1 [] sols = .ok (.returned ret sols')) : ret = true := by
  by_cases hpc : pc1 = []
  · subst hpc
    simp [matchT, foundMatch, ht] at h
    exact h.1
  · simp [matchT, hpc] at h

/-- A classification other than `TX_SCRIPTHASH` and `TX_NONSTANDARD` comes from
a match of a template of that type. -/
theorem Solver_template {P : Params} (hP : P.wellFormed = true) {s : CScript}
    {v : List valtype} {ret : Bool} {t : txnouttype} {sols : List valtype}
    (hs : Solver P s v = .ok (ret, t, sols)) (h1 : t ≠ TX_SCRIPTHASH)
    (h2 : t ≠ TX_NONSTANDARD) :
    IsPayToScriptHash s = false ∧ ∃ x ∈ templateInsertions P, x.1 = t ∧
      matchT P x.1 s x.2 [] = .ok (.returned ret sols) := by
  unfold Solver at hs
  by_cases hp : IsPayToScriptHash s = true
  · simp only [hp, if_true, Except.ok.injEq, Prod.mk.injEq] at hs
    exact absurd hs.2.1.symm h1
  · simp only [hp, Bool.false_eq_true, if_false] at hs
    refine ⟨Bool.eq_false_iff.mpr hp, ?_⟩
    rcases scanTemplates_cases P s _ _ _ (mTemplates P) hs with ⟨_, h3, _⟩ | ⟨x, hx, hxt, hm⟩
    · exact absurd h3 h2
    · have hx' := (mem_mTemplates P x).mp hx
      rw [matchFull_template hP hx'] at hm
      exact ⟨x, hx', hxt, hm⟩

theorem templates_escrow (P : Params) :
    ∀ x ∈ templateInsertions P,
      (x.1 = TX_ESCROW → x.2 =
        [OP_IF, OP_PUBKEYHASH, OP_DUP, OP_PUBKEY, OP_PUBKEY, P.OP_CHECKDATASIG, OP_VERIFY,
          OP_SWAP, OP_HASH160, OP_EQUAL, OP_VERIFY, OP_PUBKEYHASH, OP_TOALTSTACK, OP_DUP,
          OP_HASH160, OP_PUBKEYHASH, OP_EQUALVERIFY, OP_CHECKSIG, OP_ELSE, P.OP_NUMERIC,
          P.OP_CHECKEXPIRY, OP_ENDIF]) ∧
      (x.1 = TX_ESCROW_SENDER → x.2 =
        [OP_IF, OP_IF, OP_PUBKEYHASH, OP_DUP, OP_PUBKEY, OP_PUBKEY, P.OP_CHECKDATASIG,
          OP_VERIFY, OP_SWAP, OP_HASH160, OP_EQUAL, OP_VERIFY, P.OP_CHECKTRANSFERNONCE,
          OP_ELSE, OP_PUBKEYHASH, OP_TOALTSTACK, OP_DUP, OP_HASH160, OP_PUBKEYHASH,
          OP_EQUALVERIFY, OP_CHECKSIG, OP_ENDIF, OP_ELSE, P.OP_NUMERIC, P.OP_CHECKEXPIRY,
          OP_ENDIF]) ∧
      (x.1 = TX_ESCROW_FEE → x.2 =
        [OP_IF, OP_PUBKEYHASH, OP_TOALTSTACK, OP_DUP, OP_HASH160, OP_PUBKEYHASH,
          OP_EQUALVERIFY, OP_CHECKSIG, OP_ELSE, P.OP_NUMERIC, P.OP_CHECKEXPIRY, OP_ENDIF]) := by
  rw [forall_templateInsertions]
  simp

/-- A script that matches the template of `TX_ESCROW`, opcode by opcode: the
literals of the template with the data of its slots between them. -/
theorem matchT_escrow {P : Params} (hP : P.wellFormed = true) {s : CScript} {ret : Bool}
    {sols : List valtype}
    (h : matchT P TX_ESCROW s
      [OP_IF, OP_PUBKEYHASH, OP_DUP, OP_PUBKEY, OP_PUBKEY, P.OP_CHECKDATASIG, OP_VERIFY,
        OP_SWAP, OP_HASH160, OP_EQUAL, OP_VERIFY, OP_PUBKEYHASH, OP_TOALTSTACK, OP_DUP,
        OP_HASH160, OP_PUBKEYHASH, OP_EQUALVERIFY, OP_CHECKSIG, OP_ELSE, P.OP_NUMERIC,
        P.OP_CHECKEXPIRY, OP_ENDIF] [] = .ok (.returned ret sols)) :
    ∃ o0 h0 o1 k1 o2 k2 o3 h3 o4 h4 o5 d5,
      decodeOps s.length s =
        [(OP_IF, []), (o0, h0), (OP_DUP, []), (o1, k1), (o2, k2), (P.OP_CHECKDATASIG, []),
          (OP_VERIFY, []), (OP_SWAP, []), (OP_HASH160, []), (OP_EQUAL, []), (OP_VERIFY, []),
          (o3, h3), (OP_TOALTSTACK, []), (OP_DUP, []), (OP_HASH160, []), (o4, h4),
          (OP_EQUALVERIFY, []), (OP_CHECKSIG, []), (OP_ELSE, []), (o5, d5),
          (P.OP_CHECKEXPIRY, []), (OP_ENDIF, [])] ∧
      h0.length = 20 ∧ (33 ≤ k1.length ∧ k1.length ≤ 65) ∧ (33 ≤ k2.length ∧ k2.length ≤ 65) ∧
        h3.length = 20 ∧ h4.length = 20 ∧ d5.length ≤ 4 ∧
      sols = [h0, k1, k2, h3, h4, d5] ∧ ret = true := by
  obtain ⟨_, ⟨q1, q2, q3, q4, q5, q6, q7⟩⟩ := wf_own hP
  obtain ⟨ok1, s1, c1, m1⟩ := matchT_head (by decide) h
  obtain ⟨e1, v1, rfl⟩ := slot_literal hP (by simp [ownLiterals, sharedLiterals]) c1
  obtain ⟨ok2, s2, c2, m2⟩ := matchT_head (by decide) m1
  obtain ⟨l2, rfl⟩ := slot_PUBKEYHASH c2
  obtain ⟨ok3, s3, c3, m3⟩ := matchT_head (by decide) m2
  obtain ⟨e3, v3, rfl⟩ := slot_literal hP (by simp [ownLiterals, sharedLiterals]) c3
  obtain ⟨ok4, s4, c4, m4⟩ := matchT_head (by decide) m3
  obtain ⟨l4, rfl⟩ := slot_PUBKEY c4
  obtain ⟨ok5, s5, c5, m5⟩ := matchT_head (by decide) m4
  obtain ⟨l5, rfl⟩ := slot_PUBKEY c5
  obtain ⟨ok6, s6, c6, m6⟩ := matchT_head q2 m5
  obtain ⟨e6, v6, rfl⟩ := slot_literal hP (by simp [ownLiterals, sharedLiterals]) c6
  obtain ⟨ok7, s7, c7, m7⟩ := matchT_head (by decide) m6
  obtain ⟨e7, v7, rfl⟩ := slot_literal hP (by simp [ownLiterals, sharedLiterals]) c7
  obtain ⟨ok8, s8, c8, m8⟩ := matchT_head (by decide) m7
  obtain ⟨e8, v8, rfl⟩ := slot_literal hP (by simp [ownLiterals, sharedLiterals]) c8
  obtain ⟨ok9, s9, c9, m9⟩ := matchT_head (by decide) m8
  obtain ⟨e9, v9, rfl⟩ := slot_literal hP (by simp [ownLiterals, sharedLiterals]) c9
  obtain ⟨ok10, s10, c10, m10⟩ := matchT_head (by decide) m9
  obtain ⟨e10, v10, rfl⟩ := slot_literal hP (by simp [ownLiterals, sharedLiterals]) c10
  obtain ⟨ok11, s11, c11, m11⟩ := matchT_head (by decide) m10
  obtain ⟨e11, v11, rfl⟩ := slot_literal hP (by simp [ownLiterals, sharedLiterals]) c11
  obtain ⟨ok12, s12, c12, m12⟩ := matchT_head (by decide) m11
  obtain ⟨l12, rfl⟩ := slot_PUBKEYHASH c12
  obtain ⟨ok13, s13, c13, m13⟩ := matchT_head (by decide) m12
  obtain ⟨e13, v13, rfl⟩ := slot_literal hP (by simp [ownLiterals, sharedLiterals]) c13
  obtain ⟨ok14, s14, c14, m14⟩ := matchT_head (by decide) m13
  obtain ⟨e14, v14, rfl⟩ := slot_literal hP (by simp [ownLiterals, sharedLiterals]) c14
  obtain ⟨ok15, s15, c15, m15⟩ := matchT_head (by decide) m14
  obtain ⟨e15, v15, rfl⟩ := slot_literal hP (by simp [ownLiterals, sharedLiterals]) c15
  obtain ⟨ok16, s16, c16, m16⟩ := matchT_head (by decide) m15
  obtain ⟨l16, rfl⟩ := slot_PUBKEYHASH c16
  obtain ⟨ok17, s17, c17, m17⟩ := matchT_head (by decide) m16
  obtain ⟨e17, v17, rfl⟩ := slot_literal hP (by simp [ownLiterals, sharedLiterals]) c17
  obtain ⟨ok18, s18, c18, m18⟩ := matchT_head (by decide) m17
  obtain ⟨e18, v18, rfl⟩ := slot_literal hP (by simp [ownLiterals, sharedLiterals]) c18
  obtain ⟨ok19, s19, c19, m19⟩ := matchT_head (by decide) m18
  obtain ⟨e19, v19, rfl⟩ := slot_literal hP (by simp [ownLiterals, sharedLiterals]) c19
  obtain ⟨ok20, s20, c20, m20⟩ := matchT_head q6 m19
  obtain ⟨l20, rfl⟩ := slot_NUMERIC hP c20
  obtain ⟨ok21, s21, c21, m21⟩ := matchT_head q4 m20
  obtain ⟨e21, v21, rfl⟩ := slot_literal hP (by simp [ownLiterals, sharedLiterals]) c21
  obtain ⟨ok22, s22, c22, m22⟩ := matchT_head (by decide) m21
  obtain ⟨e22, v22, rfl⟩ := slot_literal hP (by simp [ownLiterals, sharedLiterals]) c22
  obtain ⟨hend, hsols⟩ := matchT_end m22
  have hret := matchT_end_ret (by decide) m22
  rw [decodeOps_cons ok1, decodeOps_cons ok2, decodeOps_cons ok3, decodeOps_cons ok4,
      decodeOps_cons ok5, decodeOps_cons ok6, decodeOps_cons ok7, decodeOps_cons ok8,
      decodeOps_cons ok9, decodeOps_cons ok10, decodeOps_cons ok11, decodeOps_cons ok12,
      decodeOps_cons ok13, decodeOps_cons ok14, decodeOps_cons ok15, decodeOps_cons ok16,
      decodeOps_cons ok17, decodeOps_cons ok18, decodeOps_cons ok19, decodeOps_cons ok20,
      decodeOps_cons ok21, decodeOps_cons ok22,
      hend, decodeOps_nil]
  simp only [e1, v1, e3, v3, e6, v6, e7, v7, e8, v8, e9, v9, e10, v10, e11, v11, e13, v13, e14, v14,
      e15, v15, e17, v17, e18, v18, e19, v19, e21, v21, e22, v22]
  exact ⟨_, _, _, _, _, _, _, _, _, _, _, _, rfl, l2, l4, l5, l12, l16, l20, by simpa using hsols, hret⟩

/-- A script that matches the template of `TX_ESCROW_SENDER`, opcode by opcode: the
literals of the template with the data of its slots between them. -/
theorem matchT_escrow_sender {P : Params} (hP : P.wellFormed = true) {s : CScript} {ret : Bool}
    {sols : List valtype}
    (h : matchT P TX_ESCROW_SENDER s
      [OP_IF, OP_IF, OP_PUBKEYHASH, OP_DUP, OP_PUBKEY, OP_PUBKEY, P.OP_CHECKDATASIG,
        OP_VERIFY, OP_SWAP, OP_HASH160, OP_EQUAL, OP_VERIFY, P.OP_CHECKTRANSFERNONCE, OP_ELSE,
        OP_PUBKEYHASH, OP_TOALTSTACK, OP_DUP, OP_HASH160, OP_PUBKEYHASH, OP_EQUALVERIFY,
        OP_CHECKSIG, OP_ENDIF, OP_ELSE, P.OP_NUMERIC, P.OP_CHECKEXPIRY, OP_ENDIF] [] = .ok (.returned ret sols)) :
    ∃ o0 h0 o1 k1 o2 k2 o3 h3 o4 h4 o5 d5,
      decodeOps s.length s =
        [(OP_IF, []), (OP_IF, []), (o0, h0), (OP_DUP, []), (o1, k1), (o2, k2),
          (P.OP_CHECKDATASIG, []), (OP_VERIFY, []), (OP_SWAP, []), (OP_HASH160, []),
          (OP_EQUAL, []), (OP_VERIFY, []), (P.OP_CHECKTRANSFERNONCE, []), (OP_ELSE, []),
          (o3, h3), (OP_TOALTSTACK, []), (OP_DUP, []), (OP_HASH160, []), (o4, h4),
          (OP_EQUALVERIFY, []), (OP_CHECKSIG, []), (OP_ENDIF, []), (OP_ELSE, []), (o5, d5),
          (P.OP_CHECKEXPIRY, []), (OP_ENDIF, [])] ∧
      h0.length = 20 ∧ (33 ≤ k1.length ∧ k1.length ≤ 65) ∧ (33 ≤ k2.length ∧ k2.length ≤ 65) ∧
        h3.length = 20 ∧ h4.length = 20 ∧ d5.length ≤ 4 ∧
      sols = [h0, k1, k2, h3, h4, d5] ∧ ret = true := by
  obtain ⟨_, ⟨q1, q2, q3, q4, q5, q6, q7⟩⟩ := wf_own hP
  obtain ⟨ok1, s1, c1, m1⟩ := matchT_head (by decide) h
  obtain ⟨e1, v1, rfl⟩ := slot_literal hP (by simp [ownLiterals, sharedLiterals]) c1
  obtain ⟨ok2, s2, c2, m2⟩ := matchT_head (by decide) m1
  obtain ⟨e2, v2, rfl⟩ := slot_literal hP (by simp [ownLiterals, sharedLiterals]) c2
  obtain ⟨ok3, s3, c3, m3⟩ := matchT_head (by decide) m2
  obtain ⟨l3, rfl⟩ := slot_PUBKEYHASH c3
  obtain ⟨ok4, s4, c4, m4⟩ := matchT_head (by decide) m3
  obtain ⟨e4, v4, rfl⟩ := slot_literal hP (by simp [ownLiterals, sharedLiterals]) c4
  obtain ⟨ok5, s5, c5, m5⟩ := matchT_head (by decide) m4
  obtain ⟨l5, rfl⟩ := slot_PUBKEY c5
  obtain ⟨ok6, s6, c6, m6⟩ := matchT_head (by decide) m5
  obtain ⟨l6, rfl⟩ := slot_PUBKEY c6
  obtain ⟨ok7, s7, c7, m7⟩ := matchT_head q2 m6
  obtain ⟨e7, v7, rfl⟩ := slot_literal hP (by simp [ownLiterals, sharedLiterals]) c7
  obtain ⟨ok8, s8, c8, m8⟩ := matchT_head (by decide) m7
  obtain ⟨e8, v8, rfl⟩ := slot_literal hP (by simp [ownLiterals, sharedLiterals]) c8
  obtain ⟨ok9, s9, c9, m9⟩ := matchT_head (by decide) m8
  obtain ⟨e9, v9, rfl⟩ := slot_literal hP (by simp [ownLiterals, sharedLiterals]) c9
  obtain ⟨ok10, s10, c10, m10⟩ := matchT_head (by decide) m9
  obtain ⟨e10, v10, rfl⟩ := slot_literal hP (by simp [ownLiterals, sharedLiterals]) c10
  obtain ⟨ok11, s11, c11, m11⟩ := matchT_head (by decide) m10
  obtain ⟨e11, v11, rfl⟩ := slot_literal hP (by simp [ownLiterals, sharedLiterals]) c11
  obtain ⟨ok12, s12, c12, m12⟩ := matchT_head (by decide) m11
  obtain ⟨e12, v12, rfl⟩ := slot_literal hP (by simp [ownLiterals, sharedLiterals]) c12
  obtain ⟨ok13, s13, c13, m13⟩ := matchT_head q3 m12
  obtain ⟨e13, v13, rfl⟩ := slot_literal hP (by simp [ownLiterals, sharedLiterals]) c13
  obtain ⟨ok14, s14, c14, m14⟩ := matchT_head (by decide) m13
  obtain ⟨e14, v14, rfl⟩ := slot_literal hP (by simp [ownLiterals, sharedLiterals]) c14
  obtain ⟨ok15, s15, c15, m15⟩ := matchT_head (by decide) m14
  obtain ⟨l15, rfl⟩ := slot_PUBKEYHASH c15
  obtain ⟨ok16, s16, c16, m16⟩ := matchT_head (by decide) m15
  obtain ⟨e16, v16, rfl⟩ := slot_literal hP (by simp [ownLiterals, sharedLiterals]) c16
  obtain ⟨ok17, s17, c17, m17⟩ := matchT_head (by decide) m16
  obtain ⟨e17, v17, rfl⟩ := slot_literal hP (by simp [ownLiterals, sharedLiterals]) c17
  obtain ⟨ok18, s18, c18, m18⟩ := matchT_head (by decide) m17
  obtain ⟨e18, v18, rfl⟩ := slot_literal hP (by simp [ownLiterals, sharedLiterals]) c18
  obtain ⟨ok19, s19, c19, m19⟩ := matchT_head (by decide) m18
  obtain ⟨l19, rfl⟩ := slot_PUBKEYHASH c19
  obtain ⟨ok20, s20, c20, m20⟩ := matchT_head (by decide) m19
  obtain ⟨e20, v20, rfl⟩ := slot_literal hP (by simp [ownLiterals, sharedLiterals]) c20
  obtain ⟨ok21, s21, c21, m21⟩ := matchT_head (by decide) m20
  obtain ⟨e21, v21, rfl⟩ := slot_literal hP (by simp [ownLiterals, sharedLiterals]) c21
  obtain ⟨ok22, s22, c22, m22⟩ := matchT_head (by decide) m21
  obtain ⟨e22, v22, rfl⟩ := slot_literal hP (by simp [ownLiterals, sharedLiterals]) c22
  obtain ⟨ok23, s23, c23, m23⟩ := matchT_head (by decide) m22
  obtain ⟨e23, v23, rfl⟩ := slot_literal hP (by simp [ownLiterals, sharedLiterals]) c23
  obtain ⟨ok24, s24, c24, m24⟩ := matchT_head q6 m23
  obtain ⟨l24, rfl⟩ := slot_NUMERIC hP c24
  obtain ⟨ok25, s25, c25, m25⟩ := matchT_head q4 m24
  obtain ⟨e25, v25, rfl⟩ := slot_literal hP (by simp [ownLiterals, sharedLiterals]) c25
  obtain ⟨ok26, s26, c26, m26⟩ := matchT_head (by decide) m25
  obtain ⟨e26, v26, rfl⟩ := slot_literal hP (by simp [ownLiterals, sharedLiterals]) c26
  obtain ⟨hend, hsols⟩ := matchT_end m26
  have hret := matchT_end_ret (by decide) m26
  rw [decodeOps_cons ok1, decodeOps_cons ok2, decodeOps_cons ok3, decodeOps_cons ok4,
      decodeOps_cons ok5, decodeOps_cons ok6, decodeOps_cons ok7, decodeOps_cons ok8,
      decodeOps_cons ok9, decodeOps_cons ok10, decodeOps_cons ok11, decodeOps_cons ok12,
      decodeOps_cons ok13, decodeOps_cons ok14, decodeOps_cons ok15, decodeOps_cons ok16,
      decodeOps_cons ok17, decodeOps_cons ok18, decodeOps_cons ok19, decodeOps_cons ok20,
      decodeOps_cons ok21, decodeOps_cons ok22, decodeOps_cons ok23, decodeOps_cons ok24,
      decodeOps_cons ok25, decodeOps_cons ok26,
      hend, decodeOps_nil]
  simp only [e1, v1, e2, v2, e4, v4, e7, v7, e8, v8, e9, v9, e10, v10, e11, v11, e12, v12, e13, v13,
      e14, v14, e16, v16, e17, v17, e18, v18, e20, v20, e21, v21, e22, v22, e23, v23, e25, v25,
      e26, v26]
  exact ⟨_, _, _, _, _, _, _, _, _, _, _, _, rfl, l3, l5, l6, l15, l19, l24, by simpa using hsols, hret⟩

/-- A script that matches the template of `TX_ESCROW_FEE`, opcode by opcode: the
literals of the template with the data of its slots between them. -/
theorem matchT_escrow_fee {P : Params} (hP : P.wellFormed = true) {s : CScript} {ret : Bool}
    {sols : List valtype}
    (h : matchT P TX_ESCROW_FEE s
      [OP_IF, OP_PUBKEYHASH, OP_TOALTSTACK, OP_DUP, OP_HASH160, OP_PUBKEYHASH, OP_EQUALVERIFY,
        OP_CHECKSIG, OP_ELSE, P.OP_NUMERIC, P.OP_CHECKEXPIRY, OP_ENDIF] [] = .ok (.returned ret sols)) :
    ∃ o0 h0 o1 h1 o2 d2,
      decodeOps s.length s =
        [(OP_IF, []), (o0, h0), (OP_TOALTSTACK, []), (OP_DUP, []), (OP_HASH160, []), (o1, h1),
          (OP_EQUALVERIFY, []), (OP_CHECKSIG, []), (OP_ELSE, []), (o2, d2),
          (P.OP_CHECKEXPIRY, []), (OP_ENDIF, [])] ∧
      h0.length = 20 ∧ h1.length = 20 ∧ d2.length ≤ 4 ∧
      sols = [h0, h1, d2] ∧ ret = true := by
  obtain ⟨_, ⟨q1, q2, q3, q4, q5, q6, q7⟩⟩ := wf_own hP
  obtain ⟨ok1, s1, c1, m1⟩ := matchT_head (by decide) h
  obtain ⟨e1, v1, rfl⟩ := slot_literal hP (by simp [ownLiterals, sharedLiterals]) c1
  obtain ⟨ok2, s2, c2, m2⟩ := matchT_head (by decide) m1
  obtain ⟨l2, rfl⟩ := slot_PUBKEYHASH c2
  obtain ⟨ok3, s3, c3, m3⟩ := matchT_head (by decide) m2
  obtain ⟨e3, v3, rfl⟩ := slot_literal hP (by simp [ownLiterals, sharedLiterals]) c3
  obtain ⟨ok4, s4, c4, m4⟩ := matchT_head (by decide) m3
  obtain ⟨e4, v4, rfl⟩ := slot_literal hP (by simp [ownLiterals, sharedLiterals]) c4
  obtain ⟨ok5, s5, c5, m5⟩ := matchT_head (by decide) m4
  obtain ⟨e5, v5, rfl⟩ := slot_literal hP (by simp [ownLiterals, sharedLiterals]) c5
  obtain ⟨ok6, s6, c6, m6⟩ := matchT_head (by decide) m5
  obtain ⟨l6, rfl⟩ := slot_PUBKEYHASH c6
  obtain ⟨ok7, s7, c7, m7⟩ := matchT_head (by decide) m6
  obtain ⟨e7, v7, rfl⟩ := slot_literal hP (by simp [ownLiterals, sharedLiterals]) c7
  obtain ⟨ok8, s8, c8, m8⟩ := matchT_head (by decide) m7
  obtain ⟨e8, v8, rfl⟩ := slot_literal hP (by simp [ownLiterals, sharedLiterals]) c8
  obtain ⟨ok9, s9, c9, m9⟩ := matchT_head (by decide) m8
  obtain ⟨e9, v9, rfl⟩ := slot_literal hP (by simp [ownLiterals, sharedLiterals]) c9
  obtain ⟨ok10, s10, c10, m10⟩ := matchT_head q6 m9
  obtain ⟨l10, rfl⟩ := slot_NUMERIC hP c10
  obtain ⟨ok11, s11, c11, m11⟩ := matchT_head q4 m10
  obtain ⟨e11, v11, rfl⟩ := slot_literal hP (by simp [ownLiterals, sharedLiterals]) c11
  obtain ⟨ok12, s12, c12, m12⟩ := matchT_head (by decide) m11
  obtain ⟨e12, v12, rfl⟩ := slot_literal hP (by simp [ownLiterals, sharedLiterals]) c12
  obtain ⟨hend, hsols⟩ := matchT_end m12
  have hret := matchT_end_ret (by decide) m12
  rw [decodeOps_cons ok1, decodeOps_cons ok2, decodeOps_cons ok3, decodeOps_cons ok4,
      decodeOps_cons ok5, decodeOps_cons ok6, decodeOps_cons ok7, decodeOps_cons ok8,
      decodeOps_cons ok9, decodeOps_cons ok10, decodeOps_cons ok11, decodeOps_cons ok12,
      hend, decodeOps_nil]
  simp only [e1, v1, e3, v3, e4, v4, e5, v5, e7, v7, e8, v8, e9, v9, e11, v11, e12, v12]
  exact ⟨_, _, _, _, _, _, rfl, l2, l6, l10, by simpa using hsols, hret⟩

/-- Where a list is a part of another list, its entries are entries of that
list. -/
theorem leg_window {α : Type} {U pre L post : List α} (h : U = pre ++ L ++ post) :
    pre.length + L.length ≤ U.length ∧
      ∀ i, i < L.length → U[pre.length + i]? = L[i]? := by
  subst h
  refine ⟨by simp, fun i hi => ?_⟩
  rw [List.getElem?_append_left (by simp; omega), List.getElem?_append_right (by omega)]
  simp

/-- C14. For every script that `Solver` classifies as `TX_ESCROW`,
`TX_ESCROW_SENDER` or `TX_ESCROW_FEE`, the opcodes of the script hold the leg
`DUP HASH160 <h> EQUALVERIFY CHECKSIG` with a push `h` of 20 bytes, and no such
leg with other data; `h` is the solution at index 4 for `TX_ESCROW` and
`TX_ESCROW_SENDER` and at index 1 for `TX_ESCROW_FEE`, and `ExtractDestination`
returns true with the key hash `h`. -/
theorem C14_escrow_destination (P : Params) (hP : P.wellFormed = true) (s : CScript)
    (ret : Bool) (t : txnouttype) (sols : List valtype) (addressRet : CTxDestination)
    (hs : Solver P s [] = .ok (ret, t, sols))
    (ht : t = TX_ESCROW ∨ t = TX_ESCROW_SENDER ∨ t = TX_ESCROW_FEE) :
    ∃ pre o h post,
      decodeOps s.length s = pre ++
        [(OP_DUP, []), (OP_HASH160, []), (o, h), (OP_EQUALVERIFY, []), (OP_CHECKSIG, [])] ++
        post ∧
      (∀ pre2 o2 h2 post2, decodeOps s.length s = pre2 ++
        [(OP_DUP, []), (OP_HASH160, []), (o2, h2), (OP_EQUALVERIFY, []), (OP_CHECKSIG, [])] ++
        post2 → h2 = h) ∧
      h.length = 20 ∧
      sols[if t = TX_ESCROW_FEE then 1 else 4]? = some h ∧
      ExtractDestination P s addressRet = .ok (true, .CKeyID h) := by
  have hnd := wf_nodup hP
  have ne1 : P.OP_CHECKDATASIG ≠ OP_DUP := nodup_ne hnd (i := 9) (j := 15) rfl rfl (by decide)
  have ne2 : P.OP_CHECKTRANSFERNONCE ≠ OP_DUP :=
    nodup_ne hnd (i := 10) (j := 15) rfl rfl (by decide)
  have ne3 : P.OP_CHECKEXPIRY ≠ OP_DUP := nodup_ne hnd (i := 11) (j := 15) rfl rfl (by decide)
  have ne4 : P.OP_CHECKEXPIRY ≠ OP_HASH160 :=
    nodup_ne hnd (i := 11) (j := 13) rfl rfl (by decide)
  rcases ht with rfl | rfl | rfl
  · obtain ⟨_, x, hx, hxt, hm⟩ := Solver_template hP hs (by decide) (by decide)
    rw [hxt, (templates_escrow P x hx).1 hxt] at hm
    obtain ⟨o0, h0, o1, k1, o2, k2, o3, h3, o4, h4, o5, d5, hU, l0, l1, l2, l3, l4, l5, hsols, hret⟩ :=
      matchT_escrow hP hm
    subst hsols hret
    refine ⟨[(OP_IF, []), (o0, h0), (OP_DUP, []), (o1, k1), (o2, k2), (P.OP_CHECKDATASIG, []),
        (OP_VERIFY, []), (OP_SWAP, []), (OP_HASH160, []), (OP_EQUAL, []), (OP_VERIFY, []),
        (o3, h3), (OP_TOALTSTACK, [])],
      o4, h4,
      [(OP_ELSE, []), (o5, d5), (P.OP_CHECKEXPIRY, []), (OP_ENDIF, [])], ?_, ?_, l4, ?_, ?_⟩
    · rw [hU]
      rfl
    · intro pre2 o' h' post2 hU2
      rw [hU] at hU2
      obtain ⟨hlen, hw⟩ := leg_window hU2
      have b0 := hw 0 (by simp)
      have b1 := hw 1 (by simp)
      have b2 := hw 2 (by simp)
      simp only [List.length_cons, List.length_nil] at hlen
      clear hU2 hw hU hs hm
      generalize pre2.length = n at hlen b0 b1 b2
      have hn : n ≤ 17 := by omega
      clear hlen
      interval_cases n <;> simp +decide [ne1, ne2, ne3, ne4] at b0 b1 b2 <;>
        first
        | exact b2.2.symm
        | (exfalso; simp_all)
    · simp
    · simp [ExtractDestination, hs, keyIDAt, vecAt, toUint160, l4]
  · obtain ⟨_, x, hx, hxt, hm⟩ := Solver_template hP hs (by decide) (by decide)
    rw [hxt, (templates_escrow P x hx).2.1 hxt] at hm
    obtain ⟨o0, h0, o1, k1, o2, k2, o3, h3, o4, h4, o5, d5, hU, l0, l1, l2, l3, l4, l5, hsols, hret⟩ :=
      matchT_escrow_sender hP hm
    subst hsols hret
    refine ⟨[(OP_IF, []), (OP_IF, []), (o0, h0), (OP_DUP, []), (o1, k1), (o2, k2),
        (P.OP_CHECKDATASIG, []), (OP_VERIFY, []), (OP_SWAP, []), (OP_HASH160, []),
        (OP_EQUAL, []), (OP_VERIFY, []), (P.OP_CHECKTRANSFERNONCE, []), (OP_ELSE, []),
        (o3, h3), (OP_TOALTSTACK, [])],
      o4, h4,
      [(OP_ENDIF, []), (OP_ELSE, []), (o5, d5), (P.OP_CHECKEXPIRY, []), (OP_ENDIF, [])], ?_, ?_, l4, ?_, ?_⟩
    · rw [hU]
      rfl
    · intro pre2 o' h' post2 hU2
      rw [hU] at hU2
      obtain ⟨hlen, hw⟩ := leg_window hU2
      have b0 := hw 0 (by simp)
      have b1 := hw 1 (by simp)
      have b2 := hw 2 (by simp)
      simp only [List.length_cons, List.length_nil] at hlen
      clear hU2 hw hU hs hm
      generalize pre2.length = n at hlen b0 b1 b2
      have hn : n ≤ 21 := by omega
      clear hlen
      interval_cases n <;> simp +decide [ne1, ne2, ne3, ne4] at b0 b1 b2 <;>
        first
        | exact b2.2.symm
        | (exfalso; simp_all)
    · simp
    · simp [ExtractDestination, hs, keyIDAt, vecAt, toUint160, l4]
  · obtain ⟨_, x, hx, hxt, hm⟩ := Solver_template hP hs (by decide) (by decide)
    rw [hxt, (templates_escrow P x hx).2.2 hxt] at hm
    obtain ⟨o0, h0, o1, h1, o2, d2, hU, l0, l1, l2, hsols, hret⟩ :=
      matchT_escrow_fee hP hm
    subst hsols hret
    refine ⟨[(OP_IF, []), (o0, h0), (OP_TOALTSTACK, [])],
      o1, h1,
      [(OP_ELSE, []), (o2, d2), (P.OP_CHECKEXPIRY, []), (OP_ENDIF, [])], ?_, ?_, l1, ?_, ?_⟩
    · rw [hU]
      rfl
    · intro pre2 o' h' post2 hU2
      rw [hU] at hU2
      obtain ⟨hlen, hw⟩ := leg_window hU2
      have b0 := hw 0 (by simp)
      have b1 := hw 1 (by simp)
      have b2 := hw 2 (by simp)
      simp only [List.length_cons, List.length_nil] at hlen
      clear hU2 hw hU hs hm
      generalize pre2.length = n at hlen b0 b1 b2
      have hn : n ≤ 7 := by omega
      clear hlen
      interval_cases n <;> simp +decide [ne1, ne2, ne3, ne4] at b0 b1 b2
      exact b2.2.symm
    · simp
    · simp [ExtractDestination, hs, keyIDAt, vecAt, toUint160, l1]

theorem C14_escrow_destination_witness :
    sampleParams.wellFormed = true ∧
      Solver sampleParams
        (0x63 :: 20 :: (sampleHash 1 ++ 0x6b :: 0x76 :: 0xa9 :: 20 ::
          (sampleHash 7 ++ [0x88, 0xac, 0x67, 0x01, 0x05, 0xbc, 0x68]))) [] =
        .ok (true, TX_ESCROW_FEE, [sampleHash 1, sampleHash 7, [5]]) ∧
      ExtractDestination sampleParams
        (0x63 :: 20 :: (sampleHash 1 ++ 0x6b :: 0x76 :: 0xa9 :: 20 ::
          (sampleHash 7 ++ [0x88, 0xac, 0x67, 0x01, 0x05, 0xbc, 0x68]))) .CNoDestination =
        .ok (true, .CKeyID (sampleHash 7)) := by
  have hs : Solver sampleParams
      (0x63 :: 20 :: (sampleHash 1 ++ 0x6b :: 0x76 :: 0xa9 :: 20 ::
        (sampleHash 7 ++ [0x88, 0xac, 0x67, 0x01, 0x05, 0xbc, 0x68]))) [] =
      .ok (true, TX_ESCROW_FEE, [sampleHash 1, sampleHash 7, [5]]) := rfl
  refine ⟨by decide, hs, ?_⟩
  obtain ⟨_, _, h, _, _, _, _, hidx, hext⟩ := C14_escrow_destination sampleParams (by decide)
    _ true TX_ESCROW_FEE [sampleHash 1, sampleHash 7, [5]] .CNoDestination hs
    (Or.inr (Or.inr rfl))
  have hh : h = sampleHash 7 := by
    simp at hidx
    exact hidx.symm
  rw [hext, hh]

/-! ## Claim C8, continued: the embedded keys in the decoded script -/

/-- What `GetOp` reads behind a small-integer opcode is empty. -/
theorem smallint_no_data {pc : CScript} (hok : (GetOp pc).ok = true)
    (h : (GetOp pc).opcodeRet = OP_0 ∨
      (OP_1 ≤ (GetOp pc).opcodeRet ∧ (GetOp pc).opcodeRet ≤ OP_16)) :
    (GetOp pc).vchRet = [] := by
  obtain ⟨_, f1, f2⟩ := GetOp_ok_facts hok
  simp only [OP_0, OP_1, OP_16, OP_PUSHDATA1, OP_PUSHDATA4] at h f1 f2
  rcases h with h | h
  · have := f2 (by omega)
    exact List.length_eq_zero.mp (by omega)
  · exact f1 (by omega)

/-- The loop of the `OP_PUBKEYS` slot, told on the decoded script: the keys
that it appends are the data of the pushes that it passes, in their order, and
it stops in front of the first opcode whose data is no key, unless `GetOp`
failed. -/
theorem pubkeysFull_decode : ∀ (n : Nat) (pc1 : CScript) (opcode1 : Nat) (vch1 : valtype)
    (sols : List valtype), pc1.length ≤ n →
    (∃ q, (GetOp q).ok = true ∧ (GetOp q).opcodeRet = opcode1 ∧ (GetOp q).vchRet = vch1) →
    ∃ pc' op' vch' units,
      pubkeysFull pc1 opcode1 vch1 sols = .ok (pc', op', vch', sols ++ units.map Prod.snd) ∧
      (∀ u ∈ units, 33 ≤ u.2.length ∧ u.2.length ≤ 65) ∧
      (op' = OP_INVALIDOPCODE ∨
        ((opcode1, vch1) :: decodeOps pc1.length pc1 =
            units ++ (op', vch') :: decodeOps pc'.length pc' ∧
          ∃ q, (GetOp q).ok = true ∧ (GetOp q).opcodeRet = op' ∧ (GetOp q).vchRet = vch')) := by
  intro n
  induction n with
  | zero =>
    intro pc1 opcode1 vch1 sols hn hq
    rw [pubkeysFull_eq]
    by_cases hc : 33 ≤ vch1.length ∧ vch1.length ≤ 65
    · rw [if_pos hc]
      by_cases hok : (GetOp pc1).ok = false
      · rw [if_pos hok]
        obtain ⟨h1, h2⟩ := GetOp_fail hok
        exact ⟨_, _, _, [(opcode1, vch1)], rfl, by simpa using hc, Or.inl h1⟩
      · have := GetOp_ok_length (Bool.eq_true_of_not_eq_false hok)
        omega
    · rw [if_neg hc]
      exact ⟨_, _, _, [], by simp, by simp, Or.inr ⟨rfl, hq⟩⟩
  | succ n ih =>
    intro pc1 opcode1 vch1 sols hn hq
    rw [pubkeysFull_eq]
    by_cases hc : 33 ≤ vch1.length ∧ vch1.length ≤ 65
    · rw [if_pos hc]
      by_cases hok : (GetOp pc1).ok = false
      · rw [if_pos hok]
        obtain ⟨h1, h2⟩ := GetOp_fail hok
        exact ⟨_, _, _, [(opcode1, vch1)], rfl, by simpa using hc, Or.inl h1⟩
      · rw [if_neg hok]
        have hok' := Bool.eq_true_of_not_eq_false hok
        have hlt := GetOp_ok_length hok'
        obtain ⟨pc', op', vch', units, hr, hk, hd⟩ :=
          ih (GetOp pc1).pc (GetOp pc1).opcodeRet (GetOp pc1).vchRet (sols ++ [vch1]) (by omega)
            ⟨pc1, hok', rfl, rfl⟩
        refine ⟨pc', op', vch', (opcode1, vch1) :: units, ?_, ?_, ?_⟩
        · rw [hr]; simp
        · intro u hum
          rcases List.mem_cons.mp hum with rfl | hu'
          · exact hc
          · exact hk u hu'
        · rcases hd with hd | ⟨hd, hq'⟩
          · exact Or.inl hd
          · refine Or.inr ⟨?_, hq'⟩
            rw [decodeOps_cons hok', hd]
            rfl
    · rw [if_neg hc]
      exact ⟨_, _, _, [], by simp, by simp, Or.inr ⟨rfl, hq⟩⟩

/-- A script that matches the template of `TX_MULTISIG`, opcode by opcode: a
small-integer opcode, pushes of 33 to 65 bytes, a small-integer opcode and
`OP_CHECKMULTISIG`; the solutions are the first number, the data of the pushes
in their order, and the second number. -/
theorem matchT_multisig_decode {P : Params} (hP : P.wellFormed = true) {s : CScript}
    {ret : Bool} {sols : List valtype}
    (h : matchT P TX_MULTISIG s
      [OP_SMALLINTEGER, OP_PUBKEYS, OP_SMALLINTEGER, OP_CHECKMULTISIG] [] =
      .ok (.returned ret sols)) :
    ∃ (om : Nat) (pushes : List (Nat × valtype)) (oN : Nat),
      decodeOps s.length s = (om, []) :: (pushes ++ [(oN, []), (OP_CHECKMULTISIG, [])]) ∧
      (∀ u ∈ pushes, 33 ≤ u.2.length ∧ u.2.length ≤ 65) ∧
      sols = [DecodeOP_N om] :: (pushes.map Prod.snd ++ [[DecodeOP_N oN]]) := by
  obtain ⟨ok1, s1, c1, m1⟩ := matchT_head (by decide) h
  obtain ⟨l1, rfl⟩ := slot_SMALLINTEGER hP c1
  obtain ⟨ok2, pc', op', vch', sols1, sols2, hk, c2, m2⟩ := matchT_head_pubkeys m1
  obtain ⟨l2, rfl⟩ := slot_SMALLINTEGER hP c2
  obtain ⟨pc'', op'', vch'', units, hr, hu, hd⟩ :=
    pubkeysFull_decode (GetOp (GetOp s).pc).pc.length (GetOp (GetOp s).pc).pc
      (GetOp (GetOp s).pc).opcodeRet (GetOp (GetOp s).pc).vchRet
      ([] ++ [[DecodeOP_N (GetOp s).opcodeRet]]) (Nat.le_refl _) ⟨(GetOp s).pc, ok2, rfl, rfl⟩
  rw [hk] at hr
  simp only [Except.ok.injEq, Prod.mk.injEq] at hr
  obtain ⟨rfl, rfl, rfl, rfl⟩ := hr
  obtain ⟨ok3, s3, c3, m3⟩ := matchT_head (by decide) m2
  obtain ⟨e3, v3, rfl⟩ := slot_literal hP (by simp [sharedLiterals]) c3
  obtain ⟨hend, hsols⟩ := matchT_end m3
  rcases hd with hd | ⟨hd, q, qok, qop, qv⟩
  · rw [hd] at l2
    simp [OP_INVALIDOPCODE, OP_0, OP_1, OP_16] at l2
  · have v1 := smallint_no_data ok1 l1
    have v2 : vch' = [] := by
      rw [← qv]
      exact smallint_no_data qok (by rw [qop]; exact l2)
    subst v2
    refine ⟨(GetOp s).opcodeRet, units, op', ?_, hu, ?_⟩
    · rw [decodeOps_cons ok1, decodeOps_cons ok2, hd, decodeOps_cons ok3, hend, decodeOps_nil,
        v1, e3, v3]
    · rw [hsols]
      simp

/-- C8. For a script that `Solver` classifies as `TX_MULTISIG`: the script
decodes to a small-integer opcode `om`, pushes of 33 to 65 bytes (the embedded
keys), a small-integer opcode and `OP_CHECKMULTISIG`, and decodes to its end;
the solutions are `[m]`, the data of these pushes in script order, `[n]`;
`ExtractDestinations` returns true if and only if one of the embedded keys is
valid, its addresses are the key hashes of the valid embedded keys in script
order, the invalid keys being skipped, and `nRequired` is `m`, the number of
`om`. For `m = 2` and three valid keys of 33 bytes it returns three key hashes
and `nRequired = 2`. -/
theorem C8_multisig_destinations (P : Params) (hP : P.wellFormed = true) :
    (∀ (s : CScript) (sols : List valtype) (nRequiredRet : Int),
      Solver P s [] = .ok (true, TX_MULTISIG, sols) →
      ∃ (om : Nat) (pushes : List (Nat × valtype)) (oN : Nat),
        decodeOps s.length s = (om, []) :: (pushes ++ [(oN, []), (OP_CHECKMULTISIG, [])]) ∧
        decodeFails s.length s = false ∧
        (∀ u ∈ pushes, 33 ≤ u.2.length ∧ u.2.length ≤ 65) ∧
        sols = [DecodeOP_N om] :: (pushes.map Prod.snd ++ [[DecodeOP_N oN]]) ∧
        ExtractDestinations P s nRequiredRet =
          .ok ((pushes.map Prod.snd).any P.pubKeyIsValid, TX_MULTISIG,
            ((pushes.map Prod.snd).filter P.pubKeyIsValid).map
              (fun k => .CKeyID (P.pubKeyGetID k)),
            (DecodeOP_N om : Int))) ∧
    (∀ (k1 k2 k3 : valtype) (nRequiredRet : Int),
      k1.length = 33 → k2.length = 33 → k3.length = 33 →
      P.pubKeyIsValid k1 = true → P.pubKeyIsValid k2 = true → P.pubKeyIsValid k3 = true →
      ExtractDestinations P (GetScriptForMultisig 2 [k1, k2, k3]) nRequiredRet =
        .ok (true, TX_MULTISIG,
          [.CKeyID (P.pubKeyGetID k1), .CKeyID (P.pubKeyGetID k2), .CKeyID (P.pubKeyGetID k3)],
          2)) := by
  constructor
  · intro s sols nRequiredRet hs
    obtain ⟨_, x, hx, hxt, hm⟩ := Solver_template hP hs (by decide) (by decide)
    have hg := templates_guarded hP x hx
    have hdec := matchT_decodes hP x.1 x.2 s [] hg hm
    rw [hxt, templates_multisig P x hx hxt] at hm
    obtain ⟨om, pushes, oN, hU, hu, hsols⟩ := matchT_multisig_decode hP hm
    subst hsols
    exact ⟨om, pushes, oN, hU, hdec _, hu, rfl, ExtractDestinations_multisig hs nRequiredRet⟩
  · intro k1 k2 k3 nRequiredRet h1 h2 h3 v1 v2 v3
    have hs := @Solver_multisig_script P hP 2 [k1, k2, k3] (by decide) (by simp) (by simp)
      (by simp [h1, h2, h3]) []
    rw [ExtractDestinations_multisig hs nRequiredRet]
    simp [v1, v2, v3]

theorem C8_multisig_destinations_witness :
    sampleParams.wellFormed = true ∧
      ExtractDestinations sampleParams
          (GetScriptForMultisig 2 [sampleKey 1, List.replicate 33 0, sampleKey 3]) 0 =
        .ok (true, TX_MULTISIG,
          [.CKeyID (sampleParams.pubKeyGetID (sampleKey 1)),
            .CKeyID (sampleParams.pubKeyGetID (sampleKey 3))], 2) ∧
      ExtractDestinations sampleParams
          (GetScriptForMultisig 2 [sampleKey 1, sampleKey 2, sampleKey 3]) 0 =
        .ok (true, TX_MULTISIG,
          [.CKeyID (sampleParams.pubKeyGetID (sampleKey 1)),
            .CKeyID (sampleParams.pubKeyGetID (sampleKey 2)),
            .CKeyID (sampleParams.pubKeyGetID (sampleKey 3))], 2) := by
  have hs : Solver sampleParams
      (GetScriptForMultisig 2 [sampleKey 1, List.replicate 33 0, sampleKey 3]) [] =
      .ok (true, TX_MULTISIG, [[2], sampleKey 1, List.replicate 33 0, sampleKey 3, [3]]) := rfl
  refine ⟨by decide, ?_,
    (C8_multisig_destinations sampleParams (by decide)).2 (sampleKey 1) (sampleKey 2)
      (sampleKey 3) 0 (by decide) (by decide) (by decide) (by decide) (by decide) (by decide)⟩
  obtain ⟨om, pushes, oN, _, _, _, hsols, hext⟩ :=
    (C8_multisig_destinations sampleParams (by decide)).1 _ _ 0 hs
  rw [hext]
  simp only [List.cons.injEq] at hsols
  obtain ⟨⟨hm, _⟩, hk⟩ := hsols
  have hkeys : pushes.map Prod.snd = [sampleKey 1, List.replicate 33 0, sampleKey 3] := by
    have h5 : ([sampleKey 1, List.replicate 33 0, sampleKey 3] ++ [[3]] : List valtype) =
        pushes.map Prod.snd ++ [[DecodeOP_N oN]] := hk
    exact ((List.append_inj' h5 rfl).1).symm
  rw [hkeys, ← hm]
  rfl

end Standard
